import Mathlib

/-!
# BankMore: ledger, idempotent movements and the transfer saga

A shallow embedding of the Go services of the repository.

* `internal/account/domain/account.go`, `internal/account/repository/account_repository.go`,
  `internal/account/service/account_service.go`, `internal/account/handlers/account_handler.go`:
  the account tables, the balance query, `CreateMovement` and its HTTP handler.
* `internal/transfer/domain/transfer.go`, `internal/transfer/repository/transfer_repository.go`,
  `internal/transfer/service/transfer_service.go`: the transfer record and the saga.
* `internal/shared/kafka/producer.go`, `internal/shared/models/error.go`: the event and the
  error type constants.
* `internal/fee/domain/fee.go`, `internal/fee/service/fee_service.go`: the fee record and
  the handler of transfer events; `internal/shared/kafka/consumer.go`: the consumer loop.
* `internal/shared/utils/cpf.go` and `accountService.Register`: the CPF check and the
  registration of accounts.

Conventions of the embedding.

* The SQLite database shared by the services is one `State` value; every Go method that
  touches it is a function from a state to a state and a result.
* Whatever a call cannot control is an explicit input: the identifier drawn by `uuid.New()`,
  whether a repository call reports an error, whether an HTTP request is delivered and
  answered, whether the broker acknowledges a message.
* `float64` amounts are exact rationals: rounding of the SQL engine and of Go arithmetic is
  outside the embedding.
* Timestamps carry no behaviour; a completion date is kept as a flag that it is set.
-/

namespace BankMore

/-! ## Account domain (`internal/account/domain/account.go`) -/

/-- Row of table `contacorrente`. -/
structure Account where
  ID : String
  Number : Int
  Name : String
  CPF : String
  Active : Bool
  PasswordHash : String
  Salt : String
  deriving DecidableEq, Repr

/-- Row of table `movimento`; `Kind` is the Go field `Type` (column `tipomovimento`). -/
structure Movement where
  ID : String
  AccountID : String
  Kind : String
  Amount : ℚ
  IdempotencyKey : Option String
  deriving DecidableEq, Repr

/-- Constant `MovementTypeCredit`. -/
def MovementTypeCredit : String := "C"

/-- Constant `MovementTypeDebit`. -/
def MovementTypeDebit : String := "D"

/-- Body of `POST /api/account/movement` (`service.MovementRequest`); `Kind` is the Go
field `Type` (JSON `type`). -/
structure MovementRequest where
  RequestID : String
  AccountNumber : String
  Amount : ℚ
  Kind : String
  deriving DecidableEq, Repr

/-- Row of table `idempotencia`.  `Request` holds the request whose JSON text the Go code
stores in column `requisicao`. -/
structure Idempotency where
  Key : String
  Request : MovementRequest
  Result : String
  deriving DecidableEq, Repr

/-- Constructor `NewMovement`, with the identifier drawn by `uuid.New()` as an argument. -/
def NewMovement (id accountID movementType : String) (amount : ℚ)
    (idempotencyKey : Option String) : Movement :=
  { ID := id, AccountID := accountID, Kind := movementType, Amount := amount,
    IdempotencyKey := idempotencyKey }

/-! ## Transfer and fee domain, event payload -/

/-- Constant `TransferStatusPending`. -/
def TransferStatusPending : Int := 0

/-- Constant `TransferStatusCompleted`. -/
def TransferStatusCompleted : Int := 1

/-- Constant `TransferStatusFailed`. -/
def TransferStatusFailed : Int := 2

/-- Row of table `transferencia`.  `CompletionDate` records whether the pointer is set. -/
structure Transfer where
  ID : String
  OriginAccountID : String
  DestinationAccountID : String
  Amount : ℚ
  Status : Int
  CompletionDate : Bool
  Description : String
  IdempotencyKey : Option String
  deriving DecidableEq, Repr

/-- Row of table `tarifa` (`internal/fee/domain/fee.go`). -/
structure Fee where
  ID : String
  AccountID : String
  Amount : ℚ
  deriving DecidableEq, Repr

/-- Payload `kafka.TransferEvent`. -/
structure TransferEvent where
  RequestID : String
  OriginAccountID : String
  DestinationAccountID : String
  DestinationAccountNumber : String
  Amount : ℚ
  TransferID : String
  deriving DecidableEq, Repr

/-! ## The shared store -/

/-- The database tables, the topic `transfer-events`, and the log of the movement requests
posted to the account API (`sent`, kept to state which remote calls were issued). -/
structure State where
  accounts : List Account
  movements : List Movement
  idempotency : List Idempotency
  transfers : List Transfer
  fees : List Fee
  events : List TransferEvent
  sent : List MovementRequest
  deriving DecidableEq, Repr

/-- A store holding the given accounts and nothing else. -/
def emptyLedger (accounts : List Account) : State :=
  { accounts := accounts, movements := [], idempotency := [], transfers := [], fees := [],
    events := [], sent := [] }

/-! ## Account repository (`internal/account/repository/account_repository.go`) -/

/-- Rendering `strconv.Itoa`. -/
def strconvItoa (n : Int) : String := toString n

/-- Query `GetByNumber`: the first account whose `numero` equals the text parameter; the
comparison of the integer column with the text is equality with the decimal rendering. -/
def GetByNumber (st : State) (number : String) : Option Account :=
  st.accounts.find? (fun a => strconvItoa a.Number == number)

/-- Summand of the balance query: `CASE WHEN tipomovimento = 'C' THEN valor ELSE -valor END`. -/
def signedAmount (m : Movement) : ℚ :=
  if m.Kind = "C" then m.Amount else -m.Amount

/-- Query `GetBalance` with the sum taken exactly: the number that
`COALESCE(SUM(CASE ...), 0)` over the rows `WHERE idcontacorrente = ?` denotes.  The answer
of the database engine, which adds float64 values, is `GetBalanceWith`. -/
def GetBalance (movements : List Movement) (accountID : String) : ℚ :=
  ((movements.filter (fun m => m.AccountID == accountID)).map signedAmount).sum

/-- Query `CheckIdempotency`: the record stored under the key, if any. -/
def CheckIdempotency (st : State) (key : String) : Option Idempotency :=
  st.idempotency.find? (fun r => r.Key == key)

/-- Insert `repo.CreateMovement`: append the row. -/
def insertMovement (st : State) (m : Movement) : State :=
  { st with movements := st.movements ++ [m] }

/-- Insert `SaveIdempotency`: append the record unless the call fails or the primary key
`chave_idempotencia` is already taken; the Go caller discards the error. -/
def SaveIdempotency (fails : Bool) (st : State) (r : Idempotency) : State :=
  if fails || (CheckIdempotency st r.Key).isSome then st
  else { st with idempotency := st.idempotency ++ [r] }

/-! ## Account service (`internal/account/service/account_service.go`) -/

/-- The record `idempotencyRecord` that `CreateMovement` saves: the request under its
`RequestID`, with result "SUCCESS". -/
def successRecord (request : MovementRequest) : Idempotency :=
  { Key := request.RequestID, Request := request, Result := "SUCCESS" }

/-- The errors `CreateMovement` returns, one constructor for each message. -/
inductive MovementError where
  | invalidType
  | nonPositiveAmount
  | internalError
  | accountNotFound
  | inactiveAccount
  | insufficientBalance
  deriving DecidableEq, Repr

/-- Text of the Go error (`err.Error()`). -/
def MovementError.message : MovementError → String
  | .invalidType => "tipo de movimentação inválido"
  | .nonPositiveAmount => "valor deve ser positivo"
  | .internalError => "erro interno do servidor"
  | .accountNotFound => "conta não encontrada"
  | .inactiveAccount => "conta inativa"
  | .insufficientBalance => "saldo insuficiente"

/-- What one `CreateMovement` call cannot control: the identifier of the new movement and,
for each repository call, whether it reports an error (other than record-not-found). -/
structure MovementEnv where
  newID : String
  checkIdempotencyFails : Bool
  getByNumberFails : Bool
  getBalanceFails : Bool
  createMovementFails : Bool
  saveIdempotencyFails : Bool
  deriving DecidableEq, Repr

/-- An environment in which every repository call works. -/
def MovementEnv.ok (id : String) : MovementEnv :=
  { newID := id, checkIdempotencyFails := false, getByNumberFails := false,
    getBalanceFails := false, createMovementFails := false, saveIdempotencyFails := false }

/-- Method `accountService.CreateMovement`: the new store and the returned error
(`none` is Go's `nil`). -/
def CreateMovement (env : MovementEnv) (st : State) (request : MovementRequest) :
    State × Option MovementError :=
  if request.Kind ≠ MovementTypeCredit ∧ request.Kind ≠ MovementTypeDebit then
    (st, some .invalidType)
  else if request.Amount ≤ 0 then
    (st, some .nonPositiveAmount)
  else if env.checkIdempotencyFails then
    (st, some .internalError)
  else
    match CheckIdempotency st request.RequestID with
    | some _ => (st, none)
    | none =>
      if env.getByNumberFails then (st, some .internalError)
      else
        match GetByNumber st request.AccountNumber with
        | none => (st, some .accountNotFound)
        | some account =>
          if account.Active = false then (st, some .inactiveAccount)
          else if request.Kind = MovementTypeDebit ∧ env.getBalanceFails = true then
            (st, some .internalError)
          else if request.Kind = MovementTypeDebit ∧
              GetBalance st.movements account.ID < request.Amount then
            (st, some .insufficientBalance)
          else if env.createMovementFails then (st, some .internalError)
          else
            let movement := NewMovement env.newID account.ID request.Kind request.Amount
              (some request.RequestID)
            let st1 := insertMovement st movement
            (SaveIdempotency env.saveIdempotencyFails st1 (successRecord request), none)

/-! ## Error type constants (`internal/shared/models/error.go`) -/

/-- Constant `ErrorInactiveAccount`. -/
def ErrorInactiveAccount : String := "INACTIVE_ACCOUNT"

/-- Constant `ErrorInsufficientBalance`. -/
def ErrorInsufficientBalance : String := "INSUFFICIENT_BALANCE"

/-- Constant `ErrorInvalidAmount`. -/
def ErrorInvalidAmount : String := "INVALID_AMOUNT"

/-- Constant `ErrorInvalidTransfer`. -/
def ErrorInvalidTransfer : String := "INVALID_TRANSFER"

/-- Constant `ErrorAccountNotFound`. -/
def ErrorAccountNotFound : String := "ACCOUNT_NOT_FOUND"

/-- Constant `ErrorInternalError`. -/
def ErrorInternalError : String := "INTERNAL_ERROR"

/-- Constant `ErrorInvalidData`. -/
def ErrorInvalidData : String := "INVALID_DATA"

/-- Body `models.ErrorResponse`; `Kind` is the Go field `Type` (JSON `type`). -/
structure ErrorResponse where
  Message : String
  Kind : String
  deriving DecidableEq, Repr

/-! ## Account handler (`internal/account/handlers/account_handler.go`) -/

/-- Status code and error body written by a handler. -/
structure HttpResponse where
  status : Nat
  body : Option ErrorResponse
  deriving DecidableEq, Repr

/-- Binding `c.ShouldBindJSON(&request)`: `none` stands for a body that is not a JSON
movement request; a field tagged `binding:"required"` is rejected at its zero value. -/
def bindMovementRequest (body : Option MovementRequest) : Option MovementRequest :=
  match body with
  | none => none
  | some r =>
    if r.RequestID = "" ∨ r.AccountNumber = "" ∨ r.Amount = 0 ∨ r.Kind = "" then none
    else some r

/-- Handler `AccountHandler.CreateMovement`. -/
def AccountHandler.CreateMovement (env : MovementEnv) (st : State)
    (body : Option MovementRequest) : State × HttpResponse :=
  match bindMovementRequest body with
  | none => (st, { status := 400, body := some { Kind := ErrorInvalidData,
                                                 Message := "Dados inválidos" } })
  | some request =>
    match BankMore.CreateMovement env st request with
    | (st1, some err) =>
      (st1, { status := 400, body := some { Kind := ErrorInvalidData,
                                            Message := err.message } })
    | (st1, none) => (st1, { status := 204, body := none })

/-- The store after a movement was appended and its idempotency record saved. -/
def appended (env : MovementEnv) (st : State) (request : MovementRequest)
    (account : Account) : State :=
  SaveIdempotency env.saveIdempotencyFails
    (insertMovement st (NewMovement env.newID account.ID request.Kind request.Amount
      (some request.RequestID)))
    (successRecord request)

/-- Sequential execution of `CreateMovement` calls, each with its own environment. -/
def runMovements (st : State) : List (MovementEnv × MovementRequest) → State
  | [] => st
  | c :: rest => runMovements (CreateMovement c.1 st c.2).1 rest

/-! ## Transfer domain (`internal/transfer/domain/transfer.go`) -/

/-- Constructor `NewTransfer`, with the identifier drawn by `uuid.New()` as an argument. -/
def NewTransfer (id originAccountID destinationAccountID : String) (amount : ℚ)
    (description : String) (idempotencyKey : Option String) : Transfer :=
  { ID := id, OriginAccountID := originAccountID,
    DestinationAccountID := destinationAccountID, Amount := amount,
    Status := TransferStatusPending, CompletionDate := false, Description := description,
    IdempotencyKey := idempotencyKey }

/-- Method `Transfer.Complete`. -/
def Transfer.Complete (t : Transfer) : Transfer :=
  { t with Status := TransferStatusCompleted, CompletionDate := true }

/-- Method `Transfer.Fail`. -/
def Transfer.Fail (t : Transfer) : Transfer :=
  { t with Status := TransferStatusFailed, CompletionDate := true }

/-! ## Transfer service (`internal/transfer/service/transfer_service.go`) -/

/-- Body of `POST /api/transfer`. -/
structure CreateTransferRequest where
  RequestID : String
  DestinationAccountNumber : String
  Amount : ℚ
  deriving DecidableEq, Repr

/-- Payload `TransferResponse`. -/
structure TransferResponse where
  TransferID : String
  Message : String
  deriving DecidableEq, Repr

/-- Value `models.Result[TransferResponse]`; an unset field holds its zero value. -/
structure Result where
  IsSuccess : Bool
  Data : TransferResponse
  ErrorType : String
  ErrorMessage : String
  deriving DecidableEq, Repr

/-- A failed `Result`. -/
def Result.failure (errorType errorMessage : String) : Result :=
  { IsSuccess := false, Data := { TransferID := "", Message := "" }, ErrorType := errorType,
    ErrorMessage := errorMessage }

/-- What one HTTP call to the movement endpoint cannot control: whether the request reaches
the handler (the connection and whatever sits in front of the route), whether the answer
reaches the caller, and the environment of the handler. -/
structure CallEnv where
  delivered : Bool
  answered : Bool
  movement : MovementEnv
  deriving DecidableEq, Repr

/-- What one `CreateTransfer` call cannot control. -/
structure TransferEnv where
  newID : String
  lookupFails : Bool
  balanceFails : Bool
  createFails : Bool
  debit : CallEnv
  credit : CallEnv
  rollback : CallEnv
  updateFails : Bool
  publishFails : Bool
  deriving DecidableEq, Repr

/-- Query `getAccountIDByNumberFromDB`: `Scan` of `idcontacorrente` for the number; no row
leaves the empty string. -/
def getAccountIDByNumberFromDB (st : State) (accountNumber : String) : String :=
  match GetByNumber st accountNumber with
  | some a => a.ID
  | none => ""

/-- Method `getAccountIDByNumber`: `GET /api/account/balance/{number}` answers 404 for an
unknown number; any other failure of the request or of the query is `fails`.  The result
`none` is a Go error. -/
def getAccountIDByNumber (fails : Bool) (st : State) (accountNumber : String) :
    Option String :=
  if fails then none
  else
    match GetByNumber st accountNumber with
    | none => none
    | some _ => some (getAccountIDByNumberFromDB st accountNumber)

/-- Method `getAccountBalance`: the balance query on table `movimento`. -/
def getAccountBalance (st : State) (accountID : String) : ℚ :=
  GetBalance st.movements accountID

/-- Method `getAccountNumberByID`: `Scan` of `numero` for the id, rendered with
`strconv.Itoa`; no row leaves 0. -/
def getAccountNumberByID (st : State) (accountID : String) : String :=
  match st.accounts.find? (fun a => a.ID == accountID) with
  | some a => strconvItoa a.Number
  | none => strconvItoa 0

/-- Method `callAccountMovementAPI`: post the request and report whether the answer was
204 (`true` is Go's `nil` error).  The request is logged in `sent`. -/
def callAccountMovementAPI (env : CallEnv) (st : State) (request : MovementRequest) :
    State × Bool :=
  let st1 := { st with sent := st.sent ++ [request] }
  if env.delivered then
    let r := AccountHandler.CreateMovement env.movement st1 (some request)
    (r.1, env.answered && r.2.status == 204)
  else (st1, false)

/-- Request map `debitRequest`. -/
def debitRequest (st : State) (transfer : Transfer) : MovementRequest :=
  { RequestID := transfer.ID ++ "-debit",
    AccountNumber := getAccountNumberByID st transfer.OriginAccountID,
    Amount := transfer.Amount, Kind := "D" }

/-- Request map `creditRequest`. -/
def creditRequest (st : State) (transfer : Transfer) : MovementRequest :=
  { RequestID := transfer.ID ++ "-credit",
    AccountNumber := getAccountNumberByID st transfer.DestinationAccountID,
    Amount := transfer.Amount, Kind := "C" }

/-- Request map `rollbackRequest`. -/
def rollbackRequest (st : State) (transfer : Transfer) : MovementRequest :=
  { RequestID := transfer.ID ++ "-rollback",
    AccountNumber := getAccountNumberByID st transfer.OriginAccountID,
    Amount := transfer.Amount, Kind := "C" }

/-- Method `processTransferMovements`: `true` is Go's `nil` error. -/
def processTransferMovements (env : TransferEnv) (st : State) (transfer : Transfer) :
    State × Bool :=
  let d := callAccountMovementAPI env.debit st (debitRequest st transfer)
  if d.2 = false then (d.1, false)
  else
    let c := callAccountMovementAPI env.credit d.1 (creditRequest d.1 transfer)
    if c.2 = false then
      let r := callAccountMovementAPI env.rollback c.1 (rollbackRequest c.1 transfer)
      (r.1, false)
    else (c.1, true)

/-- Insert `transferRepository.Create`. -/
def insertTransfer (st : State) (t : Transfer) : State :=
  { st with transfers := st.transfers ++ [t] }

/-- Write `transferRepository.Update` (`db.Save`): replace the row with the same primary
key, insert it when there is none; a failed call writes nothing. -/
def updateTransfer (fails : Bool) (st : State) (t : Transfer) : State :=
  if fails then st
  else if st.transfers.any (fun x => x.ID == t.ID) then
    { st with transfers := st.transfers.map (fun x => if x.ID = t.ID then t else x) }
  else { st with transfers := st.transfers ++ [t] }

/-- Method `Producer.PublishTransferEvent`: append the event to the topic unless the send
fails. -/
def PublishTransferEvent (fails : Bool) (st : State) (event : TransferEvent) : State :=
  if fails then st else { st with events := st.events ++ [event] }

/-- Method `transferService.CreateTransfer`. -/
def CreateTransfer (env : TransferEnv) (st : State) (request : CreateTransferRequest)
    (originAccountID : String) : State × Result :=
  if request.Amount ≤ 0 then
    (st, Result.failure ErrorInvalidAmount "Valor deve ser positivo")
  else
    match getAccountIDByNumber env.lookupFails st request.DestinationAccountNumber with
    | none => (st, Result.failure ErrorAccountNotFound "Conta de destino não encontrada")
    | some destinationAccountID =>
      if originAccountID = destinationAccountID then
        (st, Result.failure ErrorInvalidTransfer
          "Não é possível transferir para a mesma conta")
      else if env.balanceFails then
        (st, Result.failure ErrorInternalError "Erro interno do servidor")
      else if getAccountBalance st originAccountID < request.Amount then
        (st, Result.failure ErrorInsufficientBalance "Saldo insuficiente")
      else
        let description := "Transferência para conta " ++ request.DestinationAccountNumber
        let transfer := NewTransfer env.newID originAccountID destinationAccountID
          request.Amount description (some request.RequestID)
        if env.createFails then
          (st, Result.failure ErrorInternalError "Erro interno do servidor")
        else
          let st1 := insertTransfer st transfer
          let p := processTransferMovements env st1 transfer
          if p.2 = false then
            (updateTransfer env.updateFails p.1 transfer.Fail,
              Result.failure ErrorInternalError "Erro ao processar transferência")
          else
            let st2 := updateTransfer env.updateFails p.1 transfer.Complete
            let event : TransferEvent :=
              { RequestID := request.RequestID, OriginAccountID := originAccountID,
                DestinationAccountID := destinationAccountID,
                DestinationAccountNumber := request.DestinationAccountNumber,
                Amount := request.Amount, TransferID := transfer.ID }
            (PublishTransferEvent env.publishFails st2 event,
              { IsSuccess := true,
                Data := { TransferID := transfer.ID,
                          Message := "Transferência realizada com sucesso" },
                ErrorType := "", ErrorMessage := "" })

/-! ## Reference quantities and predicates used by the statements -/

/-- Sum of the amounts of the movements of one account that have the given type. -/
def sumOfKind (movements : List Movement) (accountID kind : String) : ℚ :=
  ((movements.filter (fun m => m.AccountID == accountID && m.Kind == kind)).map
    (fun m => m.Amount)).sum

/-- The movements that carry the given idempotency key. -/
def movementsWithKey (st : State) (key : String) : List Movement :=
  st.movements.filter (fun m => m.IdempotencyKey == some key)

/-- The constraints of table `contacorrente`: `idcontacorrente` is the primary key and
`numero` is unique (stated on the decimal rendering, which is what the lookups compare). -/
def AccountsConsistent (st : State) : Prop :=
  ∀ a ∈ st.accounts, ∀ b ∈ st.accounts,
    (a.ID = b.ID ∨ strconvItoa a.Number = strconvItoa b.Number) → a = b

instance (st : State) : Decidable (AccountsConsistent st) := by
  unfold AccountsConsistent; infer_instance

/-- No repository call of the movement fails. -/
def MovementEnv.noFault (env : MovementEnv) : Prop :=
  env.checkIdempotencyFails = false ∧ env.getByNumberFails = false ∧
  env.getBalanceFails = false ∧ env.createMovementFails = false ∧
  env.saveIdempotencyFails = false

instance (env : MovementEnv) : Decidable env.noFault := by
  unfold MovementEnv.noFault; infer_instance

/-- The remote call goes through: delivered, answered, and no repository call fails. -/
def CallEnv.works (env : CallEnv) : Prop :=
  env.delivered = true ∧ env.answered = true ∧ env.movement.noFault

instance (env : CallEnv) : Decidable env.works := by
  unfold CallEnv.works; infer_instance

/-- A call environment in which everything works. -/
def CallEnv.ok (id : String) : CallEnv :=
  { delivered := true, answered := true, movement := MovementEnv.ok id }

/-- Movements and idempotency records were written in step: same keys in the same order,
no key twice, every record a success. -/
def KeysInStep (st : State) : Prop :=
  st.movements.map (fun m => m.IdempotencyKey) = st.idempotency.map (fun r => some r.Key) ∧
  (st.idempotency.map (fun r => r.Key)).Nodup ∧
  ∀ r ∈ st.idempotency, r.Result = "SUCCESS"


/-! ## Concrete stores and requests used by the witnesses -/

/-- An active account, number 100001. -/
def sampleOrigin : Account :=
  { ID := "acc-1", Number := 100001, Name := "Ana", CPF := "52998224725", Active := true,
    PasswordHash := "hash-1", Salt := "salt-1" }

/-- An active account, number 100002. -/
def sampleDestination : Account :=
  { ID := "acc-2", Number := 100002, Name := "Bruno", CPF := "11144477735", Active := true,
    PasswordHash := "hash-2", Salt := "salt-2" }

/-- The deposit of 100.00 that opened the sample ledger. -/
def sampleDeposit : MovementRequest :=
  { RequestID := "dep-1", AccountNumber := "100001", Amount := 100, Kind := "C" }

/-- Two accounts; the first holds 100.00 from one recorded deposit. -/
def sampleLedger : State :=
  { accounts := [sampleOrigin, sampleDestination],
    movements := [{ ID := "mov-1", AccountID := "acc-1", Kind := "C", Amount := 100,
                    IdempotencyKey := some "dep-1" }],
    idempotency := [successRecord sampleDeposit],
    transfers := [], fees := [], events := [], sent := [] }

/-- A debit of 150.00 on account 100001 under a fresh key. -/
def sampleOverdraft : MovementRequest :=
  { RequestID := "wd-1", AccountNumber := "100001", Amount := 150, Kind := "D" }

/-- A log with two movements of account `acc-1` and one of `acc-2`. -/
def sampleLog : List Movement :=
  [{ ID := "m1", AccountID := "acc-1", Kind := "C", Amount := 100, IdempotencyKey := none },
   { ID := "m2", AccountID := "acc-2", Kind := "C", Amount := 7, IdempotencyKey := none },
   { ID := "m3", AccountID := "acc-1", Kind := "D", Amount := 30, IdempotencyKey := none }]

/-! ## Steps of the saga, named for the statements -/

/-- The record `CreateTransfer` builds with `NewTransfer` before the remote calls. -/
def pendingTransfer (env : TransferEnv) (request : CreateTransferRequest)
    (originAccountID destinationAccountID : String) : Transfer :=
  NewTransfer env.newID originAccountID destinationAccountID request.Amount
    ("Transferência para conta " ++ request.DestinationAccountNumber)
    (some request.RequestID)

/-- First call of `processTransferMovements`: the debit of the origin. -/
def debitStep (env : TransferEnv) (st : State) (transfer : Transfer) : State × Bool :=
  callAccountMovementAPI env.debit st (debitRequest st transfer)

/-- Second call of `processTransferMovements`, made after a successful debit: the credit
of the destination. -/
def creditStep (env : TransferEnv) (st : State) (transfer : Transfer) : State × Bool :=
  callAccountMovementAPI env.credit (debitStep env st transfer).1
    (creditRequest (debitStep env st transfer).1 transfer)

/-- The store after a posted movement request was applied to the account: the request is
logged as sent, its movement appended and its record saved. -/
def applied (st : State) (newID : String) (account : Account) (request : MovementRequest) :
    State :=
  { st with
    movements := st.movements ++ [NewMovement newID account.ID request.Kind request.Amount
      (some request.RequestID)],
    idempotency := st.idempotency ++ [successRecord request],
    sent := st.sent ++ [request] }

/-- The debit request of the saga once the origin's number is resolved. -/
def sagaDebit (transferID : String) (originNumber : Int) (amount : ℚ) : MovementRequest :=
  { RequestID := transferID ++ "-debit", AccountNumber := strconvItoa originNumber,
    Amount := amount, Kind := "D" }

/-- The credit request of the saga once the destination's number is resolved. -/
def sagaCredit (transferID : String) (destinationNumber : Int) (amount : ℚ) :
    MovementRequest :=
  { RequestID := transferID ++ "-credit", AccountNumber := strconvItoa destinationNumber,
    Amount := amount, Kind := "C" }

/-- The event `CreateTransfer` publishes for a completed transfer. -/
def transferEvent (env : TransferEnv) (request : CreateTransferRequest)
    (originAccountID destinationAccountID : String) : TransferEvent :=
  { RequestID := request.RequestID, OriginAccountID := originAccountID,
    DestinationAccountID := destinationAccountID,
    DestinationAccountNumber := request.DestinationAccountNumber,
    Amount := request.Amount, TransferID := env.newID }

/-- Every step of the transfer works: lookups, writes, both movement calls, the publish. -/
def TransferEnv.allWork (env : TransferEnv) : Prop :=
  env.lookupFails = false ∧ env.balanceFails = false ∧ env.createFails = false ∧
  env.debit.works ∧ env.credit.works ∧ env.updateFails = false ∧ env.publishFails = false

instance (env : TransferEnv) : Decidable env.allWork := by
  unfold TransferEnv.allWork; infer_instance

/-- A transfer environment in which everything works; the movements get the identifiers
`id ++ "-m1"`, `id ++ "-m2"`, `id ++ "-m3"`. -/
def TransferEnv.ok (id : String) : TransferEnv :=
  { newID := id, lookupFails := false, balanceFails := false, createFails := false,
    debit := CallEnv.ok (id ++ "-m1"), credit := CallEnv.ok (id ++ "-m2"),
    rollback := CallEnv.ok (id ++ "-m3"), updateFails := false, publishFails := false }

/-- The deposit of 500.00 that opened the sample bank. -/
def sampleOpening : MovementRequest :=
  { RequestID := "dep-500", AccountNumber := "100001", Amount := 500, Kind := "C" }

/-- Two active accounts; the first holds 500.00, the second nothing. -/
def sampleBank : State :=
  { accounts := [sampleOrigin, sampleDestination],
    movements := [{ ID := "mov-1", AccountID := "acc-1", Kind := "C", Amount := 500,
                    IdempotencyKey := some "dep-500" }],
    idempotency := [successRecord sampleOpening],
    transfers := [], fees := [], events := [], sent := [] }

/-- A transfer of 100.00 to account 100002 under the client key `req-1`. -/
def sampleTransfer : CreateTransferRequest :=
  { RequestID := "req-1", DestinationAccountNumber := "100002", Amount := 100 }

/-- The sample bank after the sample transfer has run with transfer id `t1`. -/
def sampleBankAfterFirst : State :=
  (CreateTransfer (TransferEnv.ok "t1") sampleBank sampleTransfer "acc-1").1

/-- The sample bank after the same request has run a second time, with transfer id `t2`. -/
def sampleBankAfterRetry : State :=
  (CreateTransfer (TransferEnv.ok "t2") sampleBankAfterFirst sampleTransfer "acc-1").1

/-- Third call of `processTransferMovements`, made after a failed credit: the
compensating credit of the origin. -/
def rollbackStep (env : TransferEnv) (st : State) (transfer : Transfer) : State × Bool :=
  callAccountMovementAPI env.rollback (creditStep env st transfer).1
    (rollbackRequest (creditStep env st transfer).1 transfer)

/-- A transfer of 600.00 to account 100002: more than the 500.00 the origin holds. -/
def sampleTransferTooLarge : CreateTransferRequest :=
  { RequestID := "req-2", DestinationAccountNumber := "100002", Amount := 600 }

/-- The account 100001, deactivated. -/
def sampleClosedOrigin : Account :=
  { sampleOrigin with Active := false }

/-- The sample bank with the origin account deactivated. -/
def sampleBankClosedOrigin : State :=
  { sampleBank with accounts := [sampleClosedOrigin, sampleDestination] }

/-- The environment `TransferEnv.ok "t1"` with the broker refusing the event. -/
def samplePublishDown : TransferEnv :=
  { TransferEnv.ok "t1" with publishFails := true }

/-- Two stores that agree on every table and on the log of posted requests, the topic
left aside. -/
def sameButEvents (a b : State) : Prop :=
  a.transfers = b.transfers ∧ a.movements = b.movements ∧ a.idempotency = b.idempotency ∧
  a.accounts = b.accounts ∧ a.sent = b.sent ∧ a.fees = b.fees


/-! ## Fee domain and fee service (`internal/fee/domain/fee.go`,
`internal/fee/service/fee_service.go`) -/

/-- Constructor `NewFee`, with the identifier drawn by `uuid.New()` as an argument. -/
def NewFee (id accountID : String) (amount : ℚ) : Fee :=
  { ID := id, AccountID := accountID, Amount := amount }

/-- What one `HandleTransferEvent` call cannot control: the identifier `uuid.New()` draws,
the value of the variable `TRANSFER_FEE_AMOUNT`, the library function `strconv.ParseFloat`
(`none` is its error), whether `repo.Create` fails, whether the query of the account number
fails, whether `json.Marshal` of the debit request reports an error, and the HTTP call to
the movement endpoint.  `json.Marshal` rejects an amount that is NaN or infinite, which
`strconv.ParseFloat` accepts as a configured fee ("NaN", "Inf"); amounts are rationals here,
so that case enters as the flag `marshalFails`. -/
structure FeeEnv where
  newID : String
  feeAmountStr : String
  parseFloat : String → Option ℚ
  createFails : Bool
  numberQueryFails : Bool
  marshalFails : Bool
  debit : CallEnv

/-- Method `feeService.getTransferFeeAmount`: the configured amount, 2.00 when the variable
is empty or does not parse. -/
def feeService.getTransferFeeAmount (env : FeeEnv) : ℚ :=
  if env.feeAmountStr = "" then 2
  else
    match env.parseFloat env.feeAmountStr with
    | none => 2
    | some feeAmount => feeAmount

/-- Insert `feeRepository.Create`: append the row. -/
def insertFee (st : State) (fee : Fee) : State :=
  { st with fees := st.fees ++ [fee] }

/-- Method `feeService.getAccountNumberByID`: the query `Select("numero")` on
`contacorrente` for the id; `none` is the query's error, no row leaves 0, and the number is
rendered with `strconv.Itoa`.  The source reaches the database through the field `db` of a
`feeRepository` type local to the service file, declared as the empty interface; the handle is
taken to be the shared store, as for the same query of the transfer service. -/
def feeService.getAccountNumberByID (fails : Bool) (st : State) (accountID : String) :
    Option String :=
  if fails then none else some (BankMore.getAccountNumberByID st accountID)

/-- Request map built by `debitFeeFromAccount`. -/
def feeRequest (accountNumber : String) (amount : ℚ) (requestID : String) :
    MovementRequest :=
  { RequestID := requestID ++ "-fee", AccountNumber := accountNumber, Amount := amount,
    Kind := "D" }

/-- Method `feeService.debitFeeFromAccount`: resolve the number, encode the request (an
error of `json.Marshal` is returned before anything is posted), post the debit, and report
whether the answer was 204 (`true` is Go's `nil` error).  The post and the status test are
those of `callAccountMovementAPI`. -/
def feeService.debitFeeFromAccount (env : FeeEnv) (st : State) (accountID : String)
    (amount : ℚ) (requestID : String) : State × Bool :=
  match feeService.getAccountNumberByID env.numberQueryFails st accountID with
  | none => (st, false)
  | some accountNumber =>
    if env.marshalFails then (st, false)
    else callAccountMovementAPI env.debit st (feeRequest accountNumber amount requestID)

/-- Method `feeService.HandleTransferEvent`: the new store and the returned error (`none`
is Go's `nil`). -/
def feeService.HandleTransferEvent (env : FeeEnv) (st : State) (event : TransferEvent) :
    State × Option String :=
  let feeAmount := feeService.getTransferFeeAmount env
  let fee := NewFee env.newID event.OriginAccountID feeAmount
  if env.createFails then (st, some "erro ao criar tarifa")
  else
    let st1 := insertFee st fee
    let d := feeService.debitFeeFromAccount env st1 event.OriginAccountID feeAmount
      event.RequestID
    if d.2 = false then (d.1, some "erro ao debitar tarifa da conta")
    else (d.1, none)

/-- Deliveries of one event to the handler, one after the other, each with its own
environment. -/
def runDeliveries (st : State) (event : TransferEvent) : List FeeEnv → State
  | [] => st
  | env :: rest => runDeliveries (feeService.HandleTransferEvent env st event).1 event rest

/-- The event with another transfer amount. -/
def TransferEvent.withAmount (event : TransferEvent) (amount : ℚ) : TransferEvent :=
  { event with Amount := amount }

/-- A fee environment in which everything works and the fee variable is not set. -/
def FeeEnv.ok (id : String) : FeeEnv :=
  { newID := id, feeAmountStr := "", parseFloat := fun _ => none, createFails := false,
    numberQueryFails := false, marshalFails := false, debit := CallEnv.ok (id ++ "-m") }

/-- The store works for the fee, the request is encoded and the debit call goes through. -/
def FeeEnv.allWork (env : FeeEnv) : Prop :=
  env.createFails = false ∧ env.numberQueryFails = false ∧ env.marshalFails = false ∧
  env.debit.works

instance (env : FeeEnv) : Decidable env.allWork := by
  unfold FeeEnv.allWork; infer_instance

/-- The event published for the sample transfer of 100.00. -/
def sampleEvent : TransferEvent :=
  { RequestID := "req-1", OriginAccountID := "acc-1", DestinationAccountID := "acc-2",
    DestinationAccountNumber := "100002", Amount := 100, TransferID := "t1" }

/-- The fee debit of 2.00 for the sample event. -/
def sampleFeeRequest : MovementRequest :=
  { RequestID := "req-1-fee", AccountNumber := "100001", Amount := 2, Kind := "D" }

/-- The environment `FeeEnv.ok "f1"` with the fee insert failing. -/
def sampleFeeCreateDown : FeeEnv :=
  { FeeEnv.ok "f1" with createFails := true }

/-- The environment `FeeEnv.ok "f1"` with the debit call never delivered. -/
def sampleFeeDebitDown : FeeEnv :=
  { FeeEnv.ok "f1" with
    debit := { delivered := false, answered := false, movement := MovementEnv.ok "f1-m" } }

/-- The fee key is carried by no movement, or by exactly one and is recorded. -/
def FeeKeyOnce (st : State) (key : String) : Prop :=
  movementsWithKey st key = [] ∨
  ((movementsWithKey st key).length = 1 ∧ (CheckIdempotency st key).isSome = true)

/-! ## Further domain methods and samples -/

/-- Method `Account.Deactivate`. -/
def Account.Deactivate (a : Account) : Account :=
  { a with Active := false }

/-- The environment `FeeEnv.ok "f1"` with the fee variable set to "3.50", which parses
to 3.50. -/
def sampleFeeConfigured : FeeEnv :=
  { FeeEnv.ok "f1" with
    feeAmountStr := "3.50",
    parseFloat := fun s => if s = "3.50" then some (7 / 2) else none }

/-- The environment `FeeEnv.ok "f1"` with the fee variable set to "abc", which does not
parse. -/
def sampleFeeUnparsable : FeeEnv :=
  { FeeEnv.ok "f1" with
    feeAmountStr := "abc",
    parseFloat := fun s => if s = "3.50" then some (7 / 2) else none }

/-- A debit of exactly the 500.00 that account 100001 holds in the sample bank. -/
def sampleWithdrawAll : MovementRequest :=
  { RequestID := "wd-all", AccountNumber := "100001", Amount := 500, Kind := "D" }

/-- A credit of 10.00 to account 100001. -/
def sampleCredit : MovementRequest :=
  { RequestID := "cr-1", AccountNumber := "100001", Amount := 10, Kind := "C" }

/-- A credit of 10.00 to the unknown account 999999. -/
def sampleCreditUnknown : MovementRequest :=
  { RequestID := "cr-2", AccountNumber := "999999", Amount := 10, Kind := "C" }

/-- A message of the claim: its offset in the partition and its payload. -/
structure ConsumerMessage where
  Offset : Nat
  Value : String
  deriving DecidableEq, Repr

/-- What the loop of `ConsumeClaim` has done so far: the messages it passed to
`session.MarkMessage` and the events it passed to the handler, each in order. -/
structure ConsumerSession where
  marked : List ConsumerMessage
  handled : List TransferEvent
  deriving DecidableEq, Repr

/-- Method `Consumer.ConsumeClaim`, run on the values the loop receives from
`claim.Messages()` until the session's context is done (the end of the list): a nil message
ends the loop; an undecodable payload is marked and skipped; otherwise the handler is
called, its error only logged, and the message marked.  `unmarshal` is `json.Unmarshal`
into a `TransferEvent`, `handler` is `c.handler.HandleTransferEvent` acting on its store. -/
def ConsumeClaim {σ : Type} (unmarshal : String → Option TransferEvent)
    (handler : σ → TransferEvent → σ × Option String) :
    σ → ConsumerSession → List (Option ConsumerMessage) → σ × ConsumerSession
  | store, session, [] => (store, session)
  | store, session, none :: _ => (store, session)
  | store, session, some message :: rest =>
    match unmarshal message.Value with
    | none =>
      ConsumeClaim unmarshal handler store
        { session with marked := session.marked ++ [message] } rest
    | some event =>
      ConsumeClaim unmarshal handler (handler store event).1
        { marked := session.marked ++ [message], handled := session.handled ++ [event] } rest

/-- The messages delivered to the loop: those received before the first nil. -/
def deliveredMessages : List (Option ConsumerMessage) → List ConsumerMessage
  | [] => []
  | none :: _ => []
  | some message :: rest => message :: deliveredMessages rest

/-- The store after the handler has been called on the given events, one after the
other. -/
def handleAll {σ : Type} (handler : σ → TransferEvent → σ × Option String) :
    σ → List TransferEvent → σ
  | store, [] => store
  | store, event :: rest => handleAll handler (handler store event).1 rest

/-! ## CPF validation (`internal/shared/utils/cpf.go`)

A Go string is taken as the text it encodes; `len` counts the bytes of its UTF-8 encoding
and `range` walks its characters with their byte offsets.  The digit values and the sums
are non-negative and below 1000, so Go's `int` arithmetic on them is arithmetic on
naturals.  A `none` result stands for the run-time panic of an index out of range. -/

/-- Call `strings.ReplaceAll(s, old, "")` for a one-character `old`: every occurrence of
the character is dropped. -/
def stringsRemoveAll (s : String) (old : Char) : String :=
  String.mk (s.data.filter (fun c => c != old))

/-- Function `CleanCPF`. -/
def CleanCPF (cpf : String) : String :=
  stringsRemoveAll (stringsRemoveAll (stringsRemoveAll cpf '.') '-') ' '

/-- Go `len(s)`: the number of bytes of the text. -/
def goLen (s : String) : Nat :=
  (s.data.map Char.utf8Size).sum

/-- Call `strconv.Atoi(string(char))`: the value of an ASCII digit, an error (`none`) for
any other character. -/
def atoiChar (c : Char) : Option Nat :=
  if c.isDigit then some (c.toNat - 48) else none

/-- Loop `for i, char := range cpf` of `ValidateCPF`, from byte offset `i` on: `some none`
is the early `return false`, `none` the panic of `digits[i]` out of range. -/
def fillDigits : List Char → Nat → List Nat → Option (Option (List Nat))
  | [], _, digits => some (some digits)
  | char :: rest, i, digits =>
    match atoiChar char with
    | none => some none
    | some digit =>
      if i < digits.length then fillDigits rest (i + char.utf8Size) (digits.set i digit)
      else none

/-- Loop `for i := ...; i < bound; i++ { sum += digits[i] * (weight - i) }` of
`ValidateCPF` with `remaining = bound - i` rounds to go; `none` is the panic of `digits[i]`
out of range. -/
def sumLoop (digits : List Nat) (weight : Nat) : Nat → Nat → Nat → Option Nat
  | 0, _, sum => some sum
  | remaining + 1, i, sum =>
    match digits[i]? with
    | none => none
    | some d => sumLoop digits weight remaining (i + 1) (sum + d * (weight - i))

/-- Function `ValidateCPF` after its three `ReplaceAll` calls. -/
def validateCleaned (cpf : String) : Option Bool :=
  if goLen cpf ≠ 11 then some false
  else if cpf = "00000000000" ∨ cpf = "11111111111" ∨ cpf = "22222222222" ∨
      cpf = "33333333333" ∨ cpf = "44444444444" ∨ cpf = "55555555555" ∨
      cpf = "66666666666" ∨ cpf = "77777777777" ∨ cpf = "88888888888" ∨
      cpf = "99999999999" then some false
  else
    match fillDigits cpf.data 0 (List.replicate 11 0) with
    | none => none
    | some none => some false
    | some (some digits) =>
      match sumLoop digits 10 9 0 0, digits[9]? with
      | some sum, some d9 =>
        let remainder := sum % 11
        let firstDigit := if remainder ≥ 2 then 11 - remainder else 0
        if d9 ≠ firstDigit then some false
        else
          match sumLoop digits 11 10 0 0, digits[10]? with
          | some sum2, some d10 =>
            let remainder2 := sum2 % 11
            let secondDigit := if remainder2 ≥ 2 then 11 - remainder2 else 0
            some (d10 == secondDigit)
          | _, _ => none
      | _, _ => none

/-- Function `ValidateCPF`. -/
def ValidateCPF (cpf : String) : Option Bool :=
  validateCleaned
    (stringsRemoveAll (stringsRemoveAll (stringsRemoveAll cpf '.') '-') ' ')

/-- The characters of the text with every '.', '-' and ' ' removed. -/
def cpfCharacters (s : String) : List Char :=
  s.data.filter (fun c => c ≠ '.' ∧ c ≠ '-' ∧ c ≠ ' ')

/-- The value d_i of the i-th character read as an ASCII digit. -/
def cpfDigit (t : List Char) (i : Nat) : Nat :=
  (t.getD i '0').toNat - 48

/-- The check digit c(x): 0 if x mod 11 < 2 and 11 - (x mod 11) otherwise. -/
def cpfCheckDigit (x : Nat) : Nat :=
  if x % 11 < 2 then 0 else 11 - x % 11

/-- The stated validity of a text without separators: it consists of 11 ASCII digits
d0..d10 that are not all equal, d9 = c(sum over i < 9 of d_i * (10 - i)) and
d10 = c(sum over i < 10 of d_i * (11 - i)). -/
def StatedValidDigits (t : List Char) : Prop :=
  t.length = 11 ∧ (∀ c ∈ t, c.isDigit = true) ∧ ¬ (∀ c ∈ t, ∀ c2 ∈ t, c = c2) ∧
  cpfDigit t 9 = cpfCheckDigit (Finset.sum (Finset.range 9) (fun i => cpfDigit t i * (10 - i))) ∧
  cpfDigit t 10 =
    cpfCheckDigit (Finset.sum (Finset.range 10) (fun i => cpfDigit t i * (11 - i)))

instance (t : List Char) : Decidable (StatedValidDigits t) := by
  unfold StatedValidDigits; infer_instance

/-- The stated validity of a CPF text: the stated validity of its characters once every
'.', '-' and ' ' is removed. -/
def StatedValidCPF (s : String) : Prop :=
  StatedValidDigits (cpfCharacters s)

instance (s : String) : Decidable (StatedValidCPF s) := by
  unfold StatedValidCPF; infer_instance

/-! ## Registration (`accountService.Register`, `accountRepository.GetNextAccountNumber`) -/

/-- Body of `POST /api/account/register` (`service.RegisterRequest`). -/
structure RegisterRequest where
  CPF : String
  Name : String
  Password : String
  deriving DecidableEq, Repr

/-- What one `Register` call cannot control: the identifier `uuid.New()` draws, whether
`GetByCPF` reports an error other than record-not-found, the salt `GenerateSalt` returns
(`none` is its error), the function `HashPassword`, whether the query of the next number
fails, and whether the insert fails for a reason other than a constraint. -/
structure RegisterEnv where
  newID : String
  getByCPFFails : Bool
  salt : Option String
  hashPassword : String → String → String
  nextNumberFails : Bool
  createFails : Bool

/-- Constructor `NewAccount`, with the identifier drawn by `uuid.New()` as an argument. -/
def NewAccount (id name cpf passwordHash salt : String) (number : Int) : Account :=
  { ID := id, Number := number, Name := name, CPF := cpf, Active := true,
    PasswordHash := passwordHash, Salt := salt }

/-- Query `GetByCPF`: the first row with the CPF, if any. -/
def GetByCPF (st : State) (cpf : String) : Option Account :=
  st.accounts.find? (fun a => a.CPF == cpf)

/-- SQL `MAX(numero)` over the rows: NULL (`none`) when there is no row. -/
def maxNumero : List Account → Option Int
  | [] => none
  | a :: rest =>
    match maxNumero rest with
    | none => some a.Number
    | some m => some (max a.Number m)

/-- Go's `int` on the 64-bit platforms the services are built for: the value of an
integer expression is reduced modulo 2^64 into the range from -2^63 to 2^63 - 1. -/
def wrapInt64 (n : Int) : Int :=
  (n + 2 ^ 63) % 2 ^ 64 - 2 ^ 63

/-- Query `GetNextAccountNumber`: `COALESCE(MAX(numero), 100000)` scanned into an `int`,
and `maxNumber + 1` in Go's `int` arithmetic, which wraps. -/
def GetNextAccountNumber (st : State) : Int :=
  wrapInt64 ((match maxNumero st.accounts with
    | none => 100000
    | some m => m) + 1)

/-- Insert `accountRepository.Create`: append the row unless the call fails or the row
breaks a constraint of the table (primary key `idcontacorrente`, `numero` unique, `cpf`
unique); `none` is the error. -/
def createAccount (fails : Bool) (st : State) (account : Account) : Option State :=
  if fails = true ∨ (∃ x ∈ st.accounts,
      x.ID = account.ID ∨ x.Number = account.Number ∨ x.CPF = account.CPF) then none
  else some { st with accounts := st.accounts ++ [account] }

/-- The result of `Register`: the account number of the response, or the error text. -/
inductive RegisterResult where
  | registered (accountNumber : String)
  | failed (message : String)
  deriving DecidableEq, Repr

/-- Method `accountService.Register`.  A panic of `ValidateCPF` would abort the call; it
is kept as a failure of its own. -/
def Register (env : RegisterEnv) (st : State) (request : RegisterRequest) :
    State × RegisterResult :=
  let cleanCPF := CleanCPF request.CPF
  match ValidateCPF cleanCPF with
  | none => (st, .failed "panic")
  | some false => (st, .failed "CPF inválido")
  | some true =>
    if env.getByCPFFails then (st, .failed "erro interno do servidor")
    else
      match GetByCPF st cleanCPF with
      | some _ => (st, .failed "CPF já cadastrado")
      | none =>
        match env.salt with
        | none => (st, .failed "erro interno do servidor")
        | some salt =>
          let passwordHash := env.hashPassword request.Password salt
          if env.nextNumberFails then (st, .failed "erro interno do servidor")
          else
            let accountNumber := GetNextAccountNumber st
            let account := NewAccount env.newID request.Name cleanCPF passwordHash salt
              accountNumber
            match createAccount env.createFails st account with
            | none => (st, .failed "erro interno do servidor")
            | some st1 => (st1, .registered (strconvItoa account.Number))

/-- Sequential execution of `Register` calls, each with its own environment. -/
def runRegisters (st : State) : List (RegisterEnv × RegisterRequest) → State
  | [] => st
  | c :: rest => runRegisters (Register c.1 st c.2).1 rest

/-- A registration environment in which everything works. -/
def RegisterEnv.ok (id : String) : RegisterEnv :=
  { newID := id, getByCPFFails := false, salt := some "salt", hashPassword := fun p s => p ++ s,
    nextNumberFails := false, createFails := false }

/-- Registration of Ana with a formatted CPF. -/
def sampleRegisterAna : RegisterRequest :=
  { CPF := "529.982.247-25", Name := "Ana", Password := "pw-1" }

/-- Registration of Bruno. -/
def sampleRegisterBruno : RegisterRequest :=
  { CPF := "11144477735", Name := "Bruno", Password := "pw-2" }

/-- A second registration under Ana's CPF, written without separators. -/
def sampleRegisterAgain : RegisterRequest :=
  { CPF := "52998224725", Name := "Ana B", Password := "pw-3" }

/-! ## Total of the balances -/

/-- The sum of the balances of all accounts of the store. -/
def totalBalance (st : State) : ℚ :=
  (st.accounts.map (fun a => GetBalance st.movements a.ID)).sum

/-! ## The order of the effects of `CreateTransfer` -/

/-- The accounts carry the numbers 100001, 100002, ... in the order of their insertion. -/
def NumberedInOrder (accounts : List Account) : Prop :=
  accounts.map (fun a => a.Number) =
    (List.range accounts.length).map (fun (i : Nat) => (100001 : Int) + (i : Int))

instance (accounts : List Account) : Decidable (NumberedInOrder accounts) := by
  unfold NumberedInOrder; infer_instance

/-- The CPF of every account is a text of 11 ASCII digits. -/
def ElevenDigitCPFs (accounts : List Account) : Prop :=
  ∀ a ∈ accounts, a.CPF.data.length = 11 ∧ ∀ c ∈ a.CPF.data, c.isDigit = true

instance (accounts : List Account) : Decidable (ElevenDigitCPFs accounts) := by
  unfold ElevenDigitCPFs; infer_instance

/-! ## Amounts as the code holds them: float64 values and the engine's `SUM`

The amounts of the source are Go `float64` values, the column `valor` is a REAL column, and
the balance is the aggregate `SUM` of the database engine.  A finite float64 value is a
rational number; the operations below are the IEEE 754 binary64 operations on the rationals
they denote (round to nearest, ties to even; the range is not bounded above, so overflow to
infinity is not represented).  The engine is a library outside the repository: in the
statements the aggregate is a parameter `sum`, and `sqliteSum` is the aggregate of SQLite,
the engine the services open, for REAL values. -/

/-- Number of binary digits of a natural number, by halving at most `fuel` times. -/
def bitLengthAux : Nat → Nat → Nat
  | 0, _ => 0
  | fuel + 1, n => if n = 0 then 0 else bitLengthAux fuel (n / 2) + 1

/-- Number of binary digits of a natural number. -/
def bitLength (n : Nat) : Nat := bitLengthAux n n

/-- The natural number with at most 53 significant binary digits nearest to `n`, the even
one of two equally near. -/
def roundNat53 (n : Nat) : Nat :=
  if n < 2 ^ 53 then n
  else
    let k := bitLength n - 53
    let q := n / 2 ^ k
    let r := n % 2 ^ k
    (if 2 ^ (k - 1) < r ∨ (r = 2 ^ (k - 1) ∧ q % 2 = 1) then q + 1 else q) * 2 ^ k

/-- The float64 value nearest to a rational number: a multiple of 2^-1074 with at most 53
significant binary digits, the even one of two equally near.  It is applied to sums and
differences of float64 values, which are multiples of 2^-1074: for them the floor below is
the number itself. -/
def roundFloat64 (x : ℚ) : ℚ :=
  if 0 ≤ x then (roundNat53 (Int.toNat ⌊x * 2 ^ 1074⌋) : ℚ) / 2 ^ 1074
  else -((roundNat53 (Int.toNat ⌊-x * 2 ^ 1074⌋) : ℚ) / 2 ^ 1074)

/-- The float64 sum `x + y`. -/
def fadd (x y : ℚ) : ℚ := roundFloat64 (x + y)

/-- The float64 difference `x - y`. -/
def fsub (x y : ℚ) : ℚ := roundFloat64 (x - y)

/-- C `fabs`. -/
def fabs (x : ℚ) : ℚ := if x < 0 then -x else x

/-- The accumulator `SumCtx` of SQLite's `sum()` for REAL values: the running sum and the
running error term. -/
structure SumCtx where
  rSum : ℚ
  rErr : ℚ
  deriving DecidableEq

/-- SQLite's `kahanBabuskaNeumaierStep`: `t = s + r`, the error term gains
`(s - t) + r` when `fabs(s) > fabs(r)` and `(r - t) + s` otherwise, and `t` becomes the
running sum. -/
def kahanBabuskaNeumaierStep (p : SumCtx) (r : ℚ) : SumCtx :=
  if fabs p.rSum > fabs r then
    { rSum := fadd p.rSum r, rErr := fadd p.rErr (fadd (fsub p.rSum (fadd p.rSum r)) r) }
  else
    { rSum := fadd p.rSum r, rErr := fadd p.rErr (fadd (fsub r (fadd p.rSum r)) p.rSum) }

/-- SQLite's aggregate `SUM` over REAL values (`sumStep` for each row in turn from 0,
then `sumFinalize`: the running sum plus the error term). -/
def sqliteSum (values : List ℚ) : ℚ :=
  fadd (values.foldl kahanBabuskaNeumaierStep { rSum := 0, rErr := 0 }).rSum
    (values.foldl kahanBabuskaNeumaierStep { rSum := 0, rErr := 0 }).rErr

/-- Query `GetBalance` as the engine answers it, with the engine's aggregate `SUM` as a
parameter: `COALESCE(SUM(CASE ...), 0)` over the rows `WHERE idcontacorrente = ?`, in the
order of the table; `SUM` over no row is NULL. -/
def GetBalanceWith (sum : List ℚ → ℚ) (movements : List Movement) (accountID : String) : ℚ :=
  match (movements.filter (fun m => m.AccountID == accountID)).map signedAmount with
  | [] => 0
  | value :: rest => sum (value :: rest)

/-- Method `accountService.CreateMovement` with the balance query answered by the engine:
`CreateMovement` with `GetBalanceWith sum` where it has the exact sum `GetBalance`. -/
def CreateMovementWith (sum : List ℚ → ℚ) (env : MovementEnv) (st : State)
    (request : MovementRequest) : State × Option MovementError :=
  if request.Kind ≠ MovementTypeCredit ∧ request.Kind ≠ MovementTypeDebit then
    (st, some .invalidType)
  else if request.Amount ≤ 0 then
    (st, some .nonPositiveAmount)
  else if env.checkIdempotencyFails then
    (st, some .internalError)
  else
    match CheckIdempotency st request.RequestID with
    | some _ => (st, none)
    | none =>
      if env.getByNumberFails then (st, some .internalError)
      else
        match GetByNumber st request.AccountNumber with
        | none => (st, some .accountNotFound)
        | some account =>
          if account.Active = false then (st, some .inactiveAccount)
          else if request.Kind = MovementTypeDebit ∧ env.getBalanceFails = true then
            (st, some .internalError)
          else if request.Kind = MovementTypeDebit ∧
              GetBalanceWith sum st.movements account.ID < request.Amount then
            (st, some .insufficientBalance)
          else if env.createMovementFails then (st, some .internalError)
          else
            let movement := NewMovement env.newID account.ID request.Kind request.Amount
              (some request.RequestID)
            let st1 := insertMovement st movement
            (SaveIdempotency env.saveIdempotencyFails st1 (successRecord request), none)

/-- The float64 value nearest to 0.1. -/
def float0_1 : ℚ := 3602879701896397 / 2 ^ 55

/-- The float64 value nearest to 0.2. -/
def float0_2 : ℚ := 3602879701896397 / 2 ^ 54

/-- The float64 value 0.30000000000000004, the float64 sum of 0.1 and 0.2. -/
def float0_30000000000000004 : ℚ := 1351079888211149 / 2 ^ 52

/-- A log of account `acc-1`: credits of 0.1 and 0.2. -/
def sampleCentsLog : List Movement :=
  [{ ID := "m1", AccountID := "acc-1", Kind := "C", Amount := float0_1,
     IdempotencyKey := some "r1" },
   { ID := "m2", AccountID := "acc-1", Kind := "C", Amount := float0_2,
     IdempotencyKey := some "r2" }]

/-- A log whose one movement has the type "c", which is neither "C" nor "D". -/
def sampleLowercaseLog : List Movement :=
  [{ ID := "m1", AccountID := "acc-1", Kind := "c", Amount := 5, IdempotencyKey := none }]

/-- A credit of 0.1 on account 100001. -/
def sampleCreditTenth : MovementRequest :=
  { RequestID := "r1", AccountNumber := "100001", Amount := float0_1, Kind := "C" }

/-- A credit of 0.2 on account 100001. -/
def sampleCreditFifth : MovementRequest :=
  { RequestID := "r2", AccountNumber := "100001", Amount := float0_2, Kind := "C" }

/-- Two active accounts; the first holds 0.1 from one recorded credit. -/
def sampleTenthLedger : State :=
  { accounts := [sampleOrigin, sampleDestination],
    movements := [{ ID := "m1", AccountID := "acc-1", Kind := "C", Amount := float0_1,
                    IdempotencyKey := some "r1" }],
    idempotency := [successRecord sampleCreditTenth],
    transfers := [], fees := [], events := [], sent := [] }

@[simp] theorem successRecord_Key (request : MovementRequest) :
    (successRecord request).Key = request.RequestID := rfl

@[simp] theorem successRecord_Result (request : MovementRequest) :
    (successRecord request).Result = "SUCCESS" := rfl

@[simp] theorem successRecord_Request (request : MovementRequest) :
    (successRecord request).Request = request := rfl

/-! ## The balance query -/

theorem GetBalance_cons (m : Movement) (ms : List Movement) (accountID : String) :
    GetBalance (m :: ms) accountID =
      (if m.AccountID = accountID then signedAmount m else 0) + GetBalance ms accountID := by
  by_cases h : m.AccountID = accountID <;> simp [GetBalance, List.filter_cons, h]

theorem GetBalance_append (xs ys : List Movement) (accountID : String) :
    GetBalance (xs ++ ys) accountID = GetBalance xs accountID + GetBalance ys accountID := by
  simp [GetBalance, List.filter_append]

theorem GetBalance_singleton (m : Movement) (accountID : String) :
    GetBalance [m] accountID = if m.AccountID = accountID then signedAmount m else 0 := by
  rw [GetBalance_cons]; simp [GetBalance]

theorem sumOfKind_cons (m : Movement) (ms : List Movement) (accountID kind : String) :
    sumOfKind (m :: ms) accountID kind =
      (if m.AccountID = accountID ∧ m.Kind = kind then m.Amount else 0) +
        sumOfKind ms accountID kind := by
  by_cases h : m.AccountID = accountID ∧ m.Kind = kind
  · simp [sumOfKind, List.filter_cons, h]
  · have h2 : (m.AccountID == accountID && m.Kind == kind) = false := by
      simpa [Bool.and_eq_true] using h
    simp [sumOfKind, List.filter_cons, h, h2]

theorem GetBalance_eq_sumOfKind (movements : List Movement) (accountID : String)
    (hkind : ∀ m ∈ movements, m.AccountID = accountID → m.Kind = "C" ∨ m.Kind = "D") :
    GetBalance movements accountID =
      sumOfKind movements accountID "C" - sumOfKind movements accountID "D" := by
  induction movements with
  | nil => simp [GetBalance, sumOfKind]
  | cons m ms ih =>
    have ih2 := ih (fun x hx => hkind x (List.mem_cons_of_mem _ hx))
    rw [GetBalance_cons, sumOfKind_cons, sumOfKind_cons, ih2]
    by_cases ha : m.AccountID = accountID
    · rcases hkind m (List.mem_cons_self _ _) ha with hc | hd
      · simp [ha, hc, signedAmount]; ring
      · simp [ha, hd, signedAmount]; ring
    · simp [ha]

theorem GetBalance_eq_zero_of_no_movement (movements : List Movement) (accountID : String)
    (hnone : ∀ m ∈ movements, m.AccountID ≠ accountID) : GetBalance movements accountID = 0 := by
  have : movements.filter (fun m => m.AccountID == accountID) = [] := by
    rw [List.filter_eq_nil_iff]
    intro m hm
    simpa using hnone m hm
  simp [GetBalance, this]

/-! ## Store lookups depend on one table each -/

theorem GetByNumber_congr (st st1 : State) (h : st1.accounts = st.accounts) (n : String) :
    GetByNumber st1 n = GetByNumber st n := by
  simp [GetByNumber, h]

theorem CheckIdempotency_congr (st st1 : State) (h : st1.idempotency = st.idempotency)
    (k : String) : CheckIdempotency st1 k = CheckIdempotency st k := by
  simp [CheckIdempotency, h]

theorem getAccountNumberByID_congr (st st1 : State) (h : st1.accounts = st.accounts)
    (id : String) : getAccountNumberByID st1 id = getAccountNumberByID st id := by
  simp [getAccountNumberByID, h]

/-! ## What a `CreateMovement` call does -/

/-- The three outcomes of a call: an error that leaves the store as it is, a duplicate
answered with success that leaves the store as it is, or one appended movement after all
the checks have passed. -/
theorem CreateMovement_outcomes (env : MovementEnv) (st : State)
    (request : MovementRequest) :
    (∃ e, CreateMovement env st request = (st, some e)) ∨
    ((CheckIdempotency st request.RequestID).isSome = true ∧ 0 < request.Amount ∧
      (request.Kind = "C" ∨ request.Kind = "D") ∧
      CreateMovement env st request = (st, none)) ∨
    (CheckIdempotency st request.RequestID = none ∧
      ∃ account, GetByNumber st request.AccountNumber = some account ∧
        account.Active = true ∧ 0 < request.Amount ∧
        (request.Kind = "C" ∨ request.Kind = "D") ∧
        (request.Kind = "D" → request.Amount ≤ GetBalance st.movements account.ID) ∧
        CreateMovement env st request = (appended env st request account, none)) := by
  unfold CreateMovement
  by_cases h1 : request.Kind ≠ MovementTypeCredit ∧ request.Kind ≠ MovementTypeDebit
  · rw [if_pos h1]; exact Or.inl ⟨_, rfl⟩
  rw [if_neg h1]
  by_cases h2 : request.Amount ≤ 0
  · rw [if_pos h2]; exact Or.inl ⟨_, rfl⟩
  rw [if_neg h2]
  by_cases h3 : env.checkIdempotencyFails = true
  · rw [if_pos h3]; exact Or.inl ⟨_, rfl⟩
  rw [if_neg h3]
  have hkind : request.Kind = "C" ∨ request.Kind = "D" := by
    simp only [MovementTypeCredit, MovementTypeDebit] at h1
    by_contra hk
    push_neg at hk
    exact h1 hk
  cases hc : CheckIdempotency st request.RequestID with
  | some r => exact Or.inr (Or.inl ⟨rfl, lt_of_not_ge h2, hkind, rfl⟩)
  | none =>
    simp only []
    by_cases h4 : env.getByNumberFails = true
    · rw [if_pos h4]; exact Or.inl ⟨_, rfl⟩
    rw [if_neg h4]
    cases hacc : GetByNumber st request.AccountNumber with
    | none => exact Or.inl ⟨_, rfl⟩
    | some account =>
      simp only []
      by_cases h5 : account.Active = false
      · rw [if_pos h5]; exact Or.inl ⟨_, rfl⟩
      rw [if_neg h5]
      by_cases h6 : request.Kind = MovementTypeDebit ∧ env.getBalanceFails = true
      · rw [if_pos h6]; exact Or.inl ⟨_, rfl⟩
      rw [if_neg h6]
      by_cases h7 : request.Kind = MovementTypeDebit ∧
          GetBalance st.movements account.ID < request.Amount
      · rw [if_pos h7]; exact Or.inl ⟨_, rfl⟩
      rw [if_neg h7]
      by_cases h8 : env.createMovementFails = true
      · rw [if_pos h8]; exact Or.inl ⟨_, rfl⟩
      rw [if_neg h8]
      right; right
      refine ⟨by simp, account, by simp, by simpa using h5, lt_of_not_ge h2, hkind, ?_,
        by simp [appended]⟩
      · intro hd
        simp only [MovementTypeDebit] at h7
        exact le_of_not_lt (fun hlt => h7 ⟨hd, hlt⟩)

/-- Every call either leaves the store as it is or appends one movement, after all the
checks have passed. -/
theorem CreateMovement_cases (env : MovementEnv) (st : State) (request : MovementRequest) :
    (CreateMovement env st request).1 = st ∨
    ∃ account, GetByNumber st request.AccountNumber = some account ∧ account.Active = true ∧
      CheckIdempotency st request.RequestID = none ∧ 0 < request.Amount ∧
      (request.Kind = "C" ∨ request.Kind = "D") ∧
      (request.Kind = "D" → request.Amount ≤ GetBalance st.movements account.ID) ∧
      CreateMovement env st request = (appended env st request account, none) := by
  rcases CreateMovement_outcomes env st request with ⟨e, h⟩ | ⟨_, _, _, h⟩ |
    ⟨hc, account, ha, hact, hpos, hk, hcov, h⟩
  · left; rw [h]
  · left; rw [h]
  · exact Or.inr ⟨account, ha, hact, hc, hpos, hk, hcov, h⟩

/-- A valid request with a fresh key on an active account, covered by the balance when it
is a debit, appends its movement when the repository calls it reaches work. -/
theorem CreateMovement_appends (env : MovementEnv) (st : State) (request : MovementRequest)
    (account : Account) (hcheck : env.checkIdempotencyFails = false)
    (hget : env.getByNumberFails = false)
    (hbal : request.Kind = "D" → env.getBalanceFails = false)
    (hcreate : env.createMovementFails = false)
    (hkind : request.Kind = "C" ∨ request.Kind = "D") (hpos : 0 < request.Amount)
    (hfresh : CheckIdempotency st request.RequestID = none)
    (hacc : GetByNumber st request.AccountNumber = some account)
    (hactive : account.Active = true)
    (hcover : request.Kind = "D" → request.Amount ≤ GetBalance st.movements account.ID) :
    CreateMovement env st request = (appended env st request account, none) := by
  unfold CreateMovement
  have h1 : ¬ (request.Kind ≠ MovementTypeCredit ∧ request.Kind ≠ MovementTypeDebit) := by
    simp only [MovementTypeCredit, MovementTypeDebit]
    rcases hkind with h | h <;> simp [h]
  have h2 : ¬ request.Amount ≤ 0 := not_le.mpr hpos
  have h7 : ¬ (request.Kind = MovementTypeDebit ∧ env.getBalanceFails = true) := by
    rintro ⟨hd, hf⟩
    simp [hbal hd] at hf
  have h8 : ¬ (request.Kind = MovementTypeDebit ∧
      GetBalance st.movements account.ID < request.Amount) := by
    rintro ⟨hd, hlt⟩
    exact absurd (hcover hd) (not_le.mpr hlt)
  simp [h1, h2, hcheck, hfresh, hget, hacc, hactive, h7, h8, hcreate, appended]

/-- A request whose key already has a record is answered with success and changes
nothing, once its type and amount have passed the validation. -/
theorem CreateMovement_duplicate (env : MovementEnv) (st : State) (request : MovementRequest)
    (hcheck : env.checkIdempotencyFails = false)
    (hkind : request.Kind = "C" ∨ request.Kind = "D") (hpos : 0 < request.Amount)
    (hdup : (CheckIdempotency st request.RequestID).isSome = true) :
    CreateMovement env st request = (st, none) := by
  unfold CreateMovement
  have h1 : ¬ (request.Kind ≠ MovementTypeCredit ∧ request.Kind ≠ MovementTypeDebit) := by
    simp only [MovementTypeCredit, MovementTypeDebit]
    rcases hkind with h | h <;> simp [h]
  have h2 : ¬ request.Amount ≤ 0 := not_le.mpr hpos
  obtain ⟨r, hr⟩ := Option.isSome_iff_exists.mp hdup
  simp [h1, h2, hcheck, hr]

/-! ## Fields of the store after an append -/

theorem appended_movements (env : MovementEnv) (st : State) (request : MovementRequest)
    (account : Account) :
    (appended env st request account).movements =
      st.movements ++ [NewMovement env.newID account.ID request.Kind request.Amount
        (some request.RequestID)] := by
  unfold appended SaveIdempotency insertMovement
  split_ifs <;> rfl

theorem appended_transfers (env : MovementEnv) (st : State) (request : MovementRequest)
    (account : Account) : (appended env st request account).transfers = st.transfers := by
  unfold appended SaveIdempotency insertMovement
  split_ifs <;> rfl

theorem appended_events (env : MovementEnv) (st : State) (request : MovementRequest)
    (account : Account) : (appended env st request account).events = st.events := by
  unfold appended SaveIdempotency insertMovement
  split_ifs <;> rfl

theorem appended_sent (env : MovementEnv) (st : State) (request : MovementRequest)
    (account : Account) : (appended env st request account).sent = st.sent := by
  unfold appended SaveIdempotency insertMovement
  split_ifs <;> rfl

theorem appended_fees (env : MovementEnv) (st : State) (request : MovementRequest)
    (account : Account) : (appended env st request account).fees = st.fees := by
  unfold appended SaveIdempotency insertMovement
  split_ifs <;> rfl

theorem appended_idempotency (env : MovementEnv) (st : State) (request : MovementRequest)
    (account : Account) (hsave : env.saveIdempotencyFails = false)
    (hfresh : CheckIdempotency st request.RequestID = none) :
    (appended env st request account).idempotency =
      st.idempotency ++ [successRecord request] := by
  have h : CheckIdempotency (insertMovement st (NewMovement env.newID account.ID
      request.Kind request.Amount (some request.RequestID))) request.RequestID = none := by
    rw [← hfresh]; rfl
  simp only [appended, SaveIdempotency, hsave, Bool.false_or, successRecord_Key, h]
  simp [insertMovement]

theorem appended_balance (env : MovementEnv) (st : State) (request : MovementRequest)
    (account : Account) (accountID : String) :
    GetBalance (appended env st request account).movements accountID =
      GetBalance st.movements accountID +
        (if account.ID = accountID then
          (if request.Kind = "C" then request.Amount else -request.Amount) else 0) := by
  rw [appended_movements, GetBalance_append, GetBalance_singleton]
  simp [NewMovement, signedAmount]

theorem CheckIdempotency_append_self (st : State) (r : Idempotency) :
    (CheckIdempotency { st with idempotency := st.idempotency ++ [r] } r.Key).isSome = true := by
  simp [CheckIdempotency, List.find?_isSome]

theorem appended_recorded (env : MovementEnv) (st : State) (request : MovementRequest)
    (account : Account) (hsave : env.saveIdempotencyFails = false) :
    (CheckIdempotency (appended env st request account) request.RequestID).isSome = true := by
  unfold appended SaveIdempotency
  split_ifs with h
  · simp only [hsave, Bool.false_or, successRecord_Key] at h
    exact h
  · simp [CheckIdempotency, List.find?_isSome]

/-! ## Balance and key invariants of sequential runs -/

theorem CheckIdempotency_none_not_mem (st : State) (key : String)
    (h : CheckIdempotency st key = none) : key ∉ st.idempotency.map (fun r => r.Key) := by
  intro hmem
  obtain ⟨r, hr, hk⟩ := List.mem_map.mp hmem
  have := List.find?_eq_none.mp h r hr
  simp [hk] at this

theorem CreateMovement_KeysInStep (env : MovementEnv) (st : State)
    (request : MovementRequest) (hsave : env.saveIdempotencyFails = false)
    (hinv : KeysInStep st) : KeysInStep (CreateMovement env st request).1 := by
  rcases CreateMovement_cases env st request with h | ⟨account, _, _, hfresh, _, _, _, heq⟩
  · rw [h]; exact hinv
  · rw [heq]
    simp only []
    obtain ⟨h1, h2, h3⟩ := hinv
    refine ⟨?_, ?_, ?_⟩
    · rw [appended_movements, appended_idempotency _ _ _ _ hsave hfresh]
      simp [h1, NewMovement]
    · rw [appended_idempotency _ _ _ _ hsave hfresh]
      rw [List.map_append, List.nodup_append]
      refine ⟨h2, by simp, ?_⟩
      intro a ha hb
      simp only [List.map_cons, List.map_nil, List.mem_singleton] at hb
      subst hb
      exact CheckIdempotency_none_not_mem st _ hfresh ha
    · rw [appended_idempotency _ _ _ _ hsave hfresh]
      intro r hr
      rcases List.mem_append.mp hr with h | h
      · exact h3 r h
      · simp only [List.mem_singleton] at h
        rw [h]
        rfl

theorem runMovements_KeysInStep (calls : List (MovementEnv × MovementRequest)) (st : State)
    (hsave : ∀ c ∈ calls, c.1.saveIdempotencyFails = false) (hinv : KeysInStep st) :
    KeysInStep (runMovements st calls) := by
  induction calls generalizing st with
  | nil => exact hinv
  | cons c rest ih =>
    exact ih _ (fun x hx => hsave x (List.mem_cons_of_mem _ hx))
      (CreateMovement_KeysInStep c.1 st c.2 (hsave c (List.mem_cons_self _ _)) hinv)

/-- Every movement written by a sequential run has type "C" or "D". -/
theorem runMovements_kinds (calls : List (MovementEnv × MovementRequest)) (st : State)
    (hinv : ∀ m ∈ st.movements, m.Kind = "C" ∨ m.Kind = "D") :
    ∀ m ∈ (runMovements st calls).movements, m.Kind = "C" ∨ m.Kind = "D" := by
  induction calls generalizing st with
  | nil => exact hinv
  | cons c rest ih =>
    apply ih
    rcases CreateMovement_cases c.1 st c.2 with h | ⟨account, _, _, _, _, hkind, _, heq⟩
    · rw [h]; exact hinv
    · rw [heq]
      simp only []
      rw [appended_movements]
      intro m hm
      rcases List.mem_append.mp hm with h | h
      · exact hinv m h
      · simp only [List.mem_singleton] at h
        rw [h]
        exact hkind

/-- A call that returns success either met a recorded key and changed nothing, or
appended its movement. -/
theorem CreateMovement_success_cases (env : MovementEnv) (st : State)
    (request : MovementRequest) (hok : (CreateMovement env st request).2 = none) :
    ((CheckIdempotency st request.RequestID).isSome = true ∧ 0 < request.Amount ∧
        (request.Kind = "C" ∨ request.Kind = "D") ∧
        CreateMovement env st request = (st, none)) ∨
      (CheckIdempotency st request.RequestID = none ∧
        ∃ account, GetByNumber st request.AccountNumber = some account ∧
          account.Active = true ∧ 0 < request.Amount ∧
          (request.Kind = "C" ∨ request.Kind = "D") ∧
          (request.Kind = "D" → request.Amount ≤ GetBalance st.movements account.ID) ∧
          CreateMovement env st request = (appended env st request account, none)) := by
  rcases CreateMovement_outcomes env st request with ⟨e, h⟩ | h | h
  · rw [h] at hok
    simp at hok
  · exact Or.inl h
  · exact Or.inr h

/-! ## Claims on the movement ledger -/

/-- C2: a movement request that succeeds when submitted succeeds again when the same
request is resubmitted, and the second submission leaves the whole store exactly as the
first one left it, with the same response; when the key was new at the first submission
(no record and no movement under it) exactly one movement carries the key afterwards.
The idempotency record of the first submission is saved and the lookup of the second
does not fail. -/
theorem CreateMovement_resubmission (env1 env2 : MovementEnv) (st : State)
    (request : MovementRequest) (hsave : env1.saveIdempotencyFails = false)
    (hcheck : env2.checkIdempotencyFails = false)
    (hok : (CreateMovement env1 st request).2 = none) :
    (CreateMovement env2 (CreateMovement env1 st request).1 request).2 = none ∧
    (CreateMovement env2 (CreateMovement env1 st request).1 request).2 =
      (CreateMovement env1 st request).2 ∧
    (CreateMovement env2 (CreateMovement env1 st request).1 request).1 =
      (CreateMovement env1 st request).1 ∧
    (CheckIdempotency st request.RequestID = none →
      movementsWithKey st request.RequestID = [] →
      (movementsWithKey (CreateMovement env2 (CreateMovement env1 st request).1 request).1
        request.RequestID).length = 1) := by
  rcases CreateMovement_success_cases env1 st request hok with
    ⟨hdup, hpos, hkind, heq⟩ | ⟨hfresh, account, _, _, hpos, hkind, _, heq⟩
  · have h2 := CreateMovement_duplicate env2 st request hcheck hkind hpos hdup
    rw [heq]
    simp only []
    rw [h2]
    refine ⟨rfl, rfl, rfl, ?_⟩
    intro hnone
    rw [hnone] at hdup
    simp at hdup
  · have hrec := appended_recorded env1 st request account hsave
    have h2 := CreateMovement_duplicate env2 (appended env1 st request account) request
      hcheck hkind hpos hrec
    rw [heq]
    simp only []
    rw [h2]
    refine ⟨rfl, rfl, rfl, ?_⟩
    intro _ hmov
    simp only [movementsWithKey] at hmov ⊢
    rw [appended_movements, List.filter_append, hmov]
    simp [NewMovement]

/-- Witness of C2: a deposit of 25.00 under the new key `dep-2`, submitted twice to the
sample ledger: success both times, the same store, one movement under the key. -/
theorem CreateMovement_resubmission_witness :
    (CreateMovement (MovementEnv.ok "mov-2") sampleLedger
      { RequestID := "dep-2", AccountNumber := "100001", Amount := 25, Kind := "C" }).2 = none ∧
    (CreateMovement (MovementEnv.ok "mov-3")
      (CreateMovement (MovementEnv.ok "mov-2") sampleLedger
        { RequestID := "dep-2", AccountNumber := "100001", Amount := 25, Kind := "C" }).1
      { RequestID := "dep-2", AccountNumber := "100001", Amount := 25, Kind := "C" }).2 = none ∧
    (CreateMovement (MovementEnv.ok "mov-3")
      (CreateMovement (MovementEnv.ok "mov-2") sampleLedger
        { RequestID := "dep-2", AccountNumber := "100001", Amount := 25, Kind := "C" }).1
      { RequestID := "dep-2", AccountNumber := "100001", Amount := 25, Kind := "C" }).1 =
    (CreateMovement (MovementEnv.ok "mov-2") sampleLedger
      { RequestID := "dep-2", AccountNumber := "100001", Amount := 25, Kind := "C" }).1 ∧
    (movementsWithKey (CreateMovement (MovementEnv.ok "mov-3")
      (CreateMovement (MovementEnv.ok "mov-2") sampleLedger
        { RequestID := "dep-2", AccountNumber := "100001", Amount := 25, Kind := "C" }).1
      { RequestID := "dep-2", AccountNumber := "100001", Amount := 25, Kind := "C" }).1
      "dep-2").length = 1 :=
  ⟨by decide,
   (CreateMovement_resubmission (MovementEnv.ok "mov-2") (MovementEnv.ok "mov-3") sampleLedger
      { RequestID := "dep-2", AccountNumber := "100001", Amount := 25, Kind := "C" }
      rfl rfl (by decide)).1,
   (CreateMovement_resubmission (MovementEnv.ok "mov-2") (MovementEnv.ok "mov-3") sampleLedger
      { RequestID := "dep-2", AccountNumber := "100001", Amount := 25, Kind := "C" }
      rfl rfl (by decide)).2.2.1,
   (CreateMovement_resubmission (MovementEnv.ok "mov-2") (MovementEnv.ok "mov-3") sampleLedger
      { RequestID := "dep-2", AccountNumber := "100001", Amount := 25, Kind := "C" }
      rfl rfl (by decide)).2.2.2 (by decide) (by decide)⟩

/-- A debit above the balance of an active account, under a fresh key, is refused with
the insufficient-balance error and the store stays as it is. -/
theorem CreateMovement_insufficient (env : MovementEnv) (st : State)
    (request : MovementRequest) (account : Account)
    (hcheck : env.checkIdempotencyFails = false) (hget : env.getByNumberFails = false)
    (hbal : env.getBalanceFails = false) (hkind : request.Kind = "D")
    (hpos : 0 < request.Amount) (hfresh : CheckIdempotency st request.RequestID = none)
    (hacc : GetByNumber st request.AccountNumber = some account)
    (hactive : account.Active = true)
    (hover : GetBalance st.movements account.ID < request.Amount) :
    CreateMovement env st request = (st, some MovementError.insufficientBalance) := by
  unfold CreateMovement
  have h1 : ¬ (request.Kind ≠ MovementTypeCredit ∧ request.Kind ≠ MovementTypeDebit) := by
    simp [MovementTypeCredit, MovementTypeDebit, hkind]
  have h2 : ¬ request.Amount ≤ 0 := not_le.mpr hpos
  have h8 : request.Kind = MovementTypeDebit ∧
      GetBalance st.movements account.ID < request.Amount := ⟨hkind, hover⟩
  simp [h1, h2, hcheck, hfresh, hget, hacc, hactive, hbal, h8]

/-- The handler answers every error of the service with status 400 and type
`INVALID_DATA`, the message being the text of the error. -/
theorem AccountHandler_CreateMovement_error (env : MovementEnv) (st : State)
    (request : MovementRequest) (err : MovementError)
    (hbind : bindMovementRequest (some request) = some request)
    (herr : (CreateMovement env st request).2 = some err) :
    (AccountHandler.CreateMovement env st (some request)).2 =
      { status := 400, body := some { Message := err.message, Kind := ErrorInvalidData } } := by
  unfold AccountHandler.CreateMovement
  rw [hbind]
  simp only []
  cases hres : CreateMovement env st request with
  | mk st1 res =>
    rw [hres] at herr
    simp only [] at herr
    subst herr
    rfl

theorem sampleLedger_balance : GetBalance sampleLedger.movements "acc-1" = 100 := by
  simp [GetBalance, signedAmount, sampleLedger]

/-- C3 fails as stated: the key `dep-1` has an idempotency record in the sample ledger,
yet a request under that key with type "X" is answered with the invalid-type error and one
with amount -5 with the invalid-amount error. -/
theorem CreateMovement_recorded_key_counterexample :
    (CheckIdempotency sampleLedger "dep-1").isSome = true ∧
    (CreateMovement (MovementEnv.ok "mov-2") sampleLedger
      { RequestID := "dep-1", AccountNumber := "100001", Amount := 100, Kind := "X" }).2 =
      some MovementError.invalidType ∧
    (CreateMovement (MovementEnv.ok "mov-2") sampleLedger
      { RequestID := "dep-1", AccountNumber := "100001", Amount := -5, Kind := "C" }).2 =
      some MovementError.nonPositiveAmount := by
  refine ⟨by decide, by decide, ?_⟩
  simp [CreateMovement, MovementTypeCredit, MovementTypeDebit]

/-- C3, amended: for every movement request with type "C" or "D" and a positive amount
whose requestId already has an idempotency record, whatever its account number is (known
or not, active or not) and whatever the balance is, `CreateMovement` returns success and
leaves the store, hence the ledger, exactly as it was; the lookup of the record comes
before the account lookup and the balance check. -/
theorem CreateMovement_recorded_key_succeeds (env : MovementEnv) (st : State)
    (request : MovementRequest) (hcheck : env.checkIdempotencyFails = false)
    (hkind : request.Kind = "C" ∨ request.Kind = "D") (hpos : 0 < request.Amount)
    (hdup : (CheckIdempotency st request.RequestID).isSome = true) :
    (CreateMovement env st request).2 = none ∧ (CreateMovement env st request).1 = st := by
  rw [CreateMovement_duplicate env st request hcheck hkind hpos hdup]
  exact ⟨rfl, rfl⟩

/-- Witness of amended C3: a debit of 9999.00 on the unknown account 999999 under the
recorded key `dep-1` is answered with success. -/
theorem CreateMovement_recorded_key_succeeds_witness :
    (CheckIdempotency sampleLedger "dep-1").isSome = true ∧
    (CreateMovement (MovementEnv.ok "mov-2") sampleLedger
      { RequestID := "dep-1", AccountNumber := "999999", Amount := 9999, Kind := "D" }).2 =
      none :=
  ⟨by decide,
   (CreateMovement_recorded_key_succeeds (MovementEnv.ok "mov-2") sampleLedger
      { RequestID := "dep-1", AccountNumber := "999999", Amount := 9999, Kind := "D" }
      rfl (Or.inr rfl) (by norm_num) (by decide)).1⟩

/-- C5: the handler does not answer with the typed error.  The debit of 150.00 against
the balance of 100.00 is answered with status 400, message "saldo insuficiente" and type
`INVALID_DATA`, not with `INSUFFICIENT_BALANCE`, the type `error.go` declares for it and
`CreateTransfer` answers the same condition with. -/
theorem AccountHandler_CreateMovement_generic_error_type :
    (AccountHandler.CreateMovement (MovementEnv.ok "mov-2") sampleLedger
      (some sampleOverdraft)).2 =
      { status := 400,
        body := some { Message := "saldo insuficiente", Kind := "INVALID_DATA" } } ∧
    ((AccountHandler.CreateMovement (MovementEnv.ok "mov-2") sampleLedger
      (some sampleOverdraft)).2.body.map (fun b => b.Kind)) ≠ some ErrorInsufficientBalance := by
  have hs : CreateMovement (MovementEnv.ok "mov-2") sampleLedger sampleOverdraft =
      (sampleLedger, some MovementError.insufficientBalance) :=
    CreateMovement_insufficient (MovementEnv.ok "mov-2") sampleLedger
      sampleOverdraft sampleOrigin rfl rfl rfl rfl (by norm_num [sampleOverdraft]) (by decide)
      (by decide) rfl (by rw [show sampleOrigin.ID = "acc-1" from rfl, sampleLedger_balance]
                          norm_num [sampleOverdraft])
  have h := AccountHandler_CreateMovement_error (MovementEnv.ok "mov-2") sampleLedger
    sampleOverdraft MovementError.insufficientBalance (by decide) (by rw [hs])
  rw [h]
  exact ⟨rfl, by decide⟩

/-- C7: in every state reached from an empty store (any accounts) by any sequence of
sequentially executed `CreateMovement` calls whose idempotency records are saved, no two
movements of the ledger carry the same idempotency key, and every movement carries a key
that has an idempotency record with result "SUCCESS". -/
theorem runMovements_keys_unique_and_recorded (accounts : List Account)
    (calls : List (MovementEnv × MovementRequest))
    (hsave : ∀ c ∈ calls, c.1.saveIdempotencyFails = false) :
    ((runMovements (emptyLedger accounts) calls).movements.map
      (fun m => m.IdempotencyKey)).Nodup ∧
    ∀ m ∈ (runMovements (emptyLedger accounts) calls).movements,
      ∃ key, m.IdempotencyKey = some key ∧
        ∃ r ∈ (runMovements (emptyLedger accounts) calls).idempotency,
          r.Key = key ∧ r.Result = "SUCCESS" := by
  have hinv := runMovements_KeysInStep calls (emptyLedger accounts) hsave
    ⟨by simp [emptyLedger], by simp [emptyLedger], by simp [emptyLedger]⟩
  obtain ⟨h1, h2, h3⟩ := hinv
  constructor
  · rw [h1]
    have : (fun r : Idempotency => some r.Key) = some ∘ (fun r => r.Key) := rfl
    rw [this, ← List.map_map]
    exact h2.map (Option.some_injective _)
  · intro m hm
    have hmem : m.IdempotencyKey ∈
        (runMovements (emptyLedger accounts) calls).movements.map
          (fun m => m.IdempotencyKey) := List.mem_map_of_mem _ hm
    rw [h1] at hmem
    obtain ⟨r, hr, hk⟩ := List.mem_map.mp hmem
    exact ⟨r.Key, hk.symm, r, hr, rfl, h3 r hr⟩

/-- Witness of C7: the deposit `dep-1` submitted twice and a second deposit `dep-2`. -/
theorem runMovements_keys_unique_and_recorded_witness :
    ((runMovements (emptyLedger [sampleOrigin])
      [(MovementEnv.ok "mov-1", sampleDeposit), (MovementEnv.ok "mov-2", sampleDeposit),
       (MovementEnv.ok "mov-3",
        { RequestID := "dep-2", AccountNumber := "100001", Amount := 25, Kind := "C" })]
      ).movements.map (fun m => m.IdempotencyKey)).Nodup :=
  (runMovements_keys_unique_and_recorded [sampleOrigin]
    [(MovementEnv.ok "mov-1", sampleDeposit), (MovementEnv.ok "mov-2", sampleDeposit),
     (MovementEnv.ok "mov-3",
      { RequestID := "dep-2", AccountNumber := "100001", Amount := 25, Kind := "C" })]
    (by decide)).1

/-! ## Text lemmas for the derived keys and the rendered account numbers -/

theorem toDigitsCore_ne_nil (b : Nat) : ∀ (fuel n : Nat) (ds : List Char),
    (0 < fuel ∨ ds ≠ []) → Nat.toDigitsCore b fuel n ds ≠ []
  | 0, n, ds, h => by
    rcases h with h | h
    · exact absurd h (lt_irrefl 0)
    · simpa [Nat.toDigitsCore] using h
  | fuel + 1, n, ds, _ => by
    unfold Nat.toDigitsCore
    simp only []
    split_ifs with h
    · simp
    · exact toDigitsCore_ne_nil b fuel (n / b) _ (Or.inr (by simp))

theorem natRepr_ne_empty (n : Nat) : Nat.repr n ≠ "" := by
  intro h
  have h2 : (Nat.repr n).data = [] := by rw [h]
  simp only [Nat.repr, List.asString] at h2
  exact toDigitsCore_ne_nil 10 (n + 1) n [] (Or.inl (Nat.succ_pos n)) h2

theorem append_ne_empty (a b : String) (hb : b ≠ "") : a ++ b ≠ "" := by
  intro h
  have h2 : (a ++ b).data = [] := by rw [h]
  rw [String.data_append] at h2
  exact hb (String.ext (List.append_eq_nil.mp h2).2)

theorem strconvItoa_ne_empty (n : Int) : strconvItoa n ≠ "" := by
  unfold strconvItoa
  cases n with
  | ofNat m => exact natRepr_ne_empty m
  | negSucc m =>
    show "-" ++ toString (Nat.succ m) ≠ ""
    exact append_ne_empty _ _ (natRepr_ne_empty _)

theorem append_ne_append (a b c : String) (h : b ≠ c) : a ++ b ≠ a ++ c := by
  intro heq
  have h2 : (a ++ b).data = (a ++ c).data := by rw [heq]
  rw [String.data_append, String.data_append] at h2
  exact h (String.ext (List.append_cancel_left h2))

/-! ## Resolving accounts under the table constraints -/

theorem GetByNumber_mem (st : State) (n : String) (a : Account)
    (h : GetByNumber st n = some a) : a ∈ st.accounts ∧ strconvItoa a.Number = n := by
  unfold GetByNumber at h
  exact ⟨List.mem_of_find?_eq_some h, by simpa using List.find?_some h⟩

theorem getAccountNumberByID_of_mem (st : State) (hcons : AccountsConsistent st)
    (a : Account) (ha : a ∈ st.accounts) :
    getAccountNumberByID st a.ID = strconvItoa a.Number := by
  unfold getAccountNumberByID
  cases hf : st.accounts.find? (fun x => x.ID == a.ID) with
  | none =>
    have := List.find?_eq_none.mp hf a ha
    simp at this
  | some b =>
    have hb : b ∈ st.accounts := List.mem_of_find?_eq_some hf
    have hid : b.ID = a.ID := by simpa using List.find?_some hf
    rw [hcons b hb a ha (Or.inl hid)]

theorem GetByNumber_of_mem (st : State) (hcons : AccountsConsistent st)
    (a : Account) (ha : a ∈ st.accounts) :
    GetByNumber st (strconvItoa a.Number) = some a := by
  cases hf : GetByNumber st (strconvItoa a.Number) with
  | none =>
    unfold GetByNumber at hf
    have := List.find?_eq_none.mp hf a ha
    simp at this
  | some b =>
    obtain ⟨hb, hn⟩ := GetByNumber_mem st _ b hf
    rw [hcons b hb a ha (Or.inr hn)]

/-! ## Frame of a call to the movement endpoint -/

theorem CreateMovement_transfers (env : MovementEnv) (st : State)
    (request : MovementRequest) :
    (CreateMovement env st request).1.transfers = st.transfers := by
  rcases CreateMovement_cases env st request with h | ⟨a, _, _, _, _, _, _, h⟩
  · rw [h]
  · rw [h]; exact appended_transfers env st request a

theorem CreateMovement_events (env : MovementEnv) (st : State) (request : MovementRequest) :
    (CreateMovement env st request).1.events = st.events := by
  rcases CreateMovement_cases env st request with h | ⟨a, _, _, _, _, _, _, h⟩
  · rw [h]
  · rw [h]; exact appended_events env st request a

theorem CreateMovement_sent (env : MovementEnv) (st : State) (request : MovementRequest) :
    (CreateMovement env st request).1.sent = st.sent := by
  rcases CreateMovement_cases env st request with h | ⟨a, _, _, _, _, _, _, h⟩
  · rw [h]
  · rw [h]; exact appended_sent env st request a

theorem CreateMovement_fees (env : MovementEnv) (st : State) (request : MovementRequest) :
    (CreateMovement env st request).1.fees = st.fees := by
  rcases CreateMovement_cases env st request with h | ⟨a, _, _, _, _, _, _, h⟩
  · rw [h]
  · rw [h]; exact appended_fees env st request a

theorem AccountHandler_CreateMovement_state (env : MovementEnv) (st : State)
    (body : Option MovementRequest) :
    (AccountHandler.CreateMovement env st body).1 = st ∨
    ∃ request, body = some request ∧
      (AccountHandler.CreateMovement env st body).1 = (CreateMovement env st request).1 := by
  unfold AccountHandler.CreateMovement
  cases hb : bindMovementRequest body with
  | none => exact Or.inl rfl
  | some request =>
    right
    have hbody : body = some request := by
      unfold bindMovementRequest at hb
      cases body with
      | none => simp at hb
      | some r =>
        simp only [] at hb
        split_ifs at hb
        simpa using hb
    refine ⟨request, hbody, ?_⟩
    simp only []
    cases CreateMovement env st request with
    | mk st1 res => cases res <;> rfl

theorem callAccountMovementAPI_state (env : CallEnv) (st : State)
    (request : MovementRequest) :
    (callAccountMovementAPI env st request).1 = { st with sent := st.sent ++ [request] } ∨
    (callAccountMovementAPI env st request).1 =
      (CreateMovement env.movement { st with sent := st.sent ++ [request] } request).1 := by
  unfold callAccountMovementAPI
  cases hd : env.delivered with
  | false => exact Or.inl (by simp)
  | true =>
    simp only [if_true]
    rcases AccountHandler_CreateMovement_state env.movement
      { st with sent := st.sent ++ [request] } (some request) with h | ⟨r, hr, h⟩
    · exact Or.inl h
    · right
      rw [h]
      cases hr
      rfl

theorem callAccountMovementAPI_transfers (env : CallEnv) (st : State)
    (request : MovementRequest) :
    (callAccountMovementAPI env st request).1.transfers = st.transfers := by
  rcases callAccountMovementAPI_state env st request with h | h
  · rw [h]
  · rw [h, CreateMovement_transfers]

theorem callAccountMovementAPI_events (env : CallEnv) (st : State)
    (request : MovementRequest) :
    (callAccountMovementAPI env st request).1.events = st.events := by
  rcases callAccountMovementAPI_state env st request with h | h
  · rw [h]
  · rw [h, CreateMovement_events]

theorem callAccountMovementAPI_sent (env : CallEnv) (st : State)
    (request : MovementRequest) :
    (callAccountMovementAPI env st request).1.sent = st.sent ++ [request] := by
  rcases callAccountMovementAPI_state env st request with h | h
  · rw [h]
  · rw [h, CreateMovement_sent]

theorem appended_eq (env : MovementEnv) (st : State) (request : MovementRequest)
    (account : Account) (hsave : env.saveIdempotencyFails = false)
    (hfresh : CheckIdempotency st request.RequestID = none) :
    appended env st request account =
      { st with
        movements := st.movements ++ [NewMovement env.newID account.ID request.Kind
          request.Amount (some request.RequestID)],
        idempotency := st.idempotency ++ [successRecord request] } := by
  have h : CheckIdempotency (insertMovement st (NewMovement env.newID account.ID
      request.Kind request.Amount (some request.RequestID))) request.RequestID = none := by
    rw [← hfresh]; rfl
  simp only [appended, SaveIdempotency, hsave, Bool.false_or, successRecord_Key, h]
  simp [insertMovement]

theorem bindMovementRequest_ok (request : MovementRequest) (hid : request.RequestID ≠ "")
    (hnum : request.AccountNumber ≠ "") (hamount : request.Amount ≠ 0)
    (hkind : request.Kind ≠ "") : bindMovementRequest (some request) = some request := by
  simp [bindMovementRequest, hid, hnum, hamount, hkind]

/-- A delivered and answered call with a valid request under a fresh key, on an active
account that covers a debit, appends the movement and its record and reports success. -/
theorem callAccountMovementAPI_applies (env : CallEnv) (st : State)
    (request : MovementRequest) (account : Account) (hworks : env.works)
    (hkind : request.Kind = "C" ∨ request.Kind = "D") (hpos : 0 < request.Amount)
    (hid : request.RequestID ≠ "")
    (hfresh : CheckIdempotency st request.RequestID = none)
    (hacc : GetByNumber st request.AccountNumber = some account)
    (hactive : account.Active = true)
    (hcover : request.Kind = "D" → request.Amount ≤ GetBalance st.movements account.ID) :
    callAccountMovementAPI env st request =
      (applied st env.movement.newID account request, true) := by
  obtain ⟨hdel, hans, hc, hg, hb, hcr, hs⟩ := hworks
  have hnum : request.AccountNumber ≠ "" := by
    rw [← (GetByNumber_mem st _ account hacc).2]
    exact strconvItoa_ne_empty _
  have hk : request.Kind ≠ "" := by
    rcases hkind with h | h <;> rw [h] <;> decide
  have hbind := bindMovementRequest_ok request hid hnum (ne_of_gt hpos) hk
  have happ := CreateMovement_appends env.movement { st with sent := st.sent ++ [request] }
    request account hc hg (fun _ => hb) hcr hkind hpos hfresh hacc hactive hcover
  rw [appended_eq env.movement { st with sent := st.sent ++ [request] } request account hs
    hfresh] at happ
  unfold callAccountMovementAPI AccountHandler.CreateMovement
  simp only [hdel, if_true, hbind, happ, hans]
  rfl

/-! ## The transfer that completes -/

theorem updateTransfer_last (st : State) (ts : List Transfer) (t t1 : Transfer)
    (hts : st.transfers = ts ++ [t]) (hid : t1.ID = t.ID) (hfresh : ∀ x ∈ ts, x.ID ≠ t.ID) :
    updateTransfer false st t1 = { st with transfers := ts ++ [t1] } := by
  unfold updateTransfer
  have hany : st.transfers.any (fun x => x.ID == t1.ID) = true := by
    rw [hts, hid]; simp
  have hmap : ts.map (fun x => if x.ID = t1.ID then t1 else x) = ts := by
    rw [hid]
    conv_rhs => rw [← List.map_id ts]
    apply List.map_congr_left
    intro x hx
    simp [hfresh x hx]
  simp only [Bool.false_eq_true, if_false, hany, if_true]
  rw [hts, List.map_append, hmap]
  simp [hid]

theorem CheckIdempotency_append_other (st : State) (r : Idempotency) (key : String)
    (hne : r.Key ≠ key) (h : CheckIdempotency st key = none) :
    st.idempotency.find? (fun x => x.Key == key) = none ∧
    (st.idempotency ++ [r]).find? (fun x => x.Key == key) = none := by
  have h1 : st.idempotency.find? (fun x => x.Key == key) = none := h
  refine ⟨h1, ?_⟩
  rw [List.find?_append, h1]
  simp [hne]

/-- Both calls of `processTransferMovements` go through: the debit and the credit are
appended with their records. -/
theorem processTransferMovements_applies (env : TransferEnv) (st : State)
    (transfer : Transfer) (origin destination : Account)
    (hcons : AccountsConsistent st) (horigin : origin ∈ st.accounts)
    (hdestination : destination ∈ st.accounts)
    (hoid : transfer.OriginAccountID = origin.ID)
    (hdid : transfer.DestinationAccountID = destination.ID)
    (hoactive : origin.Active = true) (hdactive : destination.Active = true)
    (hpos : 0 < transfer.Amount)
    (hbal : transfer.Amount ≤ GetBalance st.movements origin.ID)
    (hdebit : env.debit.works) (hcredit : env.credit.works)
    (hfreshD : CheckIdempotency st (transfer.ID ++ "-debit") = none)
    (hfreshC : CheckIdempotency st (transfer.ID ++ "-credit") = none) :
    processTransferMovements env st transfer =
      (applied
        (applied st env.debit.movement.newID origin
          (sagaDebit transfer.ID origin.Number transfer.Amount))
        env.credit.movement.newID destination
        (sagaCredit transfer.ID destination.Number transfer.Amount), true) := by
  have hkeys : transfer.ID ++ "-debit" ≠ transfer.ID ++ "-credit" :=
    append_ne_append _ _ _ (by decide)
  have hreqD : debitRequest st transfer =
      sagaDebit transfer.ID origin.Number transfer.Amount := by
    simp [debitRequest, sagaDebit, hoid, getAccountNumberByID_of_mem st hcons origin horigin]
  have hD := callAccountMovementAPI_applies env.debit st
    (sagaDebit transfer.ID origin.Number transfer.Amount) origin
    hdebit (Or.inr rfl) hpos (append_ne_empty _ _ (by decide)) hfreshD
    (GetByNumber_of_mem st hcons origin horigin) hoactive (fun _ => hbal)
  have hreqC : creditRequest (applied st env.debit.movement.newID origin
      (sagaDebit transfer.ID origin.Number transfer.Amount)) transfer =
      sagaCredit transfer.ID destination.Number transfer.Amount := by
    simp [creditRequest, sagaCredit, hdid, getAccountNumberByID_congr st (applied _ _ _ _) rfl,
      getAccountNumberByID_of_mem st hcons destination hdestination]
  have hC := callAccountMovementAPI_applies env.credit
    (applied st env.debit.movement.newID origin
      (sagaDebit transfer.ID origin.Number transfer.Amount))
    (sagaCredit transfer.ID destination.Number transfer.Amount) destination
    hcredit (Or.inl rfl) hpos (append_ne_empty _ _ (by decide))
    (CheckIdempotency_append_other st _ _ hkeys hfreshC).2
    (GetByNumber_of_mem st hcons destination hdestination) hdactive
    (fun h => by simp [sagaCredit] at h)
  unfold processTransferMovements
  simp only [hreqD, hD, Bool.true_eq_false, if_false, hreqC, hC]

theorem AccountsConsistent_congr (st st1 : State) (h : st1.accounts = st.accounts)
    (hcons : AccountsConsistent st) : AccountsConsistent st1 := by
  unfold AccountsConsistent at *
  rw [h]
  exact hcons

/-- The store and the result of a transfer in which every step works. -/
theorem CreateTransfer_completes (env : TransferEnv) (st : State)
    (request : CreateTransferRequest) (origin destination : Account)
    (hpos : 0 < request.Amount) (hcons : AccountsConsistent st)
    (horigin : origin ∈ st.accounts) (hoactive : origin.Active = true)
    (hdest : GetByNumber st request.DestinationAccountNumber = some destination)
    (hdactive : destination.Active = true) (hne : origin.ID ≠ destination.ID)
    (hbal : request.Amount ≤ GetBalance st.movements origin.ID)
    (henv : env.allWork)
    (hfreshD : CheckIdempotency st (env.newID ++ "-debit") = none)
    (hfreshC : CheckIdempotency st (env.newID ++ "-credit") = none)
    (hfreshT : ∀ t ∈ st.transfers, t.ID ≠ env.newID) :
    CreateTransfer env st request origin.ID =
      ({ applied
          (applied st env.debit.movement.newID origin
            (sagaDebit env.newID origin.Number request.Amount))
          env.credit.movement.newID destination
          (sagaCredit env.newID destination.Number request.Amount) with
         transfers := st.transfers ++
           [(pendingTransfer env request origin.ID destination.ID).Complete],
         events := st.events ++ [transferEvent env request origin.ID destination.ID] },
       { IsSuccess := true,
         Data := { TransferID := env.newID,
                   Message := "Transferência realizada com sucesso" },
         ErrorType := "", ErrorMessage := "" }) := by
  obtain ⟨hlook, hbalf, hcreate, hdebit, hcredit, hupd, hpub⟩ := henv
  obtain ⟨hdmem, _⟩ := GetByNumber_mem st _ destination hdest
  have hlookup : getAccountIDByNumber env.lookupFails st request.DestinationAccountNumber =
      some destination.ID := by
    simp [getAccountIDByNumber, hlook, hdest, getAccountIDByNumberFromDB]
  have hproc := processTransferMovements_applies env
    (insertTransfer st (pendingTransfer env request origin.ID destination.ID))
    (pendingTransfer env request origin.ID destination.ID) origin destination
    (AccountsConsistent_congr st _ rfl hcons) horigin hdmem rfl rfl hoactive hdactive hpos
    hbal hdebit hcredit hfreshD hfreshC
  unfold CreateTransfer
  rw [if_neg (not_le.mpr hpos), hlookup]
  simp only [if_neg hne, hbalf, Bool.false_eq_true, if_false, getAccountBalance,
    if_neg (not_lt.mpr hbal), hcreate]
  have hproc2 : processTransferMovements env
      (insertTransfer st (NewTransfer env.newID origin.ID destination.ID request.Amount
        ("Transferência para conta " ++ request.DestinationAccountNumber)
        (some request.RequestID)))
      (NewTransfer env.newID origin.ID destination.ID request.Amount
        ("Transferência para conta " ++ request.DestinationAccountNumber)
        (some request.RequestID)) = _ := hproc
  rw [hproc2]
  simp only [Bool.true_eq_false, if_false, hupd, hpub]
  rw [updateTransfer_last _ st.transfers
    (pendingTransfer env request origin.ID destination.ID)
    (Transfer.Complete (NewTransfer env.newID origin.ID destination.ID request.Amount
        ("Transferência para conta " ++ request.DestinationAccountNumber)
        (some request.RequestID))) rfl rfl (fun x hx => hfreshT x hx)]
  simp only [PublishTransferEvent, Bool.false_eq_true, if_false]
  rfl

/-! ## Claims on the transfer saga -/

theorem applied_balance (st : State) (newID : String) (account : Account)
    (request : MovementRequest) (accountID : String) :
    GetBalance (applied st newID account request).movements accountID =
      GetBalance st.movements accountID +
        (if account.ID = accountID then
          (if request.Kind = "C" then request.Amount else -request.Amount) else 0) := by
  show GetBalance (st.movements ++ [_]) accountID = _
  rw [GetBalance_append, GetBalance_singleton]
  simp [NewMovement, signedAmount]

theorem sampleBank_consistent : AccountsConsistent sampleBank := by
  unfold AccountsConsistent
  decide

theorem sampleBank_balance_origin : GetBalance sampleBank.movements "acc-1" = 500 := by
  simp [GetBalance, signedAmount, sampleBank]

theorem sampleBank_balance_destination : GetBalance sampleBank.movements "acc-2" = 0 := by
  simp [GetBalance, sampleBank]


theorem sampleTransfer_first :
    CreateTransfer (TransferEnv.ok "t1") sampleBank sampleTransfer "acc-1" =
      ({ applied
          (applied sampleBank "t1-m1" sampleOrigin (sagaDebit "t1" 100001 100))
          "t1-m2" sampleDestination (sagaCredit "t1" 100002 100) with
         transfers := [(pendingTransfer (TransferEnv.ok "t1") sampleTransfer "acc-1"
           "acc-2").Complete],
         events := [transferEvent (TransferEnv.ok "t1") sampleTransfer "acc-1" "acc-2"] },
       { IsSuccess := true,
         Data := { TransferID := "t1", Message := "Transferência realizada com sucesso" },
         ErrorType := "", ErrorMessage := "" }) :=
  CreateTransfer_completes (TransferEnv.ok "t1") sampleBank sampleTransfer
    sampleOrigin sampleDestination (by norm_num [sampleTransfer]) sampleBank_consistent
    (by decide) rfl (by decide) rfl (by decide)
    (by rw [show sampleOrigin.ID = "acc-1" from rfl, sampleBank_balance_origin]
        norm_num [sampleTransfer])
    (by decide) (by decide) (by decide) (by decide)

theorem sampleBankAfterFirst_eq :
    sampleBankAfterFirst =
      { applied
          (applied sampleBank "t1-m1" sampleOrigin (sagaDebit "t1" 100001 100))
          "t1-m2" sampleDestination (sagaCredit "t1" 100002 100) with
        transfers := [(pendingTransfer (TransferEnv.ok "t1") sampleTransfer "acc-1"
          "acc-2").Complete],
        events := [transferEvent (TransferEnv.ok "t1") sampleTransfer "acc-1" "acc-2"] } :=
  congrArg Prod.fst sampleTransfer_first

theorem sampleBankAfterFirst_balance_origin :
    GetBalance sampleBankAfterFirst.movements "acc-1" = 400 := by
  rw [sampleBankAfterFirst_eq]
  show GetBalance (applied (applied sampleBank _ sampleOrigin _) _ sampleDestination
    _).movements "acc-1" = 400
  rw [applied_balance, applied_balance, sampleBank_balance_origin]
  simp [sagaDebit, sagaCredit, sampleOrigin, sampleDestination]
  norm_num

theorem sampleTransfer_retry :
    CreateTransfer (TransferEnv.ok "t2") sampleBankAfterFirst sampleTransfer "acc-1" =
      ({ applied
          (applied sampleBankAfterFirst "t2-m1" sampleOrigin (sagaDebit "t2" 100001 100))
          "t2-m2" sampleDestination (sagaCredit "t2" 100002 100) with
         transfers := sampleBankAfterFirst.transfers ++
           [(pendingTransfer (TransferEnv.ok "t2") sampleTransfer "acc-1" "acc-2").Complete],
         events := sampleBankAfterFirst.events ++
           [transferEvent (TransferEnv.ok "t2") sampleTransfer "acc-1" "acc-2"] },
       { IsSuccess := true,
         Data := { TransferID := "t2", Message := "Transferência realizada com sucesso" },
         ErrorType := "", ErrorMessage := "" }) := by
  have hacc : sampleBankAfterFirst.accounts = sampleBank.accounts := by
    rw [sampleBankAfterFirst_eq]; rfl
  exact CreateTransfer_completes (TransferEnv.ok "t2") sampleBankAfterFirst sampleTransfer
    sampleOrigin sampleDestination (by norm_num [sampleTransfer])
    (AccountsConsistent_congr sampleBank _ hacc sampleBank_consistent)
    (by rw [hacc]; decide) rfl
    (by rw [GetByNumber_congr sampleBank _ hacc]; decide) rfl (by decide)
    (by rw [show sampleOrigin.ID = "acc-1" from rfl, sampleBankAfterFirst_balance_origin]
        norm_num [sampleTransfer])
    (by decide)
    (by rw [sampleBankAfterFirst_eq]; decide)
    (by rw [sampleBankAfterFirst_eq]; decide)
    (by rw [sampleBankAfterFirst_eq]; decide)

theorem sampleBankAfterRetry_eq :
    sampleBankAfterRetry =
      { applied
          (applied sampleBankAfterFirst "t2-m1" sampleOrigin (sagaDebit "t2" 100001 100))
          "t2-m2" sampleDestination (sagaCredit "t2" 100002 100) with
        transfers := sampleBankAfterFirst.transfers ++
          [(pendingTransfer (TransferEnv.ok "t2") sampleTransfer "acc-1" "acc-2").Complete],
        events := sampleBankAfterFirst.events ++
          [transferEvent (TransferEnv.ok "t2") sampleTransfer "acc-1" "acc-2"] } :=
  congrArg Prod.fst sampleTransfer_retry

/-- C8 on the code: the sample transfer request (client key `req-1`, 100.00 from an
origin holding 500.00) is submitted twice; both calls succeed, two Transfer records carry
the key `req-1`, the origin is debited twice and ends with 300.00. -/
theorem CreateTransfer_retry_debits_twice :
    (CreateTransfer (TransferEnv.ok "t1") sampleBank sampleTransfer "acc-1").2.IsSuccess
      = true ∧
    (CreateTransfer (TransferEnv.ok "t2") sampleBankAfterFirst sampleTransfer
      "acc-1").2.IsSuccess = true ∧
    sampleBankAfterRetry.transfers.map (fun t => (t.ID, t.IdempotencyKey, t.Status)) =
      [("t1", some "req-1", TransferStatusCompleted),
       ("t2", some "req-1", TransferStatusCompleted)] ∧
    (sampleBankAfterRetry.movements.filter
      (fun m => m.AccountID == "acc-1" && m.Kind == "D")).map (fun m => m.IdempotencyKey) =
      [some "t1-debit", some "t2-debit"] ∧
    GetBalance sampleBank.movements "acc-1" = 500 ∧
    GetBalance sampleBankAfterRetry.movements "acc-1" = 300 := by
  refine ⟨?_, ?_, ?_, ?_, sampleBank_balance_origin, ?_⟩
  · rw [sampleTransfer_first]
  · rw [sampleTransfer_retry]
  · rw [sampleBankAfterRetry_eq, sampleBankAfterFirst_eq]
    rfl
  · rw [sampleBankAfterRetry_eq, sampleBankAfterFirst_eq]
    decide
  · rw [sampleBankAfterRetry_eq]
    show GetBalance (applied (applied sampleBankAfterFirst _ sampleOrigin _) _
      sampleDestination _).movements "acc-1" = 300
    rw [applied_balance, applied_balance, sampleBankAfterFirst_balance_origin]
    simp [sagaDebit, sagaCredit, sampleOrigin, sampleDestination]
    norm_num

/-! ## The transfer whose credit fails -/

theorem updateTransfer_movements (fails : Bool) (st : State) (t : Transfer) :
    (updateTransfer fails st t).movements = st.movements := by
  unfold updateTransfer
  split_ifs <;> rfl

theorem updateTransfer_events (fails : Bool) (st : State) (t : Transfer) :
    (updateTransfer fails st t).events = st.events := by
  unfold updateTransfer
  split_ifs <;> rfl

theorem processTransferMovements_steps (env : TransferEnv) (st : State)
    (transfer : Transfer) :
    processTransferMovements env st transfer =
      if (debitStep env st transfer).2 = false then ((debitStep env st transfer).1, false)
      else if (creditStep env st transfer).2 = false then
        ((rollbackStep env st transfer).1, false)
      else ((creditStep env st transfer).1, true) := rfl

theorem rollbackStep_events (env : TransferEnv) (st : State) (transfer : Transfer) :
    (rollbackStep env st transfer).1.events = st.events := by
  unfold rollbackStep creditStep debitStep
  rw [callAccountMovementAPI_events, callAccountMovementAPI_events,
    callAccountMovementAPI_events]

theorem rollbackStep_transfers (env : TransferEnv) (st : State) (transfer : Transfer) :
    (rollbackStep env st transfer).1.transfers = st.transfers := by
  unfold rollbackStep creditStep debitStep
  rw [callAccountMovementAPI_transfers, callAccountMovementAPI_transfers,
    callAccountMovementAPI_transfers]

theorem callAccountMovementAPI_undelivered (env : CallEnv) (st : State)
    (request : MovementRequest) (h : env.delivered = false) :
    callAccountMovementAPI env st request =
      ({ st with sent := st.sent ++ [request] }, false) := by
  unfold callAccountMovementAPI
  simp [h]

theorem updateTransfer_fees (fails : Bool) (st : State) (t : Transfer) :
    (updateTransfer fails st t).fees = st.fees := by
  unfold updateTransfer
  split_ifs <;> rfl

theorem debitStep_sent (env : TransferEnv) (st : State) (transfer : Transfer) :
    (debitStep env st transfer).1.sent = st.sent ++ [debitRequest st transfer] :=
  callAccountMovementAPI_sent _ _ _

theorem debitStep_events (env : TransferEnv) (st : State) (transfer : Transfer) :
    (debitStep env st transfer).1.events = st.events :=
  callAccountMovementAPI_events _ _ _

theorem debitStep_transfers (env : TransferEnv) (st : State) (transfer : Transfer) :
    (debitStep env st transfer).1.transfers = st.transfers :=
  callAccountMovementAPI_transfers _ _ _

theorem CreateTransfer_invalid_amount (env : TransferEnv) (st : State)
    (request : CreateTransferRequest) (originID : String) (h : request.Amount ≤ 0) :
    CreateTransfer env st request originID =
      (st, Result.failure ErrorInvalidAmount "Valor deve ser positivo") := by
  unfold CreateTransfer
  rw [if_pos h]

theorem CreateTransfer_not_found (env : TransferEnv) (st : State)
    (request : CreateTransferRequest) (originID : String) (hpos : 0 < request.Amount)
    (h : getAccountIDByNumber env.lookupFails st request.DestinationAccountNumber = none) :
    CreateTransfer env st request originID =
      (st, Result.failure ErrorAccountNotFound "Conta de destino não encontrada") := by
  unfold CreateTransfer
  rw [if_neg (not_le.mpr hpos), h]

theorem CreateTransfer_same_account (env : TransferEnv) (st : State)
    (request : CreateTransferRequest) (originID : String) (hpos : 0 < request.Amount)
    (h : getAccountIDByNumber env.lookupFails st request.DestinationAccountNumber =
      some originID) :
    CreateTransfer env st request originID =
      (st, Result.failure ErrorInvalidTransfer
        "Não é possível transferir para a mesma conta") := by
  unfold CreateTransfer
  rw [if_neg (not_le.mpr hpos), h]
  simp

theorem CreateTransfer_insufficient (env : TransferEnv) (st : State)
    (request : CreateTransferRequest) (originID destinationID : String)
    (hpos : 0 < request.Amount)
    (hlookup : getAccountIDByNumber env.lookupFails st request.DestinationAccountNumber =
      some destinationID)
    (hne : originID ≠ destinationID) (hbalf : env.balanceFails = false)
    (hlow : GetBalance st.movements originID < request.Amount) :
    CreateTransfer env st request originID =
      (st, Result.failure ErrorInsufficientBalance "Saldo insuficiente") := by
  unfold CreateTransfer
  rw [if_neg (not_le.mpr hpos), hlookup]
  simp only [if_neg hne, hbalf, Bool.false_eq_true, if_false, getAccountBalance, if_pos hlow]

theorem CreateTransfer_balance_fails (env : TransferEnv) (st : State)
    (request : CreateTransferRequest) (originID destinationID : String)
    (hpos : 0 < request.Amount)
    (hlookup : getAccountIDByNumber env.lookupFails st request.DestinationAccountNumber =
      some destinationID)
    (hne : originID ≠ destinationID) (hbalf : env.balanceFails = true) :
    CreateTransfer env st request originID =
      (st, Result.failure ErrorInternalError "Erro interno do servidor") := by
  unfold CreateTransfer
  rw [if_neg (not_le.mpr hpos), hlookup]
  simp only [if_neg hne, hbalf, if_true]

theorem CreateTransfer_create_fails (env : TransferEnv) (st : State)
    (request : CreateTransferRequest) (originID destinationID : String)
    (hpos : 0 < request.Amount)
    (hlookup : getAccountIDByNumber env.lookupFails st request.DestinationAccountNumber =
      some destinationID)
    (hne : originID ≠ destinationID) (hbalf : env.balanceFails = false)
    (hbal : request.Amount ≤ GetBalance st.movements originID)
    (hcreate : env.createFails = true) :
    CreateTransfer env st request originID =
      (st, Result.failure ErrorInternalError "Erro interno do servidor") := by
  unfold CreateTransfer
  rw [if_neg (not_le.mpr hpos), hlookup]
  simp only [if_neg hne, hbalf, Bool.false_eq_true, if_false, getAccountBalance,
    if_neg (not_lt.mpr hbal), hcreate, if_true]

/-- A transfer that passes the validation and creates its record: the store and the result
in terms of the saga. -/
theorem CreateTransfer_saga (env : TransferEnv) (st : State)
    (request : CreateTransferRequest) (originID destinationID : String)
    (hpos : 0 < request.Amount)
    (hlookup : getAccountIDByNumber env.lookupFails st request.DestinationAccountNumber =
      some destinationID)
    (hne : originID ≠ destinationID) (hbalf : env.balanceFails = false)
    (hbal : request.Amount ≤ GetBalance st.movements originID)
    (hcreate : env.createFails = false) :
    CreateTransfer env st request originID =
      if (processTransferMovements env
          (insertTransfer st (pendingTransfer env request originID destinationID))
          (pendingTransfer env request originID destinationID)).2 = false then
        (updateTransfer env.updateFails
          (processTransferMovements env
            (insertTransfer st (pendingTransfer env request originID destinationID))
            (pendingTransfer env request originID destinationID)).1
          (pendingTransfer env request originID destinationID).Fail,
         Result.failure ErrorInternalError "Erro ao processar transferência")
      else
        (PublishTransferEvent env.publishFails
          (updateTransfer env.updateFails
            (processTransferMovements env
              (insertTransfer st (pendingTransfer env request originID destinationID))
              (pendingTransfer env request originID destinationID)).1
            (pendingTransfer env request originID destinationID).Complete)
          (transferEvent env request originID destinationID),
         { IsSuccess := true,
           Data := { TransferID := env.newID,
                     Message := "Transferência realizada com sucesso" },
           ErrorType := "", ErrorMessage := "" }) := by
  unfold CreateTransfer
  rw [if_neg (not_le.mpr hpos), hlookup]
  simp only [if_neg hne, hbalf, Bool.false_eq_true, if_false, getAccountBalance,
    if_neg (not_lt.mpr hbal), hcreate]
  rfl

/-- Every call of `CreateTransfer` ends in one of three ways: a rejection that leaves the
store as it was, the processing error after the saga failed, or success. -/
theorem CreateTransfer_outcomes (env : TransferEnv) (st : State)
    (request : CreateTransferRequest) (originID : String) :
    (∃ errorType message,
      CreateTransfer env st request originID = (st, Result.failure errorType message)) ∨
    (CreateTransfer env st request originID).2 =
      Result.failure ErrorInternalError "Erro ao processar transferência" ∨
    (CreateTransfer env st request originID).2 =
      { IsSuccess := true,
        Data := { TransferID := env.newID,
                  Message := "Transferência realizada com sucesso" },
        ErrorType := "", ErrorMessage := "" } := by
  by_cases hpos : request.Amount ≤ 0
  · exact Or.inl ⟨_, _, CreateTransfer_invalid_amount env st request originID hpos⟩
  have hpos : 0 < request.Amount := not_le.mp hpos
  cases hlookup : getAccountIDByNumber env.lookupFails st request.DestinationAccountNumber with
  | none => exact Or.inl ⟨_, _, CreateTransfer_not_found env st request originID hpos hlookup⟩
  | some destinationID =>
    by_cases hne : originID = destinationID
    · subst hne
      exact Or.inl ⟨_, _, CreateTransfer_same_account env st request originID hpos hlookup⟩
    cases hbalf : env.balanceFails with
    | true =>
      exact Or.inl ⟨_, _, CreateTransfer_balance_fails env st request originID destinationID
        hpos hlookup hne hbalf⟩
    | false =>
      by_cases hlow : GetBalance st.movements originID < request.Amount
      · exact Or.inl ⟨_, _, CreateTransfer_insufficient env st request originID destinationID
          hpos hlookup hne hbalf hlow⟩
      have hbal : request.Amount ≤ GetBalance st.movements originID := not_lt.mp hlow
      cases hcreate : env.createFails with
      | true =>
        exact Or.inl ⟨_, _, CreateTransfer_create_fails env st request originID destinationID
          hpos hlookup hne hbalf hbal hcreate⟩
      | false =>
        right
        rw [CreateTransfer_saga env st request originID destinationID hpos hlookup hne hbalf
          hbal hcreate]
        split_ifs
        · exact Or.inl rfl
        · exact Or.inr rfl

/-- C12: every `CreateTransfer` call that is rejected with the error of a non-positive
amount, of an unknown destination, of origin equal to destination, or of an origin balance
smaller than the amount leaves the whole store exactly as it was before the call: no
Transfer record is created, no movement request is posted, no event is published and the
ledger is untouched. -/
theorem CreateTransfer_rejection_changes_nothing (env : TransferEnv) (st : State)
    (request : CreateTransferRequest) (originID : String)
    (hrejected : (CreateTransfer env st request originID).2.ErrorType = "INVALID_AMOUNT" ∨
      (CreateTransfer env st request originID).2.ErrorType = "ACCOUNT_NOT_FOUND" ∨
      (CreateTransfer env st request originID).2.ErrorType = "INVALID_TRANSFER" ∨
      (CreateTransfer env st request originID).2.ErrorType = "INSUFFICIENT_BALANCE") :
    (CreateTransfer env st request originID).1 = st ∧
    (CreateTransfer env st request originID).2.IsSuccess = false ∧
    (CreateTransfer env st request originID).1.transfers = st.transfers ∧
    (CreateTransfer env st request originID).1.sent = st.sent ∧
    (CreateTransfer env st request originID).1.events = st.events ∧
    (CreateTransfer env st request originID).1.movements = st.movements := by
  rcases CreateTransfer_outcomes env st request originID with ⟨e, m, h⟩ | h | h
  · rw [h]
    exact ⟨rfl, rfl, rfl, rfl, rfl, rfl⟩
  · rw [h] at hrejected
    exact absurd hrejected (by decide)
  · rw [h] at hrejected
    have hnot : ¬ (("" : String) = "INVALID_AMOUNT" ∨ ("" : String) = "ACCOUNT_NOT_FOUND" ∨
        ("" : String) = "INVALID_TRANSFER" ∨ ("" : String) = "INSUFFICIENT_BALANCE") := by
      decide
    exact absurd hrejected hnot

/-- Witness of C12: the transfer of 600.00 from the origin holding 500.00 is rejected with
`INSUFFICIENT_BALANCE` and the store is the sample bank, unchanged. -/
theorem CreateTransfer_rejection_changes_nothing_witness :
    (CreateTransfer (TransferEnv.ok "t1") sampleBank sampleTransferTooLarge "acc-1").2.ErrorType
      = "INSUFFICIENT_BALANCE" ∧
    (CreateTransfer (TransferEnv.ok "t1") sampleBank sampleTransferTooLarge "acc-1").1 =
      sampleBank := by
  have hres := CreateTransfer_insufficient (TransferEnv.ok "t1") sampleBank
    sampleTransferTooLarge "acc-1" "acc-2" (by norm_num [sampleTransferTooLarge]) (by decide)
    (by decide) rfl (by rw [sampleBank_balance_origin]; norm_num [sampleTransferTooLarge])
  have htype : (CreateTransfer (TransferEnv.ok "t1") sampleBank sampleTransferTooLarge
      "acc-1").2.ErrorType = "INSUFFICIENT_BALANCE" := by rw [hres]; rfl
  exact ⟨htype, (CreateTransfer_rejection_changes_nothing (TransferEnv.ok "t1") sampleBank
    sampleTransferTooLarge "acc-1" (Or.inr (Or.inr (Or.inr htype)))).1⟩

theorem processTransferMovements_publish (env : TransferEnv) (b : Bool) (st : State)
    (transfer : Transfer) :
    processTransferMovements { env with publishFails := b } st transfer =
      processTransferMovements env st transfer := rfl

theorem processTransferMovements_events (env : TransferEnv) (st : State)
    (transfer : Transfer) : (processTransferMovements env st transfer).1.events = st.events := by
  rw [processTransferMovements_steps]
  split_ifs
  · exact debitStep_events env st transfer
  · exact rollbackStep_events env st transfer
  · show (creditStep env st transfer).1.events = _
    unfold creditStep
    rw [callAccountMovementAPI_events, debitStep_events]

theorem processTransferMovements_transfers (env : TransferEnv) (st : State)
    (transfer : Transfer) :
    (processTransferMovements env st transfer).1.transfers = st.transfers := by
  rw [processTransferMovements_steps]
  split_ifs
  · exact debitStep_transfers env st transfer
  · exact rollbackStep_transfers env st transfer
  · show (creditStep env st transfer).1.transfers = _
    unfold creditStep
    rw [callAccountMovementAPI_transfers, debitStep_transfers]

theorem pendingTransfer_publish (env : TransferEnv) (b : Bool)
    (request : CreateTransferRequest) (originID destinationID : String) :
    pendingTransfer { env with publishFails := b } request originID destinationID =
      pendingTransfer env request originID destinationID := rfl

theorem transferEvent_publish (env : TransferEnv) (b : Bool)
    (request : CreateTransferRequest) (originID destinationID : String) :
    transferEvent { env with publishFails := b } request originID destinationID =
      transferEvent env request originID destinationID := rfl

theorem PublishTransferEvent_frame (fails : Bool) (st : State) (event : TransferEvent) :
    (PublishTransferEvent fails st event).transfers = st.transfers ∧
    (PublishTransferEvent fails st event).movements = st.movements ∧
    (PublishTransferEvent fails st event).idempotency = st.idempotency ∧
    (PublishTransferEvent fails st event).accounts = st.accounts ∧
    (PublishTransferEvent fails st event).sent = st.sent ∧
    (PublishTransferEvent fails st event).fees = st.fees := by
  unfold PublishTransferEvent
  split_ifs <;> exact ⟨rfl, rfl, rfl, rfl, rfl, rfl⟩

/-- The two runs of `CreateTransfer` that differ only in whether the publish fails: the
same result and the same store up to the topic, to which the failing run adds nothing. -/
theorem CreateTransfer_publish_independent (env : TransferEnv) (st : State)
    (request : CreateTransferRequest) (originID : String) :
    (CreateTransfer { env with publishFails := true } st request originID).2 =
      (CreateTransfer { env with publishFails := false } st request originID).2 ∧
    sameButEvents (CreateTransfer { env with publishFails := true } st request originID).1
      (CreateTransfer { env with publishFails := false } st request originID).1 ∧
    (CreateTransfer { env with publishFails := true } st request originID).1.events =
      st.events := by
  have hsame : ∀ s : State, sameButEvents s s := fun s => ⟨rfl, rfl, rfl, rfl, rfl, rfl⟩
  by_cases hpos : request.Amount ≤ 0
  · rw [CreateTransfer_invalid_amount _ st request originID hpos,
      CreateTransfer_invalid_amount _ st request originID hpos]
    exact ⟨rfl, hsame _, rfl⟩
  have hpos : 0 < request.Amount := not_le.mp hpos
  cases hlookup : getAccountIDByNumber env.lookupFails st request.DestinationAccountNumber with
  | none =>
    rw [CreateTransfer_not_found { env with publishFails := true } st request originID hpos
        hlookup,
      CreateTransfer_not_found { env with publishFails := false } st request originID hpos
        hlookup]
    exact ⟨rfl, hsame _, rfl⟩
  | some destinationID =>
    by_cases hne : originID = destinationID
    · subst hne
      rw [CreateTransfer_same_account { env with publishFails := true } st request originID
          hpos hlookup,
        CreateTransfer_same_account { env with publishFails := false } st request originID
          hpos hlookup]
      exact ⟨rfl, hsame _, rfl⟩
    by_cases hbalf : env.balanceFails = true
    · rw [CreateTransfer_balance_fails { env with publishFails := true } st request originID
          destinationID hpos hlookup hne hbalf,
        CreateTransfer_balance_fails { env with publishFails := false } st request originID
          destinationID hpos hlookup hne hbalf]
      exact ⟨rfl, hsame _, rfl⟩
    have hbalf : env.balanceFails = false := by simpa using hbalf
    by_cases hlow : GetBalance st.movements originID < request.Amount
    · rw [CreateTransfer_insufficient { env with publishFails := true } st request originID
          destinationID hpos hlookup hne hbalf hlow,
        CreateTransfer_insufficient { env with publishFails := false } st request originID
          destinationID hpos hlookup hne hbalf hlow]
      exact ⟨rfl, hsame _, rfl⟩
    have hbal : request.Amount ≤ GetBalance st.movements originID := not_lt.mp hlow
    by_cases hcreate : env.createFails = true
    · rw [CreateTransfer_create_fails { env with publishFails := true } st request originID
          destinationID hpos hlookup hne hbalf hbal hcreate,
        CreateTransfer_create_fails { env with publishFails := false } st request originID
          destinationID hpos hlookup hne hbalf hbal hcreate]
      exact ⟨rfl, hsame _, rfl⟩
    have hcreate : env.createFails = false := by simpa using hcreate
    rw [CreateTransfer_saga { env with publishFails := true } st request originID
        destinationID hpos hlookup hne hbalf hbal hcreate,
      CreateTransfer_saga { env with publishFails := false } st request originID
        destinationID hpos hlookup hne hbalf hbal hcreate]
    simp only [processTransferMovements_publish, pendingTransfer_publish,
      transferEvent_publish]
    by_cases hp : (processTransferMovements env
        (insertTransfer st (pendingTransfer env request originID destinationID))
        (pendingTransfer env request originID destinationID)).2 = false
    · rw [if_pos hp, if_pos hp]
      refine ⟨rfl, hsame _, ?_⟩
      show (updateTransfer _ _ _).events = _
      rw [updateTransfer_events, processTransferMovements_events]
      rfl
    · rw [if_neg hp, if_neg hp]
      refine ⟨rfl, ?_, ?_⟩
      · obtain ⟨h1, h2, h3, h4, h5, h6⟩ := PublishTransferEvent_frame false
          (updateTransfer env.updateFails
            (processTransferMovements env
              (insertTransfer st (pendingTransfer env request originID destinationID))
              (pendingTransfer env request originID destinationID)).1
            (pendingTransfer env request originID destinationID).Complete)
          (transferEvent env request originID destinationID)
        exact ⟨h1.symm, h2.symm, h3.symm, h4.symm, h5.symm, h6.symm⟩
      · show (updateTransfer _ _ _).events = _
        rw [updateTransfer_events, processTransferMovements_events]
        rfl

/-- C15: the run of `CreateTransfer` in which publishing the TransferEvent fails returns
the same result as the run in which it succeeds and leaves the same store (Transfer
records, ledger, idempotency records, posted requests), the topic aside, to which it adds
nothing; in particular, for every transfer that passes the validation and whose debit and
credit both succeed, the failing run still returns success, keeps the movements of the
saga (nothing is rolled back) and stores the record with status Completed. -/
theorem CreateTransfer_publish_failure (env : TransferEnv) (st : State)
    (request : CreateTransferRequest) (originID : String) :
    (CreateTransfer { env with publishFails := true } st request originID).2 =
      (CreateTransfer { env with publishFails := false } st request originID).2 ∧
    sameButEvents (CreateTransfer { env with publishFails := true } st request originID).1
      (CreateTransfer { env with publishFails := false } st request originID).1 ∧
    (CreateTransfer { env with publishFails := true } st request originID).1.events =
      st.events ∧
    (∀ destinationID, 0 < request.Amount →
      getAccountIDByNumber env.lookupFails st request.DestinationAccountNumber =
        some destinationID →
      originID ≠ destinationID → env.balanceFails = false →
      request.Amount ≤ GetBalance st.movements originID → env.createFails = false →
      (processTransferMovements env
        (insertTransfer st (pendingTransfer env request originID destinationID))
        (pendingTransfer env request originID destinationID)).2 = true →
      (CreateTransfer { env with publishFails := true } st request originID).2.IsSuccess
        = true ∧
      (CreateTransfer { env with publishFails := true } st request originID).1.movements =
        (processTransferMovements env
          (insertTransfer st (pendingTransfer env request originID destinationID))
          (pendingTransfer env request originID destinationID)).1.movements ∧
      (env.updateFails = false → (∀ t ∈ st.transfers, t.ID ≠ env.newID) →
        (CreateTransfer { env with publishFails := true } st request originID).1.transfers =
          st.transfers ++
            [(pendingTransfer env request originID destinationID).Complete]) ∧
      (pendingTransfer env request originID destinationID).Complete.Status =
        TransferStatusCompleted) := by
  obtain ⟨h1, h2, h3⟩ := CreateTransfer_publish_independent env st request originID
  refine ⟨h1, h2, h3, ?_⟩
  intro destinationID hpos hlookup hne hbalf hbal hcreate hproc
  rw [CreateTransfer_saga { env with publishFails := true } st request originID destinationID
    hpos hlookup hne hbalf hbal hcreate]
  simp only [processTransferMovements_publish, pendingTransfer_publish,
    transferEvent_publish]
  rw [if_neg (by rw [hproc]; decide)]
  refine ⟨rfl, ?_, ?_, rfl⟩
  · rw [(PublishTransferEvent_frame _ _ _).2.1, updateTransfer_movements]
  · intro hupd hfreshT
    rw [(PublishTransferEvent_frame _ _ _).1]
    show (updateTransfer env.updateFails _ _).transfers = _
    rw [hupd]
    exact congrArg State.transfers (updateTransfer_last
      (processTransferMovements env
        (insertTransfer st (pendingTransfer env request originID destinationID))
        (pendingTransfer env request originID destinationID)).1 st.transfers
      (pendingTransfer env request originID destinationID)
      (pendingTransfer env request originID destinationID).Complete
      (by rw [processTransferMovements_transfers]; rfl) rfl (fun x hx => hfreshT x hx))

/-- Witness of C15: the sample transfer of 100.00 with the broker refusing the event:
success, record Completed, origin at 400.00, nothing on the topic. -/
theorem CreateTransfer_publish_failure_witness :
    (CreateTransfer samplePublishDown sampleBank sampleTransfer "acc-1").2.IsSuccess = true ∧
    (CreateTransfer samplePublishDown sampleBank sampleTransfer "acc-1").1.events = [] ∧
    (CreateTransfer samplePublishDown sampleBank sampleTransfer "acc-1").1.transfers.map
      (fun t => t.Status) = [TransferStatusCompleted] ∧
    GetBalance (CreateTransfer samplePublishDown sampleBank sampleTransfer
      "acc-1").1.movements "acc-1" = 400 := by
  have h := CreateTransfer_publish_failure (TransferEnv.ok "t1") sampleBank sampleTransfer
    "acc-1"
  obtain ⟨_, hsame, hev, hsaga⟩ := h
  have hproc := processTransferMovements_applies (TransferEnv.ok "t1")
    (insertTransfer sampleBank
      (pendingTransfer (TransferEnv.ok "t1") sampleTransfer "acc-1" "acc-2"))
    (pendingTransfer (TransferEnv.ok "t1") sampleTransfer "acc-1" "acc-2")
    sampleOrigin sampleDestination sampleBank_consistent (by decide) (by decide) rfl rfl rfl
    rfl (by norm_num [pendingTransfer, NewTransfer, sampleTransfer])
    (by
      show (100 : ℚ) ≤ GetBalance sampleBank.movements "acc-1"
      rw [sampleBank_balance_origin]; norm_num)
    (by decide) (by decide) (by decide) (by decide)
  obtain ⟨h1, _, h3, _⟩ := hsaga "acc-2" (by norm_num [sampleTransfer]) (by decide)
    (by decide) rfl (by rw [sampleBank_balance_origin]; norm_num [sampleTransfer]) rfl
    (by rw [hproc])
  refine ⟨h1, hev, ?_, ?_⟩
  · have h3' := h3 rfl (by decide)
    have : (CreateTransfer samplePublishDown sampleBank sampleTransfer "acc-1").1.transfers =
        _ := h3'
    rw [this]
    rfl
  · have hm : (CreateTransfer samplePublishDown sampleBank sampleTransfer
        "acc-1").1.movements =
        (CreateTransfer (TransferEnv.ok "t1") sampleBank sampleTransfer "acc-1").1.movements :=
      hsame.2.1
    rw [hm]
    exact sampleBankAfterFirst_balance_origin

/-- C16 fails as stated: `Complete` and `Fail` carry no guard, so `Fail` applied to a
Completed transfer yields status Failed and `Complete` applied to a Failed transfer yields
status Completed. -/
theorem Transfer_terminal_status_counterexample :
    (NewTransfer "t1" "acc-1" "acc-2" 100 "d" none).Complete.Status =
      TransferStatusCompleted ∧
    (NewTransfer "t1" "acc-1" "acc-2" 100 "d" none).Complete.Fail.Status ≠
      (NewTransfer "t1" "acc-1" "acc-2" 100 "d" none).Complete.Status ∧
    (NewTransfer "t1" "acc-1" "acc-2" 100 "d" none).Fail.Status = TransferStatusFailed ∧
    (NewTransfer "t1" "acc-1" "acc-2" 100 "d" none).Fail.Complete.Status ≠
      (NewTransfer "t1" "acc-1" "acc-2" 100 "d" none).Fail.Status := by
  refine ⟨rfl, ?_, rfl, ?_⟩ <;> decide

/-- C16, amended: a new Transfer starts in status Pending with no completion timestamp;
`Complete` sets the status to Completed and `Fail` sets it to Failed, each with a
completion timestamp, whatever the status was; so for every Transfer whose status is
already Completed, applying `Complete` leaves its status unchanged, and for every Transfer
whose status is already Failed, applying `Fail` leaves its status unchanged. -/
theorem Transfer_status_transitions (id originAccountID destinationAccountID : String)
    (amount : ℚ) (description : String) (idempotencyKey : Option String) (t : Transfer) :
    (NewTransfer id originAccountID destinationAccountID amount description
      idempotencyKey).Status = TransferStatusPending ∧
    (NewTransfer id originAccountID destinationAccountID amount description
      idempotencyKey).CompletionDate = false ∧
    t.Complete.Status = TransferStatusCompleted ∧ t.Complete.CompletionDate = true ∧
    t.Fail.Status = TransferStatusFailed ∧ t.Fail.CompletionDate = true ∧
    (t.Status = TransferStatusCompleted → t.Complete.Status = t.Status) ∧
    (t.Status = TransferStatusFailed → t.Fail.Status = t.Status) :=
  ⟨rfl, rfl, rfl, rfl, rfl, rfl, fun h => h.symm ▸ rfl, fun h => h.symm ▸ rfl⟩

/-- Witness of amended C16: the sample transfer, completed, then completed again. -/
theorem Transfer_status_transitions_witness :
    (NewTransfer "t1" "acc-1" "acc-2" 100 "d" none).Status = TransferStatusPending ∧
    (NewTransfer "t1" "acc-1" "acc-2" 100 "d" none).Complete.Status =
      TransferStatusCompleted ∧
    (NewTransfer "t1" "acc-1" "acc-2" 100 "d" none).Complete.Complete.Status =
      (NewTransfer "t1" "acc-1" "acc-2" 100 "d" none).Complete.Status :=
  ⟨(Transfer_status_transitions "t1" "acc-1" "acc-2" 100 "d" none
      (NewTransfer "t1" "acc-1" "acc-2" 100 "d" none)).1,
    (Transfer_status_transitions "t1" "acc-1" "acc-2" 100 "d" none
      (NewTransfer "t1" "acc-1" "acc-2" 100 "d" none)).2.2.1,
    (Transfer_status_transitions "t1" "acc-1" "acc-2" 100 "d" none
      (NewTransfer "t1" "acc-1" "acc-2" 100 "d" none).Complete).2.2.2.2.2.2.1 rfl⟩

/-- The requests posted by `processTransferMovements`: the debit request alone when the
debit call fails, the debit request then the credit request when it succeeds. -/
theorem processTransferMovements_sent_cases (env : TransferEnv) (st : State)
    (transfer : Transfer) :
    ((debitStep env st transfer).2 = false →
      processTransferMovements env st transfer = ((debitStep env st transfer).1, false) ∧
      (processTransferMovements env st transfer).1.sent =
        st.sent ++ [debitRequest st transfer]) ∧
    ((debitStep env st transfer).2 = true →
      ∃ rest, (processTransferMovements env st transfer).1.sent =
        st.sent ++ debitRequest st transfer ::
          creditRequest (debitStep env st transfer).1 transfer :: rest) := by
  constructor
  · intro hd
    rw [processTransferMovements_steps, if_pos hd]
    exact ⟨rfl, debitStep_sent env st transfer⟩
  · intro hd
    rw [processTransferMovements_steps, if_neg (by rw [hd]; decide)]
    split_ifs
    · refine ⟨[rollbackRequest (creditStep env st transfer).1 transfer], ?_⟩
      show (rollbackStep env st transfer).1.sent = _
      unfold rollbackStep
      rw [callAccountMovementAPI_sent]
      unfold creditStep
      rw [callAccountMovementAPI_sent, debitStep_sent]
      simp
    · refine ⟨[], ?_⟩
      show (creditStep env st transfer).1.sent = _
      unfold creditStep
      rw [callAccountMovementAPI_sent, debitStep_sent]
      simp

theorem callAccountMovementAPI_fees (env : CallEnv) (st : State)
    (request : MovementRequest) :
    (callAccountMovementAPI env st request).1.fees = st.fees := by
  rcases callAccountMovementAPI_state env st request with h | h
  · rw [h]
  · rw [h, CreateMovement_fees]

/-- A call whose key is already recorded appends no movement and writes no record. -/
theorem callAccountMovementAPI_recorded (env : CallEnv) (st : State)
    (request : MovementRequest)
    (hdup : (CheckIdempotency st request.RequestID).isSome = true) :
    (callAccountMovementAPI env st request).1 = { st with sent := st.sent ++ [request] } := by
  rcases callAccountMovementAPI_state env st request with h | h
  · exact h
  · rw [h]
    rcases CreateMovement_cases env.movement { st with sent := st.sent ++ [request] } request
      with h1 | ⟨_, _, _, hfresh, _⟩
    · exact h1
    · have hfresh1 : CheckIdempotency st request.RequestID = none := hfresh
      rw [hfresh1] at hdup
      simp at hdup

theorem HandleTransferEvent_create_fails (env : FeeEnv) (st : State) (event : TransferEvent)
    (hcreate : env.createFails = true) :
    feeService.HandleTransferEvent env st event = (st, some "erro ao criar tarifa") := by
  unfold feeService.HandleTransferEvent
  simp [hcreate]

theorem HandleTransferEvent_query_fails (env : FeeEnv) (st : State) (event : TransferEvent)
    (hcreate : env.createFails = false) (hquery : env.numberQueryFails = true) :
    feeService.HandleTransferEvent env st event =
      (insertFee st (NewFee env.newID event.OriginAccountID
        (feeService.getTransferFeeAmount env)), some "erro ao debitar tarifa da conta") := by
  unfold feeService.HandleTransferEvent feeService.debitFeeFromAccount
    feeService.getAccountNumberByID
  simp [hcreate, hquery]

theorem HandleTransferEvent_marshal_fails (env : FeeEnv) (st : State)
    (event : TransferEvent) (hcreate : env.createFails = false)
    (hquery : env.numberQueryFails = false) (hmarshal : env.marshalFails = true) :
    feeService.HandleTransferEvent env st event =
      (insertFee st (NewFee env.newID event.OriginAccountID
        (feeService.getTransferFeeAmount env)), some "erro ao debitar tarifa da conta") := by
  unfold feeService.HandleTransferEvent feeService.debitFeeFromAccount
    feeService.getAccountNumberByID
  simp [hcreate, hquery, hmarshal]

/-- The handler once the Fee row is inserted, the number resolved and the request encoded:
the outcome of the one debit call. -/
theorem HandleTransferEvent_call (env : FeeEnv) (st : State) (event : TransferEvent)
    (hcreate : env.createFails = false) (hquery : env.numberQueryFails = false)
    (hmarshal : env.marshalFails = false) :
    feeService.HandleTransferEvent env st event =
      ((callAccountMovementAPI env.debit
          (insertFee st (NewFee env.newID event.OriginAccountID
            (feeService.getTransferFeeAmount env)))
          (feeRequest (getAccountNumberByID st event.OriginAccountID)
            (feeService.getTransferFeeAmount env) event.RequestID)).1,
        if (callAccountMovementAPI env.debit
          (insertFee st (NewFee env.newID event.OriginAccountID
            (feeService.getTransferFeeAmount env)))
          (feeRequest (getAccountNumberByID st event.OriginAccountID)
            (feeService.getTransferFeeAmount env) event.RequestID)).2 = false
        then some "erro ao debitar tarifa da conta" else none) := by
  unfold feeService.HandleTransferEvent feeService.debitFeeFromAccount
    feeService.getAccountNumberByID
  simp only [hcreate, hquery, hmarshal, Bool.false_eq_true, if_false]
  have hnum : getAccountNumberByID
      (insertFee st (NewFee env.newID event.OriginAccountID
        (feeService.getTransferFeeAmount env))) event.OriginAccountID =
      getAccountNumberByID st event.OriginAccountID := rfl
  rw [hnum]
  split_ifs <;> rfl

theorem HandleTransferEvent_amount (env : FeeEnv) (st : State) (event : TransferEvent)
    (amount : ℚ) :
    feeService.HandleTransferEvent env st (event.withAmount amount) =
      feeService.HandleTransferEvent env st event := rfl

/-- The fee debit applied: Fee row inserted, request posted, movement and record
appended. -/
theorem HandleTransferEvent_applies (env : FeeEnv) (st : State) (event : TransferEvent)
    (origin : Account) (hworks : env.allWork)
    (hcons : AccountsConsistent st) (horigin : origin ∈ st.accounts)
    (hoid : event.OriginAccountID = origin.ID) (hactive : origin.Active = true)
    (hfresh : CheckIdempotency st (event.RequestID ++ "-fee") = none)
    (hpos : 0 < feeService.getTransferFeeAmount env)
    (hbal : feeService.getTransferFeeAmount env ≤ GetBalance st.movements origin.ID) :
    feeService.HandleTransferEvent env st event =
      (applied
        (insertFee st (NewFee env.newID event.OriginAccountID
          (feeService.getTransferFeeAmount env)))
        env.debit.movement.newID origin
        (feeRequest (strconvItoa origin.Number) (feeService.getTransferFeeAmount env)
          event.RequestID), none) := by
  obtain ⟨hcreate, hquery, hmarshal, hcall⟩ := hworks
  rw [HandleTransferEvent_call env st event hcreate hquery hmarshal, hoid,
    getAccountNumberByID_of_mem st hcons origin horigin]
  have h := callAccountMovementAPI_applies env.debit
    (insertFee st (NewFee env.newID origin.ID (feeService.getTransferFeeAmount env)))
    (feeRequest (strconvItoa origin.Number) (feeService.getTransferFeeAmount env)
      event.RequestID) origin hcall (Or.inr rfl) hpos (append_ne_empty _ _ (by decide))
    hfresh
    (GetByNumber_of_mem
      (insertFee st (NewFee env.newID origin.ID (feeService.getTransferFeeAmount env)))
      hcons origin horigin) hactive (fun _ => hbal)
  rw [h]
  rfl

theorem sampleFee_amount : feeService.getTransferFeeAmount (FeeEnv.ok "f1") = 2 := by
  simp [feeService.getTransferFeeAmount, FeeEnv.ok]

/-- C18: when the insert of the Fee row, the query of the account number and the encoding
of the request work, `HandleTransferEvent` inserts exactly one Fee record, for the event's
origin account and of the configured flat fee, and posts exactly one request: a debit of
that fee amount under the key requestId + "-fee"; the whole outcome is the same whatever the
event's transfer amount.  The configured flat fee is the value `TRANSFER_FEE_AMOUNT` parses
to, and 2.00 when the variable is empty or does not parse: in each of the three cases the
Fee row and the request carry that value.  On a first delivery (key not yet recorded) with
the debit call working, the origin present and active, and its balance at least the positive
fee, the handler returns no error, the request carries the origin's account number, and
exactly one debit movement of the fee is appended. -/
theorem HandleTransferEvent_charges_fee (env : FeeEnv) (st : State) (event : TransferEvent)
    (hcreate : env.createFails = false) (hquery : env.numberQueryFails = false)
    (hmarshal : env.marshalFails = false) :
    (feeService.HandleTransferEvent env st event).1.fees =
      st.fees ++ [NewFee env.newID event.OriginAccountID
        (feeService.getTransferFeeAmount env)] ∧
    (NewFee env.newID event.OriginAccountID (feeService.getTransferFeeAmount env)).AccountID
      = event.OriginAccountID ∧
    (NewFee env.newID event.OriginAccountID (feeService.getTransferFeeAmount env)).Amount
      = feeService.getTransferFeeAmount env ∧
    (feeService.HandleTransferEvent env st event).1.sent =
      st.sent ++ [feeRequest (getAccountNumberByID st event.OriginAccountID)
        (feeService.getTransferFeeAmount env) event.RequestID] ∧
    (feeRequest (getAccountNumberByID st event.OriginAccountID)
      (feeService.getTransferFeeAmount env) event.RequestID).RequestID =
      event.RequestID ++ "-fee" ∧
    (feeRequest (getAccountNumberByID st event.OriginAccountID)
      (feeService.getTransferFeeAmount env) event.RequestID).Kind = "D" ∧
    (feeRequest (getAccountNumberByID st event.OriginAccountID)
      (feeService.getTransferFeeAmount env) event.RequestID).Amount =
      feeService.getTransferFeeAmount env ∧
    (∀ amount, feeService.HandleTransferEvent env st (event.withAmount amount) =
      feeService.HandleTransferEvent env st event) ∧
    (env.feeAmountStr = "" →
      (feeService.HandleTransferEvent env st event).1.fees =
        st.fees ++ [NewFee env.newID event.OriginAccountID 2] ∧
      (feeService.HandleTransferEvent env st event).1.sent =
        st.sent ++ [feeRequest (getAccountNumberByID st event.OriginAccountID) 2
          event.RequestID]) ∧
    (env.feeAmountStr ≠ "" → env.parseFloat env.feeAmountStr = none →
      (feeService.HandleTransferEvent env st event).1.fees =
        st.fees ++ [NewFee env.newID event.OriginAccountID 2] ∧
      (feeService.HandleTransferEvent env st event).1.sent =
        st.sent ++ [feeRequest (getAccountNumberByID st event.OriginAccountID) 2
          event.RequestID]) ∧
    (∀ configured : ℚ, env.feeAmountStr ≠ "" →
      env.parseFloat env.feeAmountStr = some configured →
      (feeService.HandleTransferEvent env st event).1.fees =
        st.fees ++ [NewFee env.newID event.OriginAccountID configured] ∧
      (feeService.HandleTransferEvent env st event).1.sent =
        st.sent ++ [feeRequest (getAccountNumberByID st event.OriginAccountID) configured
          event.RequestID]) ∧
    (∀ origin : Account, env.debit.works → AccountsConsistent st → origin ∈ st.accounts →
      event.OriginAccountID = origin.ID → origin.Active = true →
      CheckIdempotency st (event.RequestID ++ "-fee") = none →
      0 < feeService.getTransferFeeAmount env →
      feeService.getTransferFeeAmount env ≤ GetBalance st.movements origin.ID →
      (feeService.HandleTransferEvent env st event).2 = none ∧
      getAccountNumberByID st event.OriginAccountID = strconvItoa origin.Number ∧
      (feeService.HandleTransferEvent env st event).1.movements =
        st.movements ++ [NewMovement env.debit.movement.newID origin.ID "D"
          (feeService.getTransferFeeAmount env) (some (event.RequestID ++ "-fee"))]) := by
  have hfees : (feeService.HandleTransferEvent env st event).1.fees =
      st.fees ++ [NewFee env.newID event.OriginAccountID
        (feeService.getTransferFeeAmount env)] := by
    rw [HandleTransferEvent_call env st event hcreate hquery hmarshal]
    show (callAccountMovementAPI _ _ _).1.fees = _
    rw [callAccountMovementAPI_fees]
    rfl
  have hsent : (feeService.HandleTransferEvent env st event).1.sent =
      st.sent ++ [feeRequest (getAccountNumberByID st event.OriginAccountID)
        (feeService.getTransferFeeAmount env) event.RequestID] := by
    rw [HandleTransferEvent_call env st event hcreate hquery hmarshal]
    show (callAccountMovementAPI _ _ _).1.sent = _
    rw [callAccountMovementAPI_sent]
    rfl
  refine ⟨hfees, rfl, rfl, hsent, rfl, rfl, rfl, fun _ => rfl, ?_, ?_, ?_, ?_⟩
  · intro h
    have hfee : feeService.getTransferFeeAmount env = 2 := by
      simp [feeService.getTransferFeeAmount, h]
    rw [hfees, hsent, hfee]
    exact ⟨rfl, rfl⟩
  · intro h hparse
    have hfee : feeService.getTransferFeeAmount env = 2 := by
      simp [feeService.getTransferFeeAmount, h, hparse]
    rw [hfees, hsent, hfee]
    exact ⟨rfl, rfl⟩
  · intro configured h hparse
    have hfee : feeService.getTransferFeeAmount env = configured := by
      simp [feeService.getTransferFeeAmount, h, hparse]
    rw [hfees, hsent, hfee]
    exact ⟨rfl, rfl⟩
  · intro origin hcall hcons horigin hoid hactive hfresh hpos hbal
    have h := HandleTransferEvent_applies env st event origin
      ⟨hcreate, hquery, hmarshal, hcall⟩ hcons horigin hoid hactive hfresh hpos hbal
    rw [h]
    refine ⟨rfl, ?_, rfl⟩
    rw [hoid]
    exact getAccountNumberByID_of_mem st hcons origin horigin

/-- Witness of C18: the sample event (transfer of 100.00) handled on the sample bank with
the fee variable set to "3.50": one Fee record of 3.50 for `acc-1`, one request
`req-1-fee` of 3.50 on 100001, one debit movement of 3.50. -/
theorem HandleTransferEvent_charges_fee_witness :
    (feeService.HandleTransferEvent sampleFeeConfigured sampleBank sampleEvent).2 = none ∧
    (feeService.HandleTransferEvent sampleFeeConfigured sampleBank sampleEvent).1.fees =
      [NewFee "f1" "acc-1" (7 / 2)] ∧
    (feeService.HandleTransferEvent sampleFeeConfigured sampleBank sampleEvent).1.sent =
      [{ RequestID := "req-1-fee", AccountNumber := "100001", Amount := 7 / 2,
         Kind := "D" }] ∧
    (feeService.HandleTransferEvent sampleFeeConfigured sampleBank sampleEvent).1.movements =
      sampleBank.movements ++
        [NewMovement "f1-m" "acc-1" "D" (7 / 2) (some "req-1-fee")] := by
  have hfee : feeService.getTransferFeeAmount sampleFeeConfigured = 7 / 2 := by
    simp [feeService.getTransferFeeAmount, sampleFeeConfigured, FeeEnv.ok]
  obtain ⟨_, _, _, _, _, _, _, _, _, _, hconf, happ⟩ :=
    HandleTransferEvent_charges_fee sampleFeeConfigured sampleBank sampleEvent rfl rfl rfl
  obtain ⟨hfees, hsent⟩ := hconf (7 / 2) (by decide) (by
    simp [sampleFeeConfigured, FeeEnv.ok])
  obtain ⟨h1, hnum, h3⟩ := happ sampleOrigin (by decide) sampleBank_consistent
    (by decide) rfl rfl (by decide) (by rw [hfee]; norm_num)
    (by
      rw [hfee]
      show (7 / 2 : ℚ) ≤ GetBalance sampleBank.movements "acc-1"
      rw [sampleBank_balance_origin]; norm_num)
  refine ⟨h1, ?_, ?_, ?_⟩
  · rw [hfees]
    rfl
  · rw [hsent, hnum]
    rfl
  · rw [h3, hfee]
    rfl

/-- One delivery either leaves the ledger and the idempotency table as they were, or finds
the key requestId + "-fee" not yet recorded and appends the one debit movement that
carries it (and records the key when the save works). -/
theorem HandleTransferEvent_step (env : FeeEnv) (st : State) (event : TransferEvent) :
    ((feeService.HandleTransferEvent env st event).1.movements = st.movements ∧
      (feeService.HandleTransferEvent env st event).1.idempotency = st.idempotency) ∨
    (CheckIdempotency st (event.RequestID ++ "-fee") = none ∧
      ∃ account : Account,
        (feeService.HandleTransferEvent env st event).1.movements =
          st.movements ++ [NewMovement env.debit.movement.newID account.ID "D"
            (feeService.getTransferFeeAmount env) (some (event.RequestID ++ "-fee"))] ∧
        (env.debit.movement.saveIdempotencyFails = false →
          (CheckIdempotency (feeService.HandleTransferEvent env st event).1
            (event.RequestID ++ "-fee")).isSome = true)) := by
  by_cases hcreate : env.createFails = true
  · rw [HandleTransferEvent_create_fails env st event hcreate]
    exact Or.inl ⟨rfl, rfl⟩
  have hcreate : env.createFails = false := by simpa using hcreate
  by_cases hquery : env.numberQueryFails = true
  · rw [HandleTransferEvent_query_fails env st event hcreate hquery]
    exact Or.inl ⟨rfl, rfl⟩
  have hquery : env.numberQueryFails = false := by simpa using hquery
  by_cases hmarshal : env.marshalFails = true
  · rw [HandleTransferEvent_marshal_fails env st event hcreate hquery hmarshal]
    exact Or.inl ⟨rfl, rfl⟩
  have hmarshal : env.marshalFails = false := by simpa using hmarshal
  rw [HandleTransferEvent_call env st event hcreate hquery hmarshal]
  rcases callAccountMovementAPI_state env.debit
    (insertFee st (NewFee env.newID event.OriginAccountID
      (feeService.getTransferFeeAmount env)))
    (feeRequest (getAccountNumberByID st event.OriginAccountID)
      (feeService.getTransferFeeAmount env) event.RequestID) with h | h
  · left
    show (callAccountMovementAPI _ _ _).1.movements = _ ∧
      (callAccountMovementAPI _ _ _).1.idempotency = _
    rw [h]
    exact ⟨rfl, rfl⟩
  · rcases CreateMovement_cases env.debit.movement
      { insertFee st (NewFee env.newID event.OriginAccountID
          (feeService.getTransferFeeAmount env)) with
        sent := (insertFee st (NewFee env.newID event.OriginAccountID
          (feeService.getTransferFeeAmount env))).sent ++
          [feeRequest (getAccountNumberByID st event.OriginAccountID)
            (feeService.getTransferFeeAmount env) event.RequestID] }
      (feeRequest (getAccountNumberByID st event.OriginAccountID)
        (feeService.getTransferFeeAmount env) event.RequestID)
      with h1 | ⟨account, _, _, hfresh, _, _, _, heq⟩
    · left
      show (callAccountMovementAPI _ _ _).1.movements = _ ∧
        (callAccountMovementAPI _ _ _).1.idempotency = _
      rw [h, h1]
      exact ⟨rfl, rfl⟩
    · right
      refine ⟨hfresh, account, ?_, ?_⟩
      · show (callAccountMovementAPI _ _ _).1.movements = _
        rw [h, heq, appended_movements]
        rfl
      · intro hsave
        show (CheckIdempotency (callAccountMovementAPI _ _ _).1 _).isSome = true
        rw [h, heq]
        exact appended_recorded env.debit.movement _ _ account hsave

/-- Once the key requestId + "-fee" is recorded, a delivery appends no movement and keeps
the key recorded, whatever fails or works in it. -/
theorem HandleTransferEvent_recorded (env : FeeEnv) (st : State) (event : TransferEvent)
    (hdup : (CheckIdempotency st (event.RequestID ++ "-fee")).isSome = true) :
    (feeService.HandleTransferEvent env st event).1.movements = st.movements ∧
    (CheckIdempotency (feeService.HandleTransferEvent env st event).1
      (event.RequestID ++ "-fee")).isSome = true := by
  rcases HandleTransferEvent_step env st event with ⟨hm, hi⟩ | ⟨hfresh, _⟩
  · refine ⟨hm, ?_⟩
    have : CheckIdempotency (feeService.HandleTransferEvent env st event).1
        (event.RequestID ++ "-fee") = CheckIdempotency st (event.RequestID ++ "-fee") := by
      simp only [CheckIdempotency, hi]
    rw [this]
    exact hdup
  · rw [hfresh] at hdup
    simp at hdup

theorem runDeliveries_recorded (event : TransferEvent) (envs : List FeeEnv) :
    ∀ st : State, (CheckIdempotency st (event.RequestID ++ "-fee")).isSome = true →
      (runDeliveries st event envs).movements = st.movements := by
  induction envs with
  | nil => intro st _; rfl
  | cons env rest ih =>
    intro st hdup
    obtain ⟨hm, hrec⟩ := HandleTransferEvent_recorded env st event hdup
    show (runDeliveries (feeService.HandleTransferEvent env st event).1 event rest).movements
      = _
    rw [ih _ hrec, hm]

theorem HandleTransferEvent_keeps_once (env : FeeEnv) (st : State) (event : TransferEvent)
    (hsave : env.debit.movement.saveIdempotencyFails = false)
    (hinv : FeeKeyOnce st (event.RequestID ++ "-fee")) :
    FeeKeyOnce (feeService.HandleTransferEvent env st event).1 (event.RequestID ++ "-fee") := by
  rcases HandleTransferEvent_step env st event with ⟨hm, hi⟩ | ⟨hfresh, account, hm, hrec⟩
  · have h1 : movementsWithKey (feeService.HandleTransferEvent env st event).1
        (event.RequestID ++ "-fee") = movementsWithKey st (event.RequestID ++ "-fee") := by
      simp only [movementsWithKey, hm]
    have h2 : CheckIdempotency (feeService.HandleTransferEvent env st event).1
        (event.RequestID ++ "-fee") = CheckIdempotency st (event.RequestID ++ "-fee") := by
      simp only [CheckIdempotency, hi]
    unfold FeeKeyOnce
    rw [h1, h2]
    exact hinv
  · have hnone : movementsWithKey st (event.RequestID ++ "-fee") = [] := by
      rcases hinv with h | ⟨_, h⟩
      · exact h
      · rw [hfresh] at h
        simp at h
    right
    refine ⟨?_, hrec hsave⟩
    have hnone1 : st.movements.filter
        (fun m => m.IdempotencyKey == some (event.RequestID ++ "-fee")) = [] := hnone
    simp only [movementsWithKey, hm, List.filter_append, hnone1]
    simp [NewMovement]

/-- However many deliveries, whatever fails in them short of the save of the idempotency
record: the fee key is carried by at most one movement. -/
theorem runDeliveries_keeps_once (event : TransferEvent) (envs : List FeeEnv) :
    ∀ st : State, (∀ e ∈ envs, e.debit.movement.saveIdempotencyFails = false) →
      FeeKeyOnce st (event.RequestID ++ "-fee") →
      FeeKeyOnce (runDeliveries st event envs) (event.RequestID ++ "-fee") := by
  induction envs with
  | nil => intro st _ h; exact h
  | cons env rest ih =>
    intro st hsave hinv
    exact ih _ (fun e he => hsave e (List.mem_cons_of_mem _ he))
      (HandleTransferEvent_keeps_once env st event (hsave env (List.mem_cons_self _ _)) hinv)

/-- C19: a delivery of an event whose key requestId + "-fee" is already recorded by the
Movement Processor appends no movement, whatever works or fails in it; so after a first
delivery that applies the fee debit (store and debit call working, origin present, active
and covering the positive fee, key not yet recorded) and any number of further deliveries
of the same event, the ledger holds the movements it had plus that one debit and the
origin's balance is lower by the fee exactly once.  And for any deliveries at all in which
the save of the idempotency record works, starting with no movement under the key, at
most one movement carries the key. -/
theorem runDeliveries_debits_fee_once (st : State) (event : TransferEvent) :
    (∀ env : FeeEnv, (CheckIdempotency st (event.RequestID ++ "-fee")).isSome = true →
      (feeService.HandleTransferEvent env st event).1.movements = st.movements) ∧
    (∀ (first : FeeEnv) (rest : List FeeEnv) (origin : Account), first.allWork →
      AccountsConsistent st → origin ∈ st.accounts → event.OriginAccountID = origin.ID →
      origin.Active = true → CheckIdempotency st (event.RequestID ++ "-fee") = none →
      0 < feeService.getTransferFeeAmount first →
      feeService.getTransferFeeAmount first ≤ GetBalance st.movements origin.ID →
      (CheckIdempotency (feeService.HandleTransferEvent first st event).1
        (event.RequestID ++ "-fee")).isSome = true ∧
      (runDeliveries st event (first :: rest)).movements =
        st.movements ++ [NewMovement first.debit.movement.newID origin.ID "D"
          (feeService.getTransferFeeAmount first) (some (event.RequestID ++ "-fee"))] ∧
      GetBalance (runDeliveries st event (first :: rest)).movements origin.ID =
        GetBalance st.movements origin.ID - feeService.getTransferFeeAmount first) ∧
    (∀ envs : List FeeEnv, (∀ e ∈ envs, e.debit.movement.saveIdempotencyFails = false) →
      movementsWithKey st (event.RequestID ++ "-fee") = [] →
      (movementsWithKey (runDeliveries st event envs) (event.RequestID ++ "-fee")).length
        ≤ 1) := by
  refine ⟨fun env hdup => (HandleTransferEvent_recorded env st event hdup).1, ?_, ?_⟩
  · intro first rest origin hworks hcons horigin hoid hactive hfresh hpos hbal
    have h := HandleTransferEvent_applies first st event origin hworks hcons horigin hoid
      hactive hfresh hpos hbal
    have hrec : (CheckIdempotency (feeService.HandleTransferEvent first st event).1
        (event.RequestID ++ "-fee")).isSome = true := by
      rw [h]
      simp [CheckIdempotency, applied, insertFee, List.find?_isSome, successRecord,
        feeRequest]
    have hmov : (runDeliveries st event (first :: rest)).movements =
        st.movements ++ [NewMovement first.debit.movement.newID origin.ID "D"
          (feeService.getTransferFeeAmount first) (some (event.RequestID ++ "-fee"))] := by
      show (runDeliveries (feeService.HandleTransferEvent first st event).1 event
        rest).movements = _
      rw [runDeliveries_recorded event rest _ hrec, h]
      rfl
    refine ⟨hrec, hmov, ?_⟩
    rw [hmov, GetBalance_append, GetBalance_singleton]
    simp [NewMovement, signedAmount]
    ring
  · intro envs hsave hnone
    rcases runDeliveries_keeps_once event envs st hsave (Or.inl hnone) with h | ⟨h, _⟩
    · rw [h]
      simp
    · rw [h]

/-- Witness of C19: the sample event delivered three times on the sample bank (the third
time with the debit call down): one debit movement of 2.00 under `req-1-fee`, the origin
at 498.00; and delivered twice, at most one movement under the key. -/
theorem runDeliveries_debits_fee_once_witness :
    (runDeliveries sampleBank sampleEvent
      [FeeEnv.ok "f1", FeeEnv.ok "f2", sampleFeeDebitDown]).movements =
      sampleBank.movements ++ [NewMovement "f1-m" "acc-1" "D" 2 (some "req-1-fee")] ∧
    GetBalance (runDeliveries sampleBank sampleEvent
      [FeeEnv.ok "f1", FeeEnv.ok "f2", sampleFeeDebitDown]).movements "acc-1" = 498 ∧
    (movementsWithKey (runDeliveries sampleBank sampleEvent [FeeEnv.ok "f1", FeeEnv.ok "f2"])
      "req-1-fee").length ≤ 1 := by
  obtain ⟨_, hfirst, hmost⟩ := runDeliveries_debits_fee_once sampleBank sampleEvent
  obtain ⟨_, hmov, hbal⟩ := hfirst (FeeEnv.ok "f1") [FeeEnv.ok "f2", sampleFeeDebitDown]
    sampleOrigin (by decide) sampleBank_consistent (by decide) rfl rfl (by decide)
    (by rw [sampleFee_amount]; norm_num)
    (by
      rw [sampleFee_amount]
      show (2 : ℚ) ≤ GetBalance sampleBank.movements "acc-1"
      rw [sampleBank_balance_origin]; norm_num)
  refine ⟨?_, ?_, hmost [FeeEnv.ok "f1", FeeEnv.ok "f2"] (by decide) (by decide)⟩
  · rw [hmov, sampleFee_amount]
    rfl
  · have hbal1 : GetBalance (runDeliveries sampleBank sampleEvent
        [FeeEnv.ok "f1", FeeEnv.ok "f2", sampleFeeDebitDown]).movements "acc-1" =
        GetBalance sampleBank.movements "acc-1" -
          feeService.getTransferFeeAmount (FeeEnv.ok "f1") := hbal
    rw [hbal1, sampleBank_balance_origin, sampleFee_amount]
    norm_num

theorem debitFeeFromAccount_fees (env : FeeEnv) (st : State) (accountID : String)
    (amount : ℚ) (requestID : String) :
    (feeService.debitFeeFromAccount env st accountID amount requestID).1.fees = st.fees := by
  unfold feeService.debitFeeFromAccount
  cases feeService.getAccountNumberByID env.numberQueryFails st accountID with
  | none => rfl
  | some n =>
    show (if env.marshalFails = true then (st, false)
      else callAccountMovementAPI env.debit st (feeRequest n amount requestID)).1.fees = _
    split
    · rfl
    · exact callAccountMovementAPI_fees _ _ _

/-- C20: if the fee debit call fails, `HandleTransferEvent` returns the error "erro ao
debitar tarifa da conta" and the Fee record it inserted is still the last row of the fee
table; if creating the Fee record fails, it returns the error "erro ao criar tarifa" and
leaves the store as it was: no Fee row and no request posted. -/
theorem HandleTransferEvent_failures (env : FeeEnv) (st : State) (event : TransferEvent) :
    (env.createFails = false →
      (feeService.debitFeeFromAccount env
        (insertFee st (NewFee env.newID event.OriginAccountID
          (feeService.getTransferFeeAmount env)))
        event.OriginAccountID (feeService.getTransferFeeAmount env) event.RequestID).2 =
        false →
      (feeService.HandleTransferEvent env st event).2 =
        some "erro ao debitar tarifa da conta" ∧
      (feeService.HandleTransferEvent env st event).1.fees =
        st.fees ++ [NewFee env.newID event.OriginAccountID
          (feeService.getTransferFeeAmount env)]) ∧
    (env.createFails = true →
      (feeService.HandleTransferEvent env st event).2 = some "erro ao criar tarifa" ∧
      (feeService.HandleTransferEvent env st event).1 = st ∧
      (feeService.HandleTransferEvent env st event).1.sent = st.sent ∧
      (feeService.HandleTransferEvent env st event).1.fees = st.fees) := by
  constructor
  · intro hcreate hdebit
    have h : feeService.HandleTransferEvent env st event =
        ((feeService.debitFeeFromAccount env
          (insertFee st (NewFee env.newID event.OriginAccountID
            (feeService.getTransferFeeAmount env)))
          event.OriginAccountID (feeService.getTransferFeeAmount env) event.RequestID).1,
          some "erro ao debitar tarifa da conta") := by
      unfold feeService.HandleTransferEvent
      simp only [hcreate, Bool.false_eq_true, if_false, hdebit, if_true]
    rw [h]
    refine ⟨rfl, ?_⟩
    show (feeService.debitFeeFromAccount _ _ _ _ _).1.fees = _
    rw [debitFeeFromAccount_fees]
    rfl
  · intro hcreate
    rw [HandleTransferEvent_create_fails env st event hcreate]
    exact ⟨rfl, rfl, rfl, rfl⟩

/-- Witness of C20: the sample event on the sample bank, once with the debit call never
delivered (error, the Fee row of 2.00 kept, no movement), once with the insert failing
(error, nothing posted, no Fee row). -/
theorem HandleTransferEvent_failures_witness :
    ((feeService.HandleTransferEvent sampleFeeDebitDown sampleBank sampleEvent).2 =
        some "erro ao debitar tarifa da conta" ∧
      (feeService.HandleTransferEvent sampleFeeDebitDown sampleBank sampleEvent).1.fees =
        [NewFee "f1" "acc-1" 2]) ∧
    ((feeService.HandleTransferEvent sampleFeeCreateDown sampleBank sampleEvent).2 =
        some "erro ao criar tarifa" ∧
      (feeService.HandleTransferEvent sampleFeeCreateDown sampleBank sampleEvent).1.sent =
        [] ∧
      (feeService.HandleTransferEvent sampleFeeCreateDown sampleBank sampleEvent).1.fees =
        []) := by
  have hamount : feeService.getTransferFeeAmount sampleFeeDebitDown = 2 := by
    simp [feeService.getTransferFeeAmount, sampleFeeDebitDown, FeeEnv.ok]
  obtain ⟨h1, h2⟩ := (HandleTransferEvent_failures sampleFeeDebitDown sampleBank
    sampleEvent).1 rfl
    (by
      unfold feeService.debitFeeFromAccount feeService.getAccountNumberByID
      simp only [show sampleFeeDebitDown.numberQueryFails = false from rfl,
        show sampleFeeDebitDown.marshalFails = false from rfl,
        Bool.false_eq_true, if_false]
      rw [callAccountMovementAPI_undelivered _ _ _ rfl])
  obtain ⟨h3, _, h5, h6⟩ := (HandleTransferEvent_failures sampleFeeCreateDown sampleBank
    sampleEvent).2 rfl
  refine ⟨⟨h1, ?_⟩, h3, h5, h6⟩
  rw [h2, hamount]
  rfl

/-! ## Fee amount, valid and rejected movements, the published event -/

/-- C21: the fee amount is 2.00 whenever the variable `TRANSFER_FEE_AMOUNT` is unset or
empty (`os.Getenv` gives the empty text) and whenever its text does not parse as a number;
otherwise it is exactly the parsed value of the configured text. -/
theorem getTransferFeeAmount_default (env : FeeEnv) :
    (env.feeAmountStr = "" → feeService.getTransferFeeAmount env = 2) ∧
    (env.parseFloat env.feeAmountStr = none → feeService.getTransferFeeAmount env = 2) ∧
    (∀ feeAmount, env.feeAmountStr ≠ "" → env.parseFloat env.feeAmountStr = some feeAmount →
      feeService.getTransferFeeAmount env = feeAmount) := by
  refine ⟨?_, ?_, ?_⟩
  · intro h
    simp [feeService.getTransferFeeAmount, h]
  · intro h
    unfold feeService.getTransferFeeAmount
    rw [h]
    split_ifs <;> rfl
  · intro feeAmount hne h
    unfold feeService.getTransferFeeAmount
    rw [if_neg hne, h]

/-- Witness of C21: unset gives 2.00, "abc" gives 2.00, "3.50" gives 3.50. -/
theorem getTransferFeeAmount_default_witness :
    feeService.getTransferFeeAmount (FeeEnv.ok "f1") = 2 ∧
    feeService.getTransferFeeAmount sampleFeeUnparsable = 2 ∧
    feeService.getTransferFeeAmount sampleFeeConfigured = 7 / 2 :=
  ⟨(getTransferFeeAmount_default (FeeEnv.ok "f1")).1 rfl,
    (getTransferFeeAmount_default sampleFeeUnparsable).2.1 (by decide),
    (getTransferFeeAmount_default sampleFeeConfigured).2.2 (7 / 2) (by decide)
      (by simp [sampleFeeConfigured])⟩


/-- C23: for every movement request with a fresh requestId, a valid type (credit or debit
alike) and a positive amount, `CreateMovement`, its two lookups working, fails with
"conta não encontrada" when no account has the given number and with "conta inativa" when
the account is deactivated, and in both cases returns the store as it was: no movement is
appended and no idempotency result is recorded. -/
theorem CreateMovement_account_errors (env : MovementEnv) (st : State)
    (request : MovementRequest) (hcheck : env.checkIdempotencyFails = false)
    (hget : env.getByNumberFails = false)
    (hkind : request.Kind = "C" ∨ request.Kind = "D") (hpos : 0 < request.Amount)
    (hfresh : CheckIdempotency st request.RequestID = none) :
    (GetByNumber st request.AccountNumber = none →
      CreateMovement env st request = (st, some MovementError.accountNotFound)) ∧
    (∀ account, GetByNumber st request.AccountNumber = some account →
      account.Active = false →
      CreateMovement env st request = (st, some MovementError.inactiveAccount)) ∧
    MovementError.accountNotFound.message = "conta não encontrada" ∧
    MovementError.inactiveAccount.message = "conta inativa" ∧
    (∀ a : Account, a.Deactivate.Active = false) := by
  have h1 : ¬ (request.Kind ≠ MovementTypeCredit ∧ request.Kind ≠ MovementTypeDebit) := by
    simp only [MovementTypeCredit, MovementTypeDebit]
    rcases hkind with h | h <;> simp [h]
  have h2 : ¬ request.Amount ≤ 0 := not_le.mpr hpos
  refine ⟨?_, ?_, rfl, rfl, fun _ => rfl⟩
  · intro hnone
    unfold CreateMovement
    simp [h1, h2, hcheck, hfresh, hget, hnone]
  · intro account hacc hinactive
    unfold CreateMovement
    simp [h1, h2, hcheck, hfresh, hget, hacc, hinactive]

/-- Witness of C23: a credit to the unknown number 999999 and a credit to the deactivated
account 100001 are both refused and leave the store as it was. -/
theorem CreateMovement_account_errors_witness :
    CreateMovement (MovementEnv.ok "mov-9") sampleBank sampleCreditUnknown =
      (sampleBank, some MovementError.accountNotFound) ∧
    CreateMovement (MovementEnv.ok "mov-9") sampleBankClosedOrigin sampleCredit =
      (sampleBankClosedOrigin, some MovementError.inactiveAccount) :=
  ⟨(CreateMovement_account_errors (MovementEnv.ok "mov-9") sampleBank sampleCreditUnknown
      rfl rfl (Or.inl rfl) (by norm_num [sampleCreditUnknown]) (by decide)).1 (by decide),
    (CreateMovement_account_errors (MovementEnv.ok "mov-9") sampleBankClosedOrigin
      sampleCredit rfl rfl (Or.inl rfl) (by norm_num [sampleCredit]) (by decide)).2.1
      sampleClosedOrigin (by decide) rfl⟩

theorem ConsumeClaim_run {σ : Type} (unmarshal : String → Option TransferEvent)
    (handler : σ → TransferEvent → σ × Option String)
    (received : List (Option ConsumerMessage)) :
    ∀ (store : σ) (session : ConsumerSession),
      (ConsumeClaim unmarshal handler store session received).2.marked =
        session.marked ++ deliveredMessages received ∧
      (ConsumeClaim unmarshal handler store session received).2.handled =
        session.handled ++
          (deliveredMessages received).filterMap (fun m => unmarshal m.Value) ∧
      (ConsumeClaim unmarshal handler store session received).1 =
        handleAll handler store
          ((deliveredMessages received).filterMap (fun m => unmarshal m.Value)) := by
  induction received with
  | nil => intro store session; simp [ConsumeClaim, deliveredMessages, handleAll]
  | cons x rest ih =>
    intro store session
    cases x with
    | none => simp [ConsumeClaim, deliveredMessages, handleAll]
    | some message =>
      cases hu : unmarshal message.Value with
      | none =>
        obtain ⟨h1, h2, h3⟩ := ih store { session with marked := session.marked ++ [message] }
        simp only [ConsumeClaim, hu, deliveredMessages, List.filterMap_cons]
        exact ⟨by rw [h1]; simp, h2, h3⟩
      | some event =>
        obtain ⟨h1, h2, h3⟩ := ih (handler store event).1
          { marked := session.marked ++ [message], handled := session.handled ++ [event] }
        simp only [ConsumeClaim, hu, deliveredMessages, List.filterMap_cons, handleAll]
        exact ⟨by rw [h1]; simp, by rw [h2]; simp, h3⟩

/-- C29: for every sequence of delivered messages, `ConsumeClaim` marks exactly the
delivered messages, each once and in delivery order, whether the payload failed to decode,
the handler returned an error or the handler succeeded; the handler is called exactly on
the decodable payloads, once for each, in delivery order, and never for an undecodable
payload, so a message is marked as often as it was delivered and its event handled at most
that often: an event whose handling failed is not handled again. -/
theorem ConsumeClaim_marks_every_message {σ : Type}
    (unmarshal : String → Option TransferEvent)
    (handler : σ → TransferEvent → σ × Option String) (store : σ)
    (received : List (Option ConsumerMessage)) :
    (ConsumeClaim unmarshal handler store { marked := [], handled := [] } received).2.marked =
      deliveredMessages received ∧
    (∀ message, ((ConsumeClaim unmarshal handler store { marked := [], handled := [] }
      received).2.marked).count message = (deliveredMessages received).count message) ∧
    (ConsumeClaim unmarshal handler store { marked := [], handled := [] } received).2.handled =
      (deliveredMessages received).filterMap (fun m => unmarshal m.Value) ∧
    ((ConsumeClaim unmarshal handler store { marked := [], handled := [] }
      received).2.handled).length ≤ (deliveredMessages received).length ∧
    (ConsumeClaim unmarshal handler store { marked := [], handled := [] } received).1 =
      handleAll handler store
        ((deliveredMessages received).filterMap (fun m => unmarshal m.Value)) := by
  obtain ⟨h1, h2, h3⟩ := ConsumeClaim_run unmarshal handler received store
    { marked := [], handled := [] }
  have h1' : (ConsumeClaim unmarshal handler store { marked := [], handled := [] }
      received).2.marked = deliveredMessages received := by
    rw [h1]; rfl
  have h2' : (ConsumeClaim unmarshal handler store { marked := [], handled := [] }
      received).2.handled =
      (deliveredMessages received).filterMap (fun m => unmarshal m.Value) := by
    rw [h2]; rfl
  refine ⟨h1', fun message => by rw [h1'], h2', ?_, h3⟩
  rw [h2']
  exact List.length_filterMap_le _ _

/-! ## CPF validation -/

theorem CleanCPF_data (s : String) : (CleanCPF s).data = cpfCharacters s := by
  simp only [CleanCPF, stringsRemoveAll, cpfCharacters, List.filter_filter]
  apply List.filter_congr
  intro c _
  by_cases h1 : c = '.' <;> by_cases h2 : c = '-' <;> by_cases h3 : c = ' ' <;>
    simp [h1, h2, h3]

theorem isDigit_cases (c : Char) (h : c.isDigit = true) :
    c = '0' ∨ c = '1' ∨ c = '2' ∨ c = '3' ∨ c = '4' ∨ c = '5' ∨ c = '6' ∨ c = '7' ∨
      c = '8' ∨ c = '9' := by
  have hc : Char.ofNat c.toNat = c := Char.ofNat_toNat c
  simp only [Char.isDigit, Bool.and_eq_true, decide_eq_true_eq] at h
  have h1 : 48 ≤ c.toNat := h.1
  have h2 : c.toNat ≤ 57 := h.2
  generalize c.toNat = n at hc h1 h2
  subst hc
  interval_cases n <;> decide

theorem isDigit_utf8Size (c : Char) (h : c.isDigit = true) : c.utf8Size = 1 := by
  rcases isDigit_cases c h with h | h | h | h | h | h | h | h | h | h <;> subst h <;> rfl

theorem atoiChar_of_isDigit (c : Char) (h : c.isDigit = true) :
    atoiChar c = some (c.toNat - 48) := by
  simp [atoiChar, h]

theorem atoiChar_of_not_isDigit (c : Char) (h : ¬ c.isDigit = true) : atoiChar c = none := by
  simp [atoiChar, h]

theorem utf8Size_pos (c : Char) : 1 ≤ c.utf8Size := by
  unfold Char.utf8Size
  simp only []
  split_ifs <;> omega

/-- The loop over the characters returns false at the first character that is not a digit,
and writes within the slice on the way there, when the text fits the slice. -/
theorem fillDigits_not_digit (l : List Char) :
    ∀ (i : Nat) (digits : List Nat), (∃ c ∈ l, ¬ c.isDigit = true) →
      i + (l.map Char.utf8Size).sum ≤ digits.length →
      fillDigits l i digits = some none := by
  induction l with
  | nil => intro i digits h; obtain ⟨c, hc, _⟩ := h; simp at hc
  | cons c rest ih =>
    intro i digits hex hlen
    by_cases hd : c.isDigit = true
    · have hrest : ∃ x ∈ rest, ¬ x.isDigit = true := by
        obtain ⟨x, hx, hnx⟩ := hex
        rcases List.mem_cons.mp hx with h | h
        · subst h; exact absurd hd hnx
        · exact ⟨x, h, hnx⟩
      simp only [List.map_cons, List.sum_cons] at hlen
      have hpos := utf8Size_pos c
      have hi : i < digits.length := by omega
      simp only [fillDigits, atoiChar_of_isDigit c hd, hi, if_true]
      apply ih
      · exact hrest
      · rw [List.length_set]; omega
    · simp only [fillDigits, atoiChar_of_not_isDigit c hd]

theorem allEqual_eleven (c0 c1 c2 c3 c4 c5 c6 c7 c8 c9 c10 : Char) :
    (∀ c ∈ [c0, c1, c2, c3, c4, c5, c6, c7, c8, c9, c10],
      ∀ d ∈ [c0, c1, c2, c3, c4, c5, c6, c7, c8, c9, c10], c = d) ↔
    (c1 = c0 ∧ c2 = c0 ∧ c3 = c0 ∧ c4 = c0 ∧ c5 = c0 ∧ c6 = c0 ∧ c7 = c0 ∧ c8 = c0 ∧
      c9 = c0 ∧ c10 = c0) := by
  constructor
  · intro h
    exact ⟨h c1 (by simp) c0 (by simp), h c2 (by simp) c0 (by simp),
      h c3 (by simp) c0 (by simp), h c4 (by simp) c0 (by simp), h c5 (by simp) c0 (by simp),
      h c6 (by simp) c0 (by simp), h c7 (by simp) c0 (by simp), h c8 (by simp) c0 (by simp),
      h c9 (by simp) c0 (by simp), h c10 (by simp) c0 (by simp)⟩
  · rintro ⟨rfl, rfl, rfl, rfl, rfl, rfl, rfl, rfl, rfl, rfl⟩ c hc d hd
    simp at hc hd
    rw [hc, hd]

/-- The ten texts that `ValidateCPF` refuses by name are the texts of eleven equal
digits. -/
theorem repeated_eleven (c0 c1 c2 c3 c4 c5 c6 c7 c8 c9 c10 : Char)
    (h0 : c0.isDigit = true) :
    (String.mk [c0, c1, c2, c3, c4, c5, c6, c7, c8, c9, c10] = "00000000000" ∨
      String.mk [c0, c1, c2, c3, c4, c5, c6, c7, c8, c9, c10] = "11111111111" ∨
      String.mk [c0, c1, c2, c3, c4, c5, c6, c7, c8, c9, c10] = "22222222222" ∨
      String.mk [c0, c1, c2, c3, c4, c5, c6, c7, c8, c9, c10] = "33333333333" ∨
      String.mk [c0, c1, c2, c3, c4, c5, c6, c7, c8, c9, c10] = "44444444444" ∨
      String.mk [c0, c1, c2, c3, c4, c5, c6, c7, c8, c9, c10] = "55555555555" ∨
      String.mk [c0, c1, c2, c3, c4, c5, c6, c7, c8, c9, c10] = "66666666666" ∨
      String.mk [c0, c1, c2, c3, c4, c5, c6, c7, c8, c9, c10] = "77777777777" ∨
      String.mk [c0, c1, c2, c3, c4, c5, c6, c7, c8, c9, c10] = "88888888888" ∨
      String.mk [c0, c1, c2, c3, c4, c5, c6, c7, c8, c9, c10] = "99999999999") ↔
    (c1 = c0 ∧ c2 = c0 ∧ c3 = c0 ∧ c4 = c0 ∧ c5 = c0 ∧ c6 = c0 ∧ c7 = c0 ∧ c8 = c0 ∧
      c9 = c0 ∧ c10 = c0) := by
  constructor
  · intro h
    rcases h with h | h | h | h | h | h | h | h | h | h <;>
    · have hd := congrArg String.data h
      simp only [List.cons.injEq, and_true] at hd
      obtain ⟨r0, r1, r2, r3, r4, r5, r6, r7, r8, r9, r10⟩ := hd
      subst r0 r1 r2 r3 r4 r5 r6 r7 r8 r9 r10
      exact ⟨rfl, rfl, rfl, rfl, rfl, rfl, rfl, rfl, rfl, rfl⟩
  · rintro ⟨rfl, rfl, rfl, rfl, rfl, rfl, rfl, rfl, rfl, rfl⟩
    rcases isDigit_cases _ h0 with h | h | h | h | h | h | h | h | h | h <;> subst h <;>
      decide

theorem list_length_eleven {α : Type} (l : List α) (h : l.length = 11) :
    ∃ a0 a1 a2 a3 a4 a5 a6 a7 a8 a9 a10, l = [a0, a1, a2, a3, a4, a5, a6, a7, a8, a9, a10] := by
  match l, h with
  | [a0, a1, a2, a3, a4, a5, a6, a7, a8, a9, a10], _ =>
    exact ⟨a0, a1, a2, a3, a4, a5, a6, a7, a8, a9, a10, rfl⟩

theorem goLen_digits (t : List Char) (h : ∀ c ∈ t, c.isDigit = true) :
    goLen (String.mk t) = t.length := by
  unfold goLen
  induction t with
  | nil => rfl
  | cons c rest ih =>
    simp only [List.map_cons, List.sum_cons, List.length_cons]
    rw [isDigit_utf8Size c (h c (List.mem_cons_self _ _))]
    have := ih (fun x hx => h x (List.mem_cons_of_mem _ hx))
    simp only [] at this
    omega

/-- On eleven digits `ValidateCPF` computes the stated check. -/
theorem validateCleaned_eleven (c0 c1 c2 c3 c4 c5 c6 c7 c8 c9 c10 : Char)
    (hd : ∀ c ∈ [c0, c1, c2, c3, c4, c5, c6, c7, c8, c9, c10], c.isDigit = true) :
    validateCleaned (String.mk [c0, c1, c2, c3, c4, c5, c6, c7, c8, c9, c10]) =
      some (decide (StatedValidDigits [c0, c1, c2, c3, c4, c5, c6, c7, c8, c9, c10])) := by
  have hlen := goLen_digits _ hd
  have h0 := hd c0 (by simp)
  have h1 := hd c1 (by simp)
  have h2 := hd c2 (by simp)
  have h3 := hd c3 (by simp)
  have h4 := hd c4 (by simp)
  have h5 := hd c5 (by simp)
  have h6 := hd c6 (by simp)
  have h7 := hd c7 (by simp)
  have h8 := hd c8 (by simp)
  have h9 := hd c9 (by simp)
  have h10 := hd c10 (by simp)
  have hfill : fillDigits [c0, c1, c2, c3, c4, c5, c6, c7, c8, c9, c10] 0
      (List.replicate 11 0) =
      some (some [c0.toNat - 48, c1.toNat - 48, c2.toNat - 48, c3.toNat - 48,
        c4.toNat - 48, c5.toNat - 48, c6.toNat - 48, c7.toNat - 48, c8.toNat - 48,
        c9.toNat - 48, c10.toNat - 48]) := by
    simp [fillDigits, atoiChar, h0, h1, h2, h3, h4, h5, h6, h7, h8, h9, h10,
      isDigit_utf8Size, List.replicate]
  have hsum1 : sumLoop [c0.toNat - 48, c1.toNat - 48, c2.toNat - 48, c3.toNat - 48,
        c4.toNat - 48, c5.toNat - 48, c6.toNat - 48, c7.toNat - 48, c8.toNat - 48,
        c9.toNat - 48, c10.toNat - 48] 10 9 0 0 =
      some (Finset.sum (Finset.range 9)
        (fun i => cpfDigit [c0, c1, c2, c3, c4, c5, c6, c7, c8, c9, c10] i * (10 - i))) := by
    simp [sumLoop, Finset.sum_range_succ, cpfDigit]
  have hsum2 : sumLoop [c0.toNat - 48, c1.toNat - 48, c2.toNat - 48, c3.toNat - 48,
        c4.toNat - 48, c5.toNat - 48, c6.toNat - 48, c7.toNat - 48, c8.toNat - 48,
        c9.toNat - 48, c10.toNat - 48] 11 10 0 0 =
      some (Finset.sum (Finset.range 10)
        (fun i => cpfDigit [c0, c1, c2, c3, c4, c5, c6, c7, c8, c9, c10] i * (11 - i))) := by
    simp [sumLoop, Finset.sum_range_succ, cpfDigit]
  have hcheck : ∀ x : Nat, (if x % 11 ≥ 2 then 11 - x % 11 else 0) = cpfCheckDigit x := by
    intro x
    unfold cpfCheckDigit
    split_ifs <;> omega
  have hd9 : cpfDigit [c0, c1, c2, c3, c4, c5, c6, c7, c8, c9, c10] 9 = c9.toNat - 48 := rfl
  have hd10 : cpfDigit [c0, c1, c2, c3, c4, c5, c6, c7, c8, c9, c10] 10 = c10.toNat - 48 :=
    rfl
  unfold validateCleaned
  rw [if_neg (by rw [hlen]; simp)]
  by_cases hall : (c1 = c0 ∧ c2 = c0 ∧ c3 = c0 ∧ c4 = c0 ∧ c5 = c0 ∧ c6 = c0 ∧ c7 = c0 ∧
      c8 = c0 ∧ c9 = c0 ∧ c10 = c0)
  · rw [if_pos ((repeated_eleven c0 c1 c2 c3 c4 c5 c6 c7 c8 c9 c10 h0).mpr hall)]
    have hnot : ¬ StatedValidDigits [c0, c1, c2, c3, c4, c5, c6, c7, c8, c9, c10] := by
      intro hv
      exact hv.2.2.1 ((allEqual_eleven c0 c1 c2 c3 c4 c5 c6 c7 c8 c9 c10).mpr hall)
    simp [hnot]
  · rw [if_neg (fun h => hall
      ((repeated_eleven c0 c1 c2 c3 c4 c5 c6 c7 c8 c9 c10 h0).mp h))]
    have hne : ¬ (∀ c ∈ [c0, c1, c2, c3, c4, c5, c6, c7, c8, c9, c10],
        ∀ d ∈ [c0, c1, c2, c3, c4, c5, c6, c7, c8, c9, c10], c = d) :=
      fun h => hall ((allEqual_eleven c0 c1 c2 c3 c4 c5 c6 c7 c8 c9 c10).mp h)
    simp only [hfill, hsum1, hsum2, hcheck]
    have hg9 : [c0.toNat - 48, c1.toNat - 48, c2.toNat - 48, c3.toNat - 48,
        c4.toNat - 48, c5.toNat - 48, c6.toNat - 48, c7.toNat - 48, c8.toNat - 48,
        c9.toNat - 48, c10.toNat - 48][9]? = some (c9.toNat - 48) := rfl
    have hg10 : [c0.toNat - 48, c1.toNat - 48, c2.toNat - 48, c3.toNat - 48,
        c4.toNat - 48, c5.toNat - 48, c6.toNat - 48, c7.toNat - 48, c8.toNat - 48,
        c9.toNat - 48, c10.toNat - 48][10]? = some (c10.toNat - 48) := rfl
    simp only [hg9, hg10]
    by_cases he9 : c9.toNat - 48 = cpfCheckDigit (Finset.sum (Finset.range 9)
        (fun i => cpfDigit [c0, c1, c2, c3, c4, c5, c6, c7, c8, c9, c10] i * (10 - i)))
    · rw [if_neg (not_not.mpr he9)]
      by_cases he10 : c10.toNat - 48 = cpfCheckDigit (Finset.sum (Finset.range 10)
          (fun i => cpfDigit [c0, c1, c2, c3, c4, c5, c6, c7, c8, c9, c10] i * (11 - i)))
      · have hv : StatedValidDigits [c0, c1, c2, c3, c4, c5, c6, c7, c8, c9, c10] :=
          ⟨rfl, hd, hne, hd9.trans he9, hd10.trans he10⟩
        simp [hv, he10]
      · have hv : ¬ StatedValidDigits [c0, c1, c2, c3, c4, c5, c6, c7, c8, c9, c10] :=
          fun hv => he10 (hd10.symm.trans hv.2.2.2.2)
        simp [hv, he10]
    · rw [if_pos he9]
      have hv : ¬ StatedValidDigits [c0, c1, c2, c3, c4, c5, c6, c7, c8, c9, c10] :=
        fun hv => he9 (hd9.symm.trans hv.2.2.2.1)
      simp [hv]

/-- On every text without separators `ValidateCPF` returns, and returns the stated
validity. -/
theorem validateCleaned_spec (t : List Char) :
    validateCleaned (String.mk t) = some (decide (StatedValidDigits t)) := by
  by_cases hd : ∀ c ∈ t, c.isDigit = true
  · by_cases hl : t.length = 11
    · obtain ⟨c0, c1, c2, c3, c4, c5, c6, c7, c8, c9, c10, rfl⟩ := list_length_eleven t hl
      exact validateCleaned_eleven c0 c1 c2 c3 c4 c5 c6 c7 c8 c9 c10 hd
    · have hv : ¬ StatedValidDigits t := fun hv => hl hv.1
      unfold validateCleaned
      rw [if_pos (by rw [goLen_digits t hd]; exact hl)]
      simp [hv]
  · have hv : ¬ StatedValidDigits t := fun hv => hd hv.2.1
    have hex : ∃ c ∈ t, ¬ c.isDigit = true := by
      by_contra hne
      apply hd
      intro c hc
      by_contra hcd
      exact hne ⟨c, hc, hcd⟩
    unfold validateCleaned
    by_cases hlen : goLen (String.mk t) ≠ 11
    · rw [if_pos hlen]
      simp [hv]
    · rw [if_neg hlen]
      have hlen : goLen (String.mk t) = 11 := not_not.mp hlen
      split_ifs
      · simp [hv]
      · have hfill := fillDigits_not_digit t 0 (List.replicate 11 0) hex (by
          have : (t.map Char.utf8Size).sum = 11 := hlen
          simp [this])
        have hdata : (String.mk t).data = t := rfl
        rw [hdata, hfill]
        simp [hv]

theorem cpfCharacters_idem (s : String) :
    cpfCharacters (String.mk (cpfCharacters s)) = cpfCharacters s := by
  simp [cpfCharacters, List.filter_filter]

theorem CleanCPF_eq (s : String) : CleanCPF s = String.mk (cpfCharacters s) := by
  rw [← CleanCPF_data]

theorem CleanCPF_idem (s : String) : CleanCPF (CleanCPF s) = CleanCPF s := by
  rw [CleanCPF_eq (CleanCPF s), CleanCPF_eq s, cpfCharacters_idem]

theorem ValidateCPF_eq (s : String) :
    ValidateCPF s = some (decide (StatedValidCPF s)) := by
  have h : ValidateCPF s = validateCleaned (CleanCPF s) := rfl
  rw [h, CleanCPF_eq, validateCleaned_spec]
  rfl

/-- C30: for every text s, `ValidateCPF` returns without indexing out of range, and
returns true exactly when s with every '.', '-' and ' ' removed consists of 11 ASCII
digits d0..d10 that are not all equal, with d9 = c(sum over i < 9 of d_i * (10 - i)) and
d10 = c(sum over i < 10 of d_i * (11 - i)), where c(x) is 0 if x mod 11 < 2 and
11 - (x mod 11) otherwise; `ValidateCPF (CleanCPF s) = ValidateCPF s`; and
"529.982.247-25" is accepted. -/
theorem ValidateCPF_stated (s : String) :
    ValidateCPF s = some (decide (StatedValidCPF s)) ∧
    ValidateCPF s ≠ none ∧
    (ValidateCPF s = some true ↔ StatedValidCPF s) ∧
    ValidateCPF (CleanCPF s) = ValidateCPF s ∧
    ValidateCPF "529.982.247-25" = some true := by
  have h := ValidateCPF_eq s
  refine ⟨h, ?_, ?_, ?_, by decide⟩
  · rw [h]
    simp
  · rw [h]
    simp
  · have h1 : ValidateCPF (CleanCPF s) = validateCleaned (CleanCPF (CleanCPF s)) := rfl
    have h2 : ValidateCPF s = validateCleaned (CleanCPF s) := rfl
    rw [h1, h2, CleanCPF_idem]

/-! ## Registration -/

theorem maxNumero_ge (l : List Account) :
    ∀ a ∈ l, ∃ m, maxNumero l = some m ∧ a.Number ≤ m := by
  induction l with
  | nil => intro a ha; simp at ha
  | cons x rest ih =>
    intro a ha
    rcases List.mem_cons.mp ha with h | h
    · subst h
      cases hm : maxNumero rest with
      | none => exact ⟨a.Number, by simp [maxNumero, hm], le_refl _⟩
      | some m => exact ⟨max a.Number m, by simp [maxNumero, hm], le_max_left _ _⟩
    · obtain ⟨m, hm, hle⟩ := ih a h
      exact ⟨max x.Number m, by simp [maxNumero, hm], le_trans hle (le_max_right _ _)⟩

theorem maxNumero_mem (l : List Account) :
    ∀ m, maxNumero l = some m → ∃ a ∈ l, a.Number = m := by
  induction l with
  | nil => intro m h; simp [maxNumero] at h
  | cons x rest ih =>
    intro m h
    cases hm : maxNumero rest with
    | none =>
      simp only [maxNumero, hm, Option.some.injEq] at h
      exact ⟨x, List.mem_cons_self _ _, h⟩
    | some k =>
      simp only [maxNumero, hm, Option.some.injEq] at h
      obtain ⟨a, ha, hak⟩ := ih k hm
      rcases le_total x.Number k with hle | hle
      · rw [max_eq_right hle] at h
        exact ⟨a, List.mem_cons_of_mem _ ha, hak.trans h⟩
      · rw [max_eq_left hle] at h
        exact ⟨x, List.mem_cons_self _ _, h⟩

theorem wrapInt64_id (n : Int) (h1 : -2 ^ 63 ≤ n) (h2 : n < 2 ^ 63) : wrapInt64 n = n := by
  unfold wrapInt64
  rw [Int.emod_eq_of_lt (by omega) (by omega)]
  omega

theorem GetNextAccountNumber_first (st : State) (h : st.accounts = []) :
    GetNextAccountNumber st = 100001 := by
  unfold GetNextAccountNumber
  rw [h]
  decide

theorem GetByCPF_none (st : State) (cpf : String) (h : GetByCPF st cpf = none) :
    ∀ a ∈ st.accounts, a.CPF ≠ cpf := by
  intro a ha
  have := List.find?_eq_none.mp h a ha
  simpa using this

/-- The two ways a `Register` call ends: a failure that leaves the store as it was, or
the append of a new active account with the cleaned CPF and the next number. -/
theorem Register_cases (env : RegisterEnv) (st : State) (request : RegisterRequest) :
    (∃ message, Register env st request = (st, RegisterResult.failed message)) ∨
    (ValidateCPF (CleanCPF request.CPF) = some true ∧
      GetByCPF st (CleanCPF request.CPF) = none ∧
      (∀ x ∈ st.accounts, x.Number ≠ GetNextAccountNumber st) ∧
      ∃ salt, env.salt = some salt ∧
        Register env st request =
          ({ st with accounts := st.accounts ++
              [NewAccount env.newID request.Name (CleanCPF request.CPF)
                (env.hashPassword request.Password salt) salt (GetNextAccountNumber st)] },
            RegisterResult.registered (strconvItoa (GetNextAccountNumber st)))) := by
  unfold Register
  simp only []
  cases hv : ValidateCPF (CleanCPF request.CPF) with
  | none => exact Or.inl ⟨_, rfl⟩
  | some b =>
    cases b with
    | false => exact Or.inl ⟨_, rfl⟩
    | true =>
      simp only []
      by_cases hg : env.getByCPFFails = true
      · rw [if_pos hg]; exact Or.inl ⟨_, rfl⟩
      rw [if_neg hg]
      cases hc : GetByCPF st (CleanCPF request.CPF) with
      | some _ => exact Or.inl ⟨_, rfl⟩
      | none =>
        simp only []
        cases hs : env.salt with
        | none => exact Or.inl ⟨_, rfl⟩
        | some salt =>
          simp only []
          by_cases hn : env.nextNumberFails = true
          · rw [if_pos hn]; exact Or.inl ⟨_, rfl⟩
          rw [if_neg hn]
          cases hcr : createAccount env.createFails st
              (NewAccount env.newID request.Name (CleanCPF request.CPF)
                (env.hashPassword request.Password salt) salt (GetNextAccountNumber st)) with
          | none => exact Or.inl ⟨_, rfl⟩
          | some st1 =>
            right
            unfold createAccount at hcr
            split_ifs at hcr with hcond
            cases hcr
            refine ⟨trivial, trivial, ?_, salt, rfl, rfl⟩
            intro x hx hnum
            exact hcond (Or.inr ⟨x, hx, Or.inr (Or.inl hnum)⟩)

/-! ## Account numbers never reach the end of Go's `int` -/

theorem digitValue_inj (c d : Char) (hc : c.isDigit = true) (hd : d.isDigit = true)
    (h : c.toNat - 48 = d.toNat - 48) : c = d := by
  simp only [Char.isDigit, Bool.and_eq_true, decide_eq_true_eq] at hc hd
  have h1 : 48 ≤ c.toNat := hc.1
  have h2 : 48 ≤ d.toNat := hd.1
  have h3 : c.toNat = d.toNat := by omega
  rw [← Char.ofNat_toNat c, ← Char.ofNat_toNat d, h3]

theorem digitValue_lt (c : Char) (hc : c.isDigit = true) : c.toNat - 48 < 10 := by
  simp only [Char.isDigit, Bool.and_eq_true, decide_eq_true_eq] at hc
  have h2 : c.toNat ≤ 57 := hc.2
  omega

theorem digitValues_inj : ∀ l1 l2 : List Char, (∀ c ∈ l1, c.isDigit = true) →
    (∀ c ∈ l2, c.isDigit = true) →
    l1.map (fun c => c.toNat - 48) = l2.map (fun c => c.toNat - 48) → l1 = l2 := by
  intro l1
  induction l1 with
  | nil =>
    intro l2 _ _ h
    cases l2 with
    | nil => rfl
    | cons y ys => simp at h
  | cons x xs ih =>
    intro l2 h1 h2 h
    cases l2 with
    | nil => simp at h
    | cons y ys =>
      simp only [List.map_cons, List.cons.injEq] at h
      have hxy := digitValue_inj x y (h1 x (List.mem_cons_self _ _))
        (h2 y (List.mem_cons_self _ _)) h.1
      have hrest := ih ys (fun c hc => h1 c (List.mem_cons_of_mem _ hc))
        (fun c hc => h2 c (List.mem_cons_of_mem _ hc)) h.2
      rw [hxy, hrest]

theorem ofDigits_ten_inj : ∀ l1 l2 : List Nat, l1.length = l2.length →
    (∀ x ∈ l1, x < 10) → (∀ x ∈ l2, x < 10) →
    Nat.ofDigits 10 l1 = Nat.ofDigits 10 l2 → l1 = l2 := by
  intro l1
  induction l1 with
  | nil =>
    intro l2 hlen _ _ _
    cases l2 with
    | nil => rfl
    | cons y ys => simp at hlen
  | cons x xs ih =>
    intro l2 hlen h1 h2 h
    cases l2 with
    | nil => simp at hlen
    | cons y ys =>
      rw [Nat.ofDigits_cons, Nat.ofDigits_cons] at h
      have hx := h1 x (List.mem_cons_self _ _)
      have hy := h2 y (List.mem_cons_self _ _)
      have hxy : x = y := by omega
      have hv : Nat.ofDigits 10 xs = Nat.ofDigits 10 ys := by omega
      have hrest := ih ys (by simpa using hlen)
        (fun c hc => h1 c (List.mem_cons_of_mem _ hc))
        (fun c hc => h2 c (List.mem_cons_of_mem _ hc)) hv
      rw [hxy, hrest]

theorem nodup_length_le (l : List Nat) (bound : Nat) (hnodup : l.Nodup)
    (hlt : ∀ x ∈ l, x < bound) : l.length ≤ bound := by
  have hsub : l.toFinset ⊆ Finset.range bound := by
    intro x hx
    exact Finset.mem_range.mpr (hlt x (List.mem_toFinset.mp hx))
  have hcard := Finset.card_le_card hsub
  rw [List.toFinset_card_of_nodup hnodup, Finset.card_range] at hcard
  exact hcard

/-- There are at most 10^11 accounts with pairwise distinct CPFs of 11 digits. -/
theorem ElevenDigitCPFs_length (accounts : List Account)
    (hnodup : (accounts.map (fun a => a.CPF)).Nodup) (hdigits : ElevenDigitCPFs accounts) :
    accounts.length ≤ 10 ^ 11 := by
  have hinj : ∀ a ∈ accounts, ∀ b ∈ accounts,
      Nat.ofDigits 10 (a.CPF.data.map (fun c => c.toNat - 48)) =
        Nat.ofDigits 10 (b.CPF.data.map (fun c => c.toNat - 48)) → a.CPF = b.CPF := by
    intro a ha b hb h
    obtain ⟨hla, hda⟩ := hdigits a ha
    obtain ⟨hlb, hdb⟩ := hdigits b hb
    have hlists := ofDigits_ten_inj _ _ (by simp [hla, hlb])
      (by
        intro x hx
        obtain ⟨c, hc, rfl⟩ := List.mem_map.mp hx
        exact digitValue_lt c (hda c hc))
      (by
        intro x hx
        obtain ⟨c, hc, rfl⟩ := List.mem_map.mp hx
        exact digitValue_lt c (hdb c hc)) h
    exact String.ext (digitValues_inj _ _ hda hdb hlists)
  have hvalues : ((accounts.map (fun a => a.CPF)).map
      (fun s => Nat.ofDigits 10 (s.data.map (fun c => c.toNat - 48)))).Nodup := by
    apply List.Nodup.map_on _ hnodup
    intro s hs t ht hst
    obtain ⟨a, ha, rfl⟩ := List.mem_map.mp hs
    obtain ⟨b, hb, rfl⟩ := List.mem_map.mp ht
    exact hinj a ha b hb hst
  have hbound := nodup_length_le _ (10 ^ 11) hvalues (by
    intro x hx
    obtain ⟨s, hs, rfl⟩ := List.mem_map.mp hx
    obtain ⟨a, ha, rfl⟩ := List.mem_map.mp hs
    obtain ⟨hla, hda⟩ := hdigits a ha
    have h := Nat.ofDigits_lt_base_pow_length (b := 10)
      (l := a.CPF.data.map (fun c => c.toNat - 48)) (by decide) (by
        intro x hx
        obtain ⟨c, hc, rfl⟩ := List.mem_map.mp hx
        exact digitValue_lt c (hda c hc))
    rw [List.length_map, hla] at h
    exact h)
  simpa using hbound

theorem NumberedInOrder_mem (accounts : List Account) (h : NumberedInOrder accounts) :
    ∀ a ∈ accounts, 100001 ≤ a.Number ∧ a.Number ≤ 100000 + (accounts.length : Int) := by
  intro a ha
  have hm : a.Number ∈ accounts.map (fun a => a.Number) := List.mem_map.mpr ⟨a, ha, rfl⟩
  rw [h] at hm
  obtain ⟨i, hi, hv⟩ := List.mem_map.mp hm
  have hi2 := List.mem_range.mp hi
  constructor <;> omega

theorem NumberedInOrder_max (accounts : List Account) (h : NumberedInOrder accounts)
    (hne : accounts ≠ []) : maxNumero accounts = some (100000 + (accounts.length : Int)) := by
  have hpos : 0 < accounts.length := List.length_pos.mpr hne
  have hlast : (100001 : Int) + ((accounts.length - 1 : Nat) : Int) ∈
      accounts.map (fun a => a.Number) := by
    rw [h]
    exact List.mem_map.mpr ⟨accounts.length - 1, List.mem_range.mpr (by omega), rfl⟩
  obtain ⟨a, ha, hnum⟩ := List.mem_map.mp hlast
  obtain ⟨m, hm, hle⟩ := maxNumero_ge accounts a ha
  obtain ⟨b, hb, hbm⟩ := maxNumero_mem accounts m hm
  have hup := (NumberedInOrder_mem accounts h b hb).2
  rw [hm]
  congr 1
  have hnum2 : a.Number = 100001 + ((accounts.length - 1 : Nat) : Int) := hnum
  omega

/-- In a store built by registration the next number is 100001 plus the number of
accounts: the addition does not wrap. -/
theorem GetNextAccountNumber_numbered (st : State) (h : NumberedInOrder st.accounts)
    (hlen : st.accounts.length ≤ 10 ^ 11) :
    GetNextAccountNumber st = 100001 + (st.accounts.length : Int) := by
  by_cases hne : st.accounts = []
  · rw [GetNextAccountNumber_first st hne, hne]
    rfl
  · unfold GetNextAccountNumber
    rw [NumberedInOrder_max st.accounts h hne]
    simp only []
    have hl : (st.accounts.length : Int) ≤ 100000000000 := by exact_mod_cast hlen
    have hw : wrapInt64 (100000 + (st.accounts.length : Int) + 1) =
        100000 + (st.accounts.length : Int) + 1 :=
      wrapInt64_id _ (by norm_num; omega) (by norm_num; omega)
    rw [hw]
    omega

theorem CleanCPF_eleven_digits (s : String) (h : ValidateCPF (CleanCPF s) = some true) :
    (CleanCPF s).data.length = 11 ∧ ∀ c ∈ (CleanCPF s).data, c.isDigit = true := by
  rw [ValidateCPF_eq] at h
  have hv : StatedValidCPF (CleanCPF s) := by simpa using h
  unfold StatedValidCPF at hv
  rw [CleanCPF_eq s, cpfCharacters_idem] at hv
  rw [CleanCPF_data]
  exact ⟨hv.1, hv.2.1⟩

/-- What every `Register` call keeps: the numbers are 100001, 100002, ... in order, the
CPFs are pairwise distinct texts of 11 digits. -/
theorem Register_keeps_numbered (env : RegisterEnv) (st : State) (request : RegisterRequest)
    (hnum : NumberedInOrder st.accounts)
    (hcpf : (st.accounts.map (fun a => a.CPF)).Nodup)
    (hdigits : ElevenDigitCPFs st.accounts) :
    NumberedInOrder (Register env st request).1.accounts ∧
    ((Register env st request).1.accounts.map (fun a => a.CPF)).Nodup ∧
    ElevenDigitCPFs (Register env st request).1.accounts := by
  rcases Register_cases env st request with ⟨message, h⟩ | ⟨hvalid, hnone, _, salt, _, h⟩
  · rw [h]; exact ⟨hnum, hcpf, hdigits⟩
  · rw [h]
    have hnext := GetNextAccountNumber_numbered st hnum
      (ElevenDigitCPFs_length st.accounts hcpf hdigits)
    refine ⟨?_, ?_, ?_⟩
    · unfold NumberedInOrder at hnum ⊢
      simp only [List.map_append, List.map_cons, List.map_nil, List.length_append,
        List.length_singleton, List.range_succ, NewAccount, hnext]
      rw [hnum]
    · simp only [List.map_append, List.map_cons, List.map_nil]
      rw [List.nodup_append]
      refine ⟨hcpf, List.nodup_singleton _, ?_⟩
      intro c hc hc2
      obtain ⟨a, ha, rfl⟩ := List.mem_map.mp hc
      simp only [List.mem_singleton, NewAccount] at hc2
      exact GetByCPF_none st _ hnone a ha hc2
    · intro a ha
      simp only [List.mem_append, List.mem_singleton] at ha
      rcases ha with ha | ha
      · exact hdigits a ha
      · subst ha
        exact CleanCPF_eleven_digits request.CPF hvalid

theorem runRegisters_numbered (calls : List (RegisterEnv × RegisterRequest)) :
    ∀ st : State, NumberedInOrder st.accounts →
      (st.accounts.map (fun a => a.CPF)).Nodup → ElevenDigitCPFs st.accounts →
      NumberedInOrder (runRegisters st calls).accounts ∧
      ((runRegisters st calls).accounts.map (fun a => a.CPF)).Nodup ∧
      ElevenDigitCPFs (runRegisters st calls).accounts := by
  induction calls with
  | nil => intro st h1 h2 h3; exact ⟨h1, h2, h3⟩
  | cons c rest ih =>
    intro st h1 h2 h3
    obtain ⟨h4, h5, h6⟩ := Register_keeps_numbered c.1 st c.2 h1 h2 h3
    exact ih _ h4 h5 h6

theorem NumberedInOrder_nodup (accounts : List Account) (h : NumberedInOrder accounts) :
    (accounts.map (fun a => a.Number)).Nodup := by
  rw [h]
  apply List.Nodup.map _ (List.nodup_range _)
  intro i j hij
  have hij2 : (100001 : Int) + (i : Int) = 100001 + (j : Int) := hij
  omega

/-- Every stored CPF is in cleaned form. -/
theorem runRegisters_cleaned (calls : List (RegisterEnv × RegisterRequest)) :
    ∀ st : State, (∀ a ∈ st.accounts, CleanCPF a.CPF = a.CPF) →
      ∀ a ∈ (runRegisters st calls).accounts, CleanCPF a.CPF = a.CPF := by
  induction calls with
  | nil => intro st h; exact h
  | cons c rest ih =>
    intro st h
    apply ih
    rcases Register_cases c.1 st c.2 with ⟨message, hr⟩ | ⟨_, _, _, salt, _, hr⟩
    · rw [hr]; exact h
    · rw [hr]
      intro a ha
      simp only [List.mem_append, List.mem_singleton] at ha
      rcases ha with ha | ha
      · exact h a ha
      · subst ha
        exact CleanCPF_idem _

/-- C25: in every state reachable from an empty store by any sequence of sequentially
executed `Register` calls, no two accounts have the same account number and no two
accounts have the same CPF, which is stored in cleaned form; and every successful
`Register` on such a state appends one account whose number is strictly greater than
every existing number (100001 when there is no account yet), which is active and whose
number is the one returned.  The number is `maxNumber + 1` in Go's wrapping `int`; it does
not wrap, because the accounts of a reachable state are numbered 100001, 100002, ... and
there are at most 10^11 of them, one for each text of 11 digits. -/
theorem Register_unique_numbers (calls : List (RegisterEnv × RegisterRequest))
    (env : RegisterEnv) (request : RegisterRequest) :
    ((runRegisters (emptyLedger []) calls).accounts.map (fun a => a.Number)).Nodup ∧
    ((runRegisters (emptyLedger []) calls).accounts.map (fun a => a.CPF)).Nodup ∧
    (∀ a ∈ (runRegisters (emptyLedger []) calls).accounts, CleanCPF a.CPF = a.CPF) ∧
    NumberedInOrder (runRegisters (emptyLedger []) calls).accounts ∧
    (runRegisters (emptyLedger []) calls).accounts.length ≤ 10 ^ 11 ∧
    GetNextAccountNumber (runRegisters (emptyLedger []) calls) =
      100001 + ((runRegisters (emptyLedger []) calls).accounts.length : Int) ∧
    (∀ accountNumber,
      (Register env (runRegisters (emptyLedger []) calls) request).2 =
        RegisterResult.registered accountNumber →
      ∃ account,
        (Register env (runRegisters (emptyLedger []) calls) request).1.accounts =
          (runRegisters (emptyLedger []) calls).accounts ++ [account] ∧
        (∀ a ∈ (runRegisters (emptyLedger []) calls).accounts,
          a.Number < account.Number) ∧
        ((runRegisters (emptyLedger []) calls).accounts = [] → account.Number = 100001) ∧
        account.Number = GetNextAccountNumber (runRegisters (emptyLedger []) calls) ∧
        account.Active = true ∧ account.CPF = CleanCPF request.CPF ∧
        accountNumber = strconvItoa account.Number) := by
  obtain ⟨h1, h2, h3⟩ := runRegisters_numbered calls (emptyLedger [])
    (by decide) (by simp [emptyLedger]) (by intro a ha; simp [emptyLedger] at ha)
  have hlen := ElevenDigitCPFs_length _ h2 h3
  have hnext := GetNextAccountNumber_numbered _ h1 hlen
  refine ⟨NumberedInOrder_nodup _ h1, h2,
    runRegisters_cleaned calls (emptyLedger []) (by simp [emptyLedger]), h1, hlen, hnext, ?_⟩
  intro accountNumber hok
  rcases Register_cases env (runRegisters (emptyLedger []) calls) request with
    ⟨message, h⟩ | ⟨_, _, _, salt, _, h⟩
  · rw [h] at hok
    cases hok
  · rw [h] at hok ⊢
    refine ⟨_, rfl, ?_, GetNextAccountNumber_first _, rfl, rfl, rfl, ?_⟩
    · intro a ha
      have hle := (NumberedInOrder_mem _ h1 a ha).2
      show a.Number < GetNextAccountNumber _
      rw [hnext]
      omega
    · cases hok
      rfl

/-- Witness of C25: Ana registers with a formatted CPF, Bruno registers, then Ana's CPF is
sent again without separators: two accounts, numbers 100001 and 100002, both active, and
the third call is refused; a registration after Ana's gets 100002, above 100001. -/
theorem Register_unique_numbers_witness :
    (runRegisters (emptyLedger [])
      [(RegisterEnv.ok "acc-1", sampleRegisterAna), (RegisterEnv.ok "acc-2", sampleRegisterBruno),
        (RegisterEnv.ok "acc-3", sampleRegisterAgain)]).accounts.map
      (fun a => (a.Number, a.CPF, a.Active)) =
      [(100001, "52998224725", true), (100002, "11144477735", true)] ∧
    (Register (RegisterEnv.ok "acc-2")
      (runRegisters (emptyLedger []) [(RegisterEnv.ok "acc-1", sampleRegisterAna)])
      sampleRegisterBruno).2 = RegisterResult.registered "100002" ∧
    ∃ account, (Register (RegisterEnv.ok "acc-2")
        (runRegisters (emptyLedger []) [(RegisterEnv.ok "acc-1", sampleRegisterAna)])
        sampleRegisterBruno).1.accounts =
        (runRegisters (emptyLedger []) [(RegisterEnv.ok "acc-1", sampleRegisterAna)]).accounts
          ++ [account] ∧
      (∀ a ∈ (runRegisters (emptyLedger [])
          [(RegisterEnv.ok "acc-1", sampleRegisterAna)]).accounts,
        a.Number < account.Number) ∧
      account.Active = true ∧ "100002" = strconvItoa account.Number := by
  have hok : (Register (RegisterEnv.ok "acc-2")
      (runRegisters (emptyLedger []) [(RegisterEnv.ok "acc-1", sampleRegisterAna)])
      sampleRegisterBruno).2 = RegisterResult.registered "100002" := by decide
  obtain ⟨account, h1, h2, _, _, h4, _, h6⟩ := (Register_unique_numbers
    [(RegisterEnv.ok "acc-1", sampleRegisterAna)] (RegisterEnv.ok "acc-2")
    sampleRegisterBruno).2.2.2.2.2.2 "100002" hok
  exact ⟨by decide, hok, account, h1, h2, h4, h6⟩

/-! ## The movements a saga appends, and the total of the balances -/

theorem sampleBank_total : totalBalance sampleBank = 500 := by
  have h : totalBalance sampleBank =
      GetBalance sampleBank.movements "acc-1" + (GetBalance sampleBank.movements "acc-2" + 0) :=
    rfl
  rw [h, sampleBank_balance_origin, sampleBank_balance_destination]
  norm_num


/-! ## Float64 rounding -/

theorem size_half (n : Nat) (h : n ≠ 0) : Nat.size n = Nat.size (n / 2) + 1 := by
  conv_lhs => rw [← Nat.bit_decomp n]
  rw [Nat.size_bit]
  · rw [Nat.div2_val]
  · rw [Nat.bit_decomp]; exact h

theorem bitLengthAux_eq (fuel : Nat) : ∀ n, n ≤ fuel → bitLengthAux fuel n = Nat.size n := by
  induction fuel with
  | zero =>
    intro n h
    have h0 : n = 0 := by omega
    subst h0
    simp [bitLengthAux]
  | succ f ih =>
    intro n h
    unfold bitLengthAux
    by_cases h0 : n = 0
    · subst h0; simp
    · rw [if_neg h0, ih (n / 2) (by omega), size_half n h0]

theorem bitLength_eq (n : Nat) : bitLength n = Nat.size n := bitLengthAux_eq n n (le_refl n)

theorem bitLength_mul_pow (n j : Nat) (h : n ≠ 0) : bitLength (n * 2 ^ j) = bitLength n + j := by
  rw [bitLength_eq, bitLength_eq, ← Nat.shiftLeft_eq, Nat.size_shiftLeft h]

theorem bitLength_ge (n : Nat) (h : 2 ^ 53 ≤ n) : 54 ≤ bitLength n := by
  rw [bitLength_eq]
  by_contra hlt
  have h1 : Nat.size n ≤ 53 := by omega
  have h2 : n < 2 ^ 53 := Nat.size_le.mp h1
  omega

theorem roundNat53_mul_pow (n j : Nat) (h : 2 ^ 53 ≤ n) :
    roundNat53 (n * 2 ^ j) = roundNat53 n * 2 ^ j := by
  have hn : n ≠ 0 := by
    intro h0; subst h0; simp at h
  have hpos : 0 < 2 ^ j := Nat.pow_pos (by decide)
  have hbig : ¬ n * 2 ^ j < 2 ^ 53 := by
    have hle : n * 1 ≤ n * 2 ^ j := Nat.mul_le_mul_left n hpos
    omega
  have hk := bitLength_ge n h
  unfold roundNat53
  rw [if_neg hbig, if_neg (by omega : ¬ n < 2 ^ 53), bitLength_mul_pow n j hn]
  obtain ⟨k, hkdef⟩ : ∃ k, bitLength n - 53 = k + 1 := ⟨bitLength n - 54, by omega⟩
  have hk2 : bitLength n + j - 53 = (k + 1) + j := by omega
  simp only [hk2, hkdef, Nat.add_sub_cancel]
  have hsub : k + 1 + j - 1 = k + j := by omega
  rw [hsub]
  have hq : n * 2 ^ j / 2 ^ (k + 1 + j) = n / 2 ^ (k + 1) := by
    rw [pow_add, Nat.mul_div_mul_right _ _ hpos]
  have hr : n * 2 ^ j % 2 ^ (k + 1 + j) = n % 2 ^ (k + 1) * 2 ^ j := by
    rw [pow_add, Nat.mul_mod_mul_right]
  rw [hq, hr]
  have hc1 : (2 ^ (k + j) < n % 2 ^ (k + 1) * 2 ^ j) ↔ (2 ^ k < n % 2 ^ (k + 1)) := by
    rw [show 2 ^ (k + j) = 2 ^ k * 2 ^ j from pow_add 2 k j]
    exact Nat.mul_lt_mul_right hpos
  have hc2 : (n % 2 ^ (k + 1) * 2 ^ j = 2 ^ (k + j)) ↔ (n % 2 ^ (k + 1) = 2 ^ k) := by
    rw [show 2 ^ (k + j) = 2 ^ k * 2 ^ j from pow_add 2 k j]
    exact Nat.mul_left_inj (Nat.pos_iff_ne_zero.mp hpos)
  simp only [hc1, hc2]
  split <;> ring

theorem roundNat53_small_mul (n j : Nat) (h : n < 2 ^ 53) :
    roundNat53 (n * 2 ^ j) = n * 2 ^ j := by
  by_cases hbig : n * 2 ^ j < 2 ^ 53
  · unfold roundNat53
    rw [if_pos hbig]
  · have hn : n ≠ 0 := by
      intro h0; subst h0; simp at hbig
    have hsize : bitLength n ≤ 53 := by
      rw [bitLength_eq]; exact Nat.size_le.mpr h
    have hge := bitLength_ge (n * 2 ^ j) (by omega)
    rw [bitLength_mul_pow n j hn] at hge
    unfold roundNat53
    rw [if_neg hbig, bitLength_mul_pow n j hn]
    obtain ⟨k, hkdef⟩ : ∃ k, bitLength n + j - 53 = k + 1 := ⟨bitLength n + j - 54, by omega⟩
    obtain ⟨i, hi⟩ : ∃ i, j = i + (k + 1) := ⟨j - (k + 1), by omega⟩
    simp only [hkdef, Nat.add_sub_cancel]
    have hmul : n * 2 ^ j = n * 2 ^ i * 2 ^ (k + 1) := by
      rw [hi, pow_add, Nat.mul_assoc]
    have hpos : 0 < 2 ^ (k + 1) := Nat.pow_pos (by decide)
    have hq : n * 2 ^ j / 2 ^ (k + 1) = n * 2 ^ i := by
      rw [hmul, Nat.mul_div_cancel _ hpos]
    have hr : n * 2 ^ j % 2 ^ (k + 1) = 0 := by
      rw [hmul, Nat.mul_mod_left]
    have hk0 : 0 < 2 ^ k := Nat.pow_pos (by decide)
    rw [hq, hr, if_neg (by omega)]
    exact hmul.symm

/-- Rounding to 53 binary digits commutes with scaling by a power of two. -/
theorem roundNat53_scale (n j : Nat) : roundNat53 (n * 2 ^ j) = roundNat53 n * 2 ^ j := by
  by_cases h : n < 2 ^ 53
  · rw [roundNat53_small_mul n j h]
    unfold roundNat53
    rw [if_pos h]
  · exact roundNat53_mul_pow n j (by omega)

/-- Rounding of a non-negative dyadic rational. -/
theorem roundFloat64_dyadic (n k m : Nat) (hk : k ≤ 1074) (hm : roundNat53 n = m) :
    roundFloat64 ((n : ℚ) / 2 ^ k) = (m : ℚ) / 2 ^ k := by
  obtain ⟨j, hj⟩ : ∃ j, 1074 = k + j := ⟨1074 - k, by omega⟩
  have hx : (0 : ℚ) ≤ (n : ℚ) / 2 ^ k := by positivity
  have hfl : ⌊(n : ℚ) / 2 ^ k * 2 ^ 1074⌋ = ((n * 2 ^ j : Nat) : Int) := by
    have hval : (n : ℚ) / 2 ^ k * 2 ^ 1074 = ((n * 2 ^ j : Nat) : ℚ) := by
      rw [hj, pow_add]
      push_cast
      field_simp
      ring
    rw [hval]
    exact Int.floor_natCast _
  unfold roundFloat64
  rw [if_pos hx, hfl, Int.toNat_ofNat, roundNat53_scale, hm, hj, pow_add]
  push_cast
  field_simp
  ring

/-- Rounding of a negative dyadic rational. -/
theorem roundFloat64_neg_dyadic (n k m : Nat) (hk : k ≤ 1074) (hm : roundNat53 n = m) :
    roundFloat64 (-((n : ℚ) / 2 ^ k)) = -((m : ℚ) / 2 ^ k) := by
  by_cases h0 : n = 0
  · subst h0
    have hm0 : m = 0 := by rw [← hm]; decide
    subst hm0
    simp [roundFloat64, roundNat53]
  · have hpos : (0 : ℚ) < (n : ℚ) / 2 ^ k := by
      have hn : (0 : ℚ) < n := by exact_mod_cast Nat.pos_of_ne_zero h0
      positivity
    have hneg : ¬ (0 : ℚ) ≤ -((n : ℚ) / 2 ^ k) := by linarith
    have h := roundFloat64_dyadic n k m hk hm
    unfold roundFloat64 at h ⊢
    rw [if_pos (le_of_lt hpos)] at h
    rw [if_neg hneg, neg_neg, h]

theorem fadd_eval (x y : ℚ) (n k m : Nat) (hk : k ≤ 1074) (hxy : x + y = (n : ℚ) / 2 ^ k)
    (hm : roundNat53 n = m) : fadd x y = (m : ℚ) / 2 ^ k := by
  unfold fadd
  rw [hxy, roundFloat64_dyadic n k m hk hm]

theorem fadd_eval_neg (x y : ℚ) (n k m : Nat) (hk : k ≤ 1074)
    (hxy : x + y = -((n : ℚ) / 2 ^ k)) (hm : roundNat53 n = m) :
    fadd x y = -((m : ℚ) / 2 ^ k) := by
  unfold fadd
  rw [hxy, roundFloat64_neg_dyadic n k m hk hm]

theorem fsub_eval (x y : ℚ) (n k m : Nat) (hk : k ≤ 1074) (hxy : x - y = (n : ℚ) / 2 ^ k)
    (hm : roundNat53 n = m) : fsub x y = (m : ℚ) / 2 ^ k := by
  unfold fsub
  rw [hxy, roundFloat64_dyadic n k m hk hm]

theorem fsub_eval_neg (x y : ℚ) (n k m : Nat) (hk : k ≤ 1074)
    (hxy : x - y = -((n : ℚ) / 2 ^ k)) (hm : roundNat53 n = m) :
    fsub x y = -((m : ℚ) / 2 ^ k) := by
  unfold fsub
  rw [hxy, roundFloat64_neg_dyadic n k m hk hm]

/-- One step of the compensated sum when the new value is at least as large. -/
theorem kahanBabuskaNeumaierStep_smaller (s e r t d c e2 : ℚ) (hcmp : ¬ fabs s > fabs r)
    (ht : fadd s r = t) (hd : fsub r t = d) (hc : fadd d s = c) (he : fadd e c = e2) :
    kahanBabuskaNeumaierStep { rSum := s, rErr := e } r = { rSum := t, rErr := e2 } := by
  unfold kahanBabuskaNeumaierStep
  simp only []
  rw [if_neg hcmp, ht, hd, hc, he]

/-! ## The engine's sum on the sample ledgers -/

set_option maxRecDepth 100000 in
/-- The engine's sum of the one value 0.1. -/
theorem sqliteSum_tenth :
    sqliteSum [(3602879701896397 / 2 ^ 55)] =
      (3602879701896397 / 2 ^ 55) := by
  have ht1 : fadd 0 (3602879701896397 / 2 ^ 55) =
      (3602879701896397 / 2 ^ 55) :=
    (fadd_eval _ _ 3602879701896397 55
      3602879701896397
      (by norm_num) (by norm_num) (by decide)).trans (by norm_num)
  have hd1 : fsub (3602879701896397 / 2 ^ 55) (3602879701896397 / 2 ^ 55) =
      0 :=
    (fsub_eval _ _ 0 0
      0
      (by norm_num) (by norm_num) (by decide)).trans (by norm_num)
  have hc1 : fadd 0 0 =
      0 :=
    (fadd_eval _ _ 0 0
      0
      (by norm_num) (by norm_num) (by decide)).trans (by norm_num)
  have he1 : fadd 0 0 =
      0 :=
    (fadd_eval _ _ 0 0
      0
      (by norm_num) (by norm_num) (by decide)).trans (by norm_num)
  have hs1 : kahanBabuskaNeumaierStep
      { rSum := 0, rErr := 0 }
      (3602879701896397 / 2 ^ 55) =
      { rSum := (3602879701896397 / 2 ^ 55), rErr := 0 } :=
    kahanBabuskaNeumaierStep_smaller _ _ _ _ _ _ _ (by norm_num [fabs]) ht1 hd1 hc1 he1
  have hf : fadd (3602879701896397 / 2 ^ 55) 0 =
      (3602879701896397 / 2 ^ 55) :=
    (fadd_eval _ _ 3602879701896397 55
      3602879701896397
      (by norm_num) (by norm_num) (by decide)).trans (by norm_num)
  simp only [sqliteSum, List.foldl_cons, List.foldl_nil, hs1]
  exact hf

set_option maxRecDepth 100000 in
/-- The engine's sum of 0.1 and 0.2 is 0.30000000000000004. -/
theorem sqliteSum_tenth_fifth :
    sqliteSum [(3602879701896397 / 2 ^ 55),
      (3602879701896397 / 2 ^ 54)] =
      (1351079888211149 / 2 ^ 52) := by
  have ht1 : fadd 0 (3602879701896397 / 2 ^ 55) =
      (3602879701896397 / 2 ^ 55) :=
    (fadd_eval _ _ 3602879701896397 55
      3602879701896397
      (by norm_num) (by norm_num) (by decide)).trans (by norm_num)
  have hd1 : fsub (3602879701896397 / 2 ^ 55) (3602879701896397 / 2 ^ 55) =
      0 :=
    (fsub_eval _ _ 0 0
      0
      (by norm_num) (by norm_num) (by decide)).trans (by norm_num)
  have hc1 : fadd 0 0 =
      0 :=
    (fadd_eval _ _ 0 0
      0
      (by norm_num) (by norm_num) (by decide)).trans (by norm_num)
  have he1 : fadd 0 0 =
      0 :=
    (fadd_eval _ _ 0 0
      0
      (by norm_num) (by norm_num) (by decide)).trans (by norm_num)
  have hs1 : kahanBabuskaNeumaierStep
      { rSum := 0, rErr := 0 }
      (3602879701896397 / 2 ^ 55) =
      { rSum := (3602879701896397 / 2 ^ 55), rErr := 0 } :=
    kahanBabuskaNeumaierStep_smaller _ _ _ _ _ _ _ (by norm_num [fabs]) ht1 hd1 hc1 he1
  have ht2 : fadd (3602879701896397 / 2 ^ 55) (3602879701896397 / 2 ^ 54) =
      (1351079888211149 / 2 ^ 52) :=
    (fadd_eval _ _ 10808639105689191 55
      10808639105689192
      (by norm_num) (by norm_num) (by decide)).trans (by norm_num)
  have hd2 : fsub (3602879701896397 / 2 ^ 54) (1351079888211149 / 2 ^ 52) =
      (-(1801439850948199 / 2 ^ 54)) :=
    (fsub_eval_neg _ _ 1801439850948199 54
      1801439850948199
      (by norm_num) (by norm_num) (by decide)).trans (by norm_num)
  have hc2 : fadd (-(1801439850948199 / 2 ^ 54)) (3602879701896397 / 2 ^ 55) =
      (-(1 / 2 ^ 55)) :=
    (fadd_eval_neg _ _ 1 55
      1
      (by norm_num) (by norm_num) (by decide)).trans (by norm_num)
  have he2 : fadd 0 (-(1 / 2 ^ 55)) =
      (-(1 / 2 ^ 55)) :=
    (fadd_eval_neg _ _ 1 55
      1
      (by norm_num) (by norm_num) (by decide)).trans (by norm_num)
  have hs2 : kahanBabuskaNeumaierStep
      { rSum := (3602879701896397 / 2 ^ 55), rErr := 0 }
      (3602879701896397 / 2 ^ 54) =
      { rSum := (1351079888211149 / 2 ^ 52), rErr := (-(1 / 2 ^ 55)) } :=
    kahanBabuskaNeumaierStep_smaller _ _ _ _ _ _ _ (by norm_num [fabs]) ht2 hd2 hc2 he2
  have hf : fadd (1351079888211149 / 2 ^ 52) (-(1 / 2 ^ 55)) =
      (1351079888211149 / 2 ^ 52) :=
    (fadd_eval _ _ 10808639105689191 55
      10808639105689192
      (by norm_num) (by norm_num) (by decide)).trans (by norm_num)
  simp only [sqliteSum, List.foldl_cons, List.foldl_nil, hs1, hs2]
  exact hf

set_option maxRecDepth 100000 in
/-- The engine's sum of the one value -5. -/
theorem sqliteSum_minus_five :
    sqliteSum [(-5)] =
      (-5) := by
  have ht1 : fadd 0 (-5) =
      (-5) :=
    (fadd_eval_neg _ _ 5 0
      5
      (by norm_num) (by norm_num) (by decide)).trans (by norm_num)
  have hd1 : fsub (-5) (-5) =
      0 :=
    (fsub_eval _ _ 0 0
      0
      (by norm_num) (by norm_num) (by decide)).trans (by norm_num)
  have hc1 : fadd 0 0 =
      0 :=
    (fadd_eval _ _ 0 0
      0
      (by norm_num) (by norm_num) (by decide)).trans (by norm_num)
  have he1 : fadd 0 0 =
      0 :=
    (fadd_eval _ _ 0 0
      0
      (by norm_num) (by norm_num) (by decide)).trans (by norm_num)
  have hs1 : kahanBabuskaNeumaierStep
      { rSum := 0, rErr := 0 }
      (-5) =
      { rSum := (-5), rErr := 0 } :=
    kahanBabuskaNeumaierStep_smaller _ _ _ _ _ _ _ (by norm_num [fabs]) ht1 hd1 hc1 he1
  have hf : fadd (-5) 0 =
      (-5) :=
    (fadd_eval_neg _ _ 5 0
      5
      (by norm_num) (by norm_num) (by decide)).trans (by norm_num)
  simp only [sqliteSum, List.foldl_cons, List.foldl_nil, hs1]
  exact hf

set_option maxRecDepth 100000 in
/-- The engine's sum of the one value 500. -/
theorem sqliteSum_500 :
    sqliteSum [500] =
      500 := by
  have ht1 : fadd 0 500 =
      500 :=
    (fadd_eval _ _ 500 0
      500
      (by norm_num) (by norm_num) (by decide)).trans (by norm_num)
  have hd1 : fsub 500 500 =
      0 :=
    (fsub_eval _ _ 0 0
      0
      (by norm_num) (by norm_num) (by decide)).trans (by norm_num)
  have hc1 : fadd 0 0 =
      0 :=
    (fadd_eval _ _ 0 0
      0
      (by norm_num) (by norm_num) (by decide)).trans (by norm_num)
  have he1 : fadd 0 0 =
      0 :=
    (fadd_eval _ _ 0 0
      0
      (by norm_num) (by norm_num) (by decide)).trans (by norm_num)
  have hs1 : kahanBabuskaNeumaierStep
      { rSum := 0, rErr := 0 }
      500 =
      { rSum := 500, rErr := 0 } :=
    kahanBabuskaNeumaierStep_smaller _ _ _ _ _ _ _ (by norm_num [fabs]) ht1 hd1 hc1 he1
  have hf : fadd 500 0 =
      500 :=
    (fadd_eval _ _ 500 0
      500
      (by norm_num) (by norm_num) (by decide)).trans (by norm_num)
  simp only [sqliteSum, List.foldl_cons, List.foldl_nil, hs1]
  exact hf

set_option maxRecDepth 100000 in
/-- The engine's sum of 500 and -500. -/
theorem sqliteSum_500_debit_500 :
    sqliteSum [500,
      (-500)] =
      0 := by
  have ht1 : fadd 0 500 =
      500 :=
    (fadd_eval _ _ 500 0
      500
      (by norm_num) (by norm_num) (by decide)).trans (by norm_num)
  have hd1 : fsub 500 500 =
      0 :=
    (fsub_eval _ _ 0 0
      0
      (by norm_num) (by norm_num) (by decide)).trans (by norm_num)
  have hc1 : fadd 0 0 =
      0 :=
    (fadd_eval _ _ 0 0
      0
      (by norm_num) (by norm_num) (by decide)).trans (by norm_num)
  have he1 : fadd 0 0 =
      0 :=
    (fadd_eval _ _ 0 0
      0
      (by norm_num) (by norm_num) (by decide)).trans (by norm_num)
  have hs1 : kahanBabuskaNeumaierStep
      { rSum := 0, rErr := 0 }
      500 =
      { rSum := 500, rErr := 0 } :=
    kahanBabuskaNeumaierStep_smaller _ _ _ _ _ _ _ (by norm_num [fabs]) ht1 hd1 hc1 he1
  have ht2 : fadd 500 (-500) =
      0 :=
    (fadd_eval _ _ 0 0
      0
      (by norm_num) (by norm_num) (by decide)).trans (by norm_num)
  have hd2 : fsub (-500) 0 =
      (-500) :=
    (fsub_eval_neg _ _ 500 0
      500
      (by norm_num) (by norm_num) (by decide)).trans (by norm_num)
  have hc2 : fadd (-500) 500 =
      0 :=
    (fadd_eval _ _ 0 0
      0
      (by norm_num) (by norm_num) (by decide)).trans (by norm_num)
  have he2 : fadd 0 0 =
      0 :=
    (fadd_eval _ _ 0 0
      0
      (by norm_num) (by norm_num) (by decide)).trans (by norm_num)
  have hs2 : kahanBabuskaNeumaierStep
      { rSum := 500, rErr := 0 }
      (-500) =
      { rSum := 0, rErr := 0 } :=
    kahanBabuskaNeumaierStep_smaller _ _ _ _ _ _ _ (by norm_num [fabs]) ht2 hd2 hc2 he2
  have hf : fadd 0 0 =
      0 :=
    (fadd_eval _ _ 0 0
      0
      (by norm_num) (by norm_num) (by decide)).trans (by norm_num)
  simp only [sqliteSum, List.foldl_cons, List.foldl_nil, hs1, hs2]
  exact hf

/-- With the sum taken exactly, the engine's answer is `GetBalance`. -/
theorem GetBalanceWith_exact (movements : List Movement) (accountID : String) :
    GetBalanceWith List.sum movements accountID = GetBalance movements accountID := by
  unfold GetBalanceWith GetBalance
  cases h : (movements.filter (fun m => m.AccountID == accountID)).map signedAmount with
  | nil => simp
  | cons v rest => rfl

theorem GetBalanceWith_rows (sum : List ℚ → ℚ) (movements : List Movement)
    (accountID : String)
    (h : movements.filter (fun m => m.AccountID == accountID) ≠ []) :
    GetBalanceWith sum movements accountID =
      sum ((movements.filter (fun m => m.AccountID == accountID)).map signedAmount) := by
  unfold GetBalanceWith
  cases hrows : (movements.filter (fun m => m.AccountID == accountID)).map signedAmount with
  | nil =>
    exfalso
    exact h (List.map_eq_nil_iff.mp hrows)
  | cons v rest => rfl

theorem GetBalanceWith_congr (sum : List ℚ → ℚ) (movements others : List Movement)
    (accountID : String)
    (h : others.filter (fun m => m.AccountID == accountID) =
      movements.filter (fun m => m.AccountID == accountID)) :
    GetBalanceWith sum others accountID = GetBalanceWith sum movements accountID := by
  unfold GetBalanceWith
  rw [h]

theorem GetBalanceWith_none (sum : List ℚ → ℚ) (movements : List Movement)
    (accountID : String) (hnone : ∀ m ∈ movements, m.AccountID ≠ accountID) :
    GetBalanceWith sum movements accountID = 0 := by
  have hrows : movements.filter (fun m => m.AccountID == accountID) = [] := by
    rw [List.filter_eq_nil_iff]
    intro m hm
    simpa using hnone m hm
  unfold GetBalanceWith
  rw [hrows]
  rfl

/-- A movement appended to the account's ledger enters the engine's sum as its last
value. -/
theorem GetBalanceWith_append_own (sum : List ℚ → ℚ) (movements : List Movement)
    (m : Movement) :
    GetBalanceWith sum (movements ++ [m]) m.AccountID =
      sum ((movements.filter (fun x => x.AccountID == m.AccountID)).map signedAmount ++
        [signedAmount m]) := by
  rw [GetBalanceWith_rows sum _ _ (by simp [List.filter_append])]
  simp [List.filter_append]

/-- Movements appended for other accounts leave the engine's answer as it was. -/
theorem GetBalanceWith_append_other (sum : List ℚ → ℚ) (movements extra : List Movement)
    (accountID : String) (h : ∀ m ∈ extra, m.AccountID ≠ accountID) :
    GetBalanceWith sum (movements ++ extra) accountID =
      GetBalanceWith sum movements accountID := by
  apply GetBalanceWith_congr
  rw [List.filter_append]
  have hextra : extra.filter (fun m => m.AccountID == accountID) = [] := by
    rw [List.filter_eq_nil_iff]
    intro m hm
    simpa using h m hm
  rw [hextra, List.append_nil]

/-- A valid request with a fresh key on an active account, covered by the engine's
balance when it is a debit, appends its movement when the repository calls it reaches
work. -/
theorem CreateMovementWith_appends (sum : List ℚ → ℚ) (env : MovementEnv) (st : State)
    (request : MovementRequest)
    (account : Account) (hcheck : env.checkIdempotencyFails = false)
    (hget : env.getByNumberFails = false)
    (hbal : request.Kind = "D" → env.getBalanceFails = false)
    (hcreate : env.createMovementFails = false)
    (hkind : request.Kind = "C" ∨ request.Kind = "D") (hpos : 0 < request.Amount)
    (hfresh : CheckIdempotency st request.RequestID = none)
    (hacc : GetByNumber st request.AccountNumber = some account)
    (hactive : account.Active = true)
    (hcover : request.Kind = "D" →
      request.Amount ≤ GetBalanceWith sum st.movements account.ID) :
    CreateMovementWith sum env st request = (appended env st request account, none) := by
  unfold CreateMovementWith
  have h1 : ¬ (request.Kind ≠ MovementTypeCredit ∧ request.Kind ≠ MovementTypeDebit) := by
    simp only [MovementTypeCredit, MovementTypeDebit]
    rcases hkind with h | h <;> simp [h]
  have h2 : ¬ request.Amount ≤ 0 := not_le.mpr hpos
  have h7 : ¬ (request.Kind = MovementTypeDebit ∧ env.getBalanceFails = true) := by
    rintro ⟨hd, hf⟩
    simp [hbal hd] at hf
  have h8 : ¬ (request.Kind = MovementTypeDebit ∧
      GetBalanceWith sum st.movements account.ID < request.Amount) := by
    rintro ⟨hd, hlt⟩
    exact absurd (hcover hd) (not_le.mpr hlt)
  simp [h1, h2, hcheck, hfresh, hget, hacc, hactive, h7, h8, hcreate, appended]

/-- With the sum taken exactly, the balance is the sum of the account's "C" amounts minus
the sum of the amounts of its movements of every other type. -/
theorem GetBalance_credits_minus_others (movements : List Movement) (accountID : String) :
    GetBalance movements accountID =
      sumOfKind movements accountID "C" -
        ((movements.filter (fun m => m.AccountID == accountID && m.Kind != "C")).map
          (fun m => m.Amount)).sum := by
  induction movements with
  | nil => simp [GetBalance, sumOfKind]
  | cons m ms ih =>
    rw [GetBalance_cons, sumOfKind_cons, ih]
    by_cases ha : m.AccountID = accountID
    · by_cases hc : m.Kind = "C"
      · simp [ha, hc, signedAmount, List.filter_cons]
        ring
      · simp [ha, hc, signedAmount, List.filter_cons]
        ring
    · simp [ha, List.filter_cons]

/-- C1 fails as stated.  For the log of the credits 0.1 and 0.2 of `acc-1` the engine
answers 0.30000000000000004, while the sum of the "C" amounts minus the sum of the "D"
amounts is the rational 0.1 + 0.2 of the two float64 values, which is another number.  And
a movement of type "c" is subtracted although it is not of type "D": the engine answers -5
where the "C" amounts minus the "D" amounts are 0. -/
theorem GetBalance_exact_counterexample :
    GetBalanceWith sqliteSum sampleCentsLog "acc-1" = float0_30000000000000004 ∧
    sumOfKind sampleCentsLog "acc-1" "C" - sumOfKind sampleCentsLog "acc-1" "D" =
      float0_1 + float0_2 ∧
    float0_30000000000000004 ≠ float0_1 + float0_2 ∧
    GetBalanceWith sqliteSum sampleLowercaseLog "acc-1" = -5 ∧
    sumOfKind sampleLowercaseLog "acc-1" "C" - sumOfKind sampleLowercaseLog "acc-1" "D" =
      0 := by
  refine ⟨?_, ?_, ?_, ?_, ?_⟩
  · have h : GetBalanceWith sqliteSum sampleCentsLog "acc-1" =
        sqliteSum [(3602879701896397 / 2 ^ 55), (3602879701896397 / 2 ^ 54)] := rfl
    rw [h, sqliteSum_tenth_fifth]
    rfl
  · simp [sumOfKind, sampleCentsLog]
  · norm_num [float0_30000000000000004, float0_1, float0_2]
  · have h : GetBalanceWith sqliteSum sampleLowercaseLog "acc-1" = sqliteSum [(-5)] := rfl
    rw [h, sqliteSum_minus_five]
  · simp [sumOfKind, sampleLowercaseLog]

/-- C1, amended: for every movement log, every account id and every aggregate `sum` of
the database engine, `GetBalance` answers the engine's sum over the account's movements,
in the order of the log, of +amount for type "C" and -amount for every other type; it is
0 for an account with no movements, and it is determined by the account's own movements
alone.  With the sum taken exactly, the answer is the sum of the "C" amounts minus the sum
of the amounts of the other movements, which is the sum of the "C" amounts minus the sum
of the "D" amounts when the account's movements have type "C" or "D". -/
theorem GetBalance_engine_sum (sum : List ℚ → ℚ) (movements : List Movement)
    (accountID : String) :
    (movements.filter (fun m => m.AccountID == accountID) ≠ [] →
      GetBalanceWith sum movements accountID =
        sum ((movements.filter (fun m => m.AccountID == accountID)).map
          (fun m => if m.Kind = "C" then m.Amount else -m.Amount))) ∧
    ((∀ m ∈ movements, m.AccountID ≠ accountID) →
      GetBalanceWith sum movements accountID = 0) ∧
    (∀ others : List Movement,
      others.filter (fun m => m.AccountID == accountID) =
        movements.filter (fun m => m.AccountID == accountID) →
      GetBalanceWith sum others accountID = GetBalanceWith sum movements accountID) ∧
    GetBalanceWith List.sum movements accountID =
      sumOfKind movements accountID "C" -
        ((movements.filter (fun m => m.AccountID == accountID && m.Kind != "C")).map
          (fun m => m.Amount)).sum ∧
    ((∀ m ∈ movements, m.AccountID = accountID → m.Kind = "C" ∨ m.Kind = "D") →
      GetBalanceWith List.sum movements accountID =
        sumOfKind movements accountID "C" - sumOfKind movements accountID "D") := by
  refine ⟨?_, GetBalanceWith_none sum movements accountID, ?_, ?_, ?_⟩
  · intro h
    rw [GetBalanceWith_rows sum movements accountID h]
    rfl
  · intro others h
    exact GetBalanceWith_congr sum movements others accountID h
  · rw [GetBalanceWith_exact]
    exact GetBalance_credits_minus_others movements accountID
  · intro h
    rw [GetBalanceWith_exact]
    exact GetBalance_eq_sumOfKind movements accountID h

/-- Witness of amended C1 on the log of three movements, with the engine's sum: the
balance of `acc-1` is the engine's sum of 100 and -30, taken exactly it is 100 - 30, and an
account without movements has balance 0. -/
theorem GetBalance_engine_sum_witness :
    GetBalanceWith sqliteSum sampleLog "acc-1" = sqliteSum [100, -30] ∧
    GetBalanceWith List.sum sampleLog "acc-1" =
      sumOfKind sampleLog "acc-1" "C" - sumOfKind sampleLog "acc-1" "D" ∧
    sumOfKind sampleLog "acc-1" "C" = 100 ∧ sumOfKind sampleLog "acc-1" "D" = 30 ∧
    GetBalanceWith sqliteSum sampleLog "acc-9" = 0 :=
  ⟨(GetBalance_engine_sum sqliteSum sampleLog "acc-1").1 (by decide),
   (GetBalance_engine_sum sqliteSum sampleLog "acc-1").2.2.2.2 (by decide),
   by simp [sumOfKind, sampleLog], by simp [sumOfKind, sampleLog],
   (GetBalance_engine_sum sqliteSum sampleLog "acc-9").2.1 (by decide)⟩

theorem sampleTenthLedger_balance :
    GetBalanceWith sqliteSum sampleTenthLedger.movements "acc-1" = float0_1 := by
  have h : GetBalanceWith sqliteSum sampleTenthLedger.movements "acc-1" =
      sqliteSum [(3602879701896397 / 2 ^ 55)] := rfl
  rw [h, sqliteSum_tenth]
  rfl

/-- C22 fails as stated: account 100001 holds 0.1 and a credit of 0.2 arrives under a
fresh key.  The call succeeds and appends the movement; the engine answered 0.1 before and
answers 0.30000000000000004 after, which is not 0.1 + 0.2: the balance did not change by
the amount. -/
theorem CreateMovement_balance_change_counterexample :
    (CreateMovementWith sqliteSum (MovementEnv.ok "m2") sampleTenthLedger
      sampleCreditFifth).2 = none ∧
    (CreateMovementWith sqliteSum (MovementEnv.ok "m2") sampleTenthLedger
      sampleCreditFifth).1.movements =
      sampleTenthLedger.movements ++ [NewMovement "m2" "acc-1" "C" float0_2 (some "r2")] ∧
    GetBalanceWith sqliteSum sampleTenthLedger.movements "acc-1" = float0_1 ∧
    GetBalanceWith sqliteSum
      (CreateMovementWith sqliteSum (MovementEnv.ok "m2") sampleTenthLedger
        sampleCreditFifth).1.movements "acc-1" = float0_30000000000000004 ∧
    GetBalanceWith sqliteSum
      (CreateMovementWith sqliteSum (MovementEnv.ok "m2") sampleTenthLedger
        sampleCreditFifth).1.movements "acc-1" ≠
      GetBalanceWith sqliteSum sampleTenthLedger.movements "acc-1" +
        sampleCreditFifth.Amount := by
  have hcall : CreateMovementWith sqliteSum (MovementEnv.ok "m2") sampleTenthLedger
      sampleCreditFifth =
      (appended (MovementEnv.ok "m2") sampleTenthLedger sampleCreditFifth sampleOrigin,
        none) :=
    CreateMovementWith_appends sqliteSum (MovementEnv.ok "m2") sampleTenthLedger
      sampleCreditFifth sampleOrigin rfl rfl (fun _ => rfl) rfl (Or.inl rfl)
      (by norm_num [sampleCreditFifth, float0_2]) (by decide) (by decide) rfl
      (fun h => absurd h (by decide))
  have hafter : GetBalanceWith sqliteSum
      (CreateMovementWith sqliteSum (MovementEnv.ok "m2") sampleTenthLedger
        sampleCreditFifth).1.movements "acc-1" = float0_30000000000000004 := by
    rw [hcall]
    have h : GetBalanceWith sqliteSum
        (appended (MovementEnv.ok "m2") sampleTenthLedger sampleCreditFifth
          sampleOrigin).movements "acc-1" =
        sqliteSum [(3602879701896397 / 2 ^ 55), (3602879701896397 / 2 ^ 54)] := rfl
    rw [h, sqliteSum_tenth_fifth]
    rfl
  refine ⟨by rw [hcall], ?_, sampleTenthLedger_balance, hafter, ?_⟩
  · rw [hcall]
    rfl
  · rw [hafter, sampleTenthLedger_balance]
    norm_num [float0_30000000000000004, float0_1, float0_2, sampleCreditFifth]

/-- C22, amended: for every valid movement request with a fresh requestId (type "C" or
"D", amount > 0) on an existing active account, where for a debit the amount is at most the
balance the engine answers (equality included), `CreateMovement`, the repository calls
working, succeeds, appends exactly one movement carrying the account's id, the requested
type, the requested amount and the requestId as its idempotency key, and records the
result "SUCCESS" under the requestId.  The account's balance is then the engine's sum over
the values it summed before followed by +amount for a credit and -amount for a debit, and
the balance of every other account is what it was; this holds for every aggregate `sum`.
With the sum taken exactly the balance changes by +amount or -amount. -/
theorem CreateMovement_valid_request (sum : List ℚ → ℚ) (env : MovementEnv) (st : State)
    (request : MovementRequest) (account : Account) (henv : env.noFault)
    (hkind : request.Kind = "C" ∨ request.Kind = "D") (hpos : 0 < request.Amount)
    (hfresh : CheckIdempotency st request.RequestID = none)
    (hacc : GetByNumber st request.AccountNumber = some account)
    (hactive : account.Active = true)
    (hcover : request.Kind = "D" →
      request.Amount ≤ GetBalanceWith sum st.movements account.ID) :
    (CreateMovementWith sum env st request).2 = none ∧
    (CreateMovementWith sum env st request).1.movements =
      st.movements ++ [{ ID := env.newID, AccountID := account.ID, Kind := request.Kind,
                         Amount := request.Amount,
                         IdempotencyKey := some request.RequestID }] ∧
    (CreateMovementWith sum env st request).1.idempotency =
      st.idempotency ++ [{ Key := request.RequestID, Request := request,
                           Result := "SUCCESS" }] ∧
    GetBalanceWith sum (CreateMovementWith sum env st request).1.movements account.ID =
      sum ((st.movements.filter (fun m => m.AccountID == account.ID)).map signedAmount ++
        [if request.Kind = "C" then request.Amount else -request.Amount]) ∧
    (∀ other : String, other ≠ account.ID →
      GetBalanceWith sum (CreateMovementWith sum env st request).1.movements other =
        GetBalanceWith sum st.movements other) ∧
    (sum = List.sum →
      GetBalanceWith sum (CreateMovementWith sum env st request).1.movements account.ID =
        GetBalanceWith sum st.movements account.ID +
          (if request.Kind = "C" then request.Amount else -request.Amount)) := by
  obtain ⟨hc, hg, hb, hcr, hs⟩ := henv
  rw [CreateMovementWith_appends sum env st request account hc hg (fun _ => hb) hcr hkind
    hpos hfresh hacc hactive hcover]
  refine ⟨rfl, appended_movements env st request account,
    appended_idempotency env st request account hs hfresh, ?_, ?_, ?_⟩
  · show GetBalanceWith sum (appended env st request account).movements account.ID = _
    rw [appended_movements]
    exact GetBalanceWith_append_own sum st.movements
      (NewMovement env.newID account.ID request.Kind request.Amount (some request.RequestID))
  · intro other hne
    show GetBalanceWith sum (appended env st request account).movements other = _
    rw [appended_movements]
    apply GetBalanceWith_append_other
    intro m hm
    simp only [List.mem_singleton] at hm
    rw [hm]
    exact fun h => hne h.symm
  · intro hsum
    subst hsum
    show GetBalanceWith List.sum (appended env st request account).movements account.ID = _
    rw [GetBalanceWith_exact, GetBalanceWith_exact, appended_balance]
    simp

/-- Witness of amended C22 with SQLite's sum: a debit of exactly the 500.00 held by
account 100001 succeeds, and the engine's sum of 500 and -500 leaves the balance at 0. -/
theorem CreateMovement_valid_request_witness :
    (CreateMovementWith sqliteSum (MovementEnv.ok "mov-9") sampleBank
      sampleWithdrawAll).2 = none ∧
    (CreateMovementWith sqliteSum (MovementEnv.ok "mov-9") sampleBank
      sampleWithdrawAll).1.movements =
      sampleBank.movements ++ [{ ID := "mov-9", AccountID := "acc-1", Kind := "D",
                                 Amount := 500, IdempotencyKey := some "wd-all" }] ∧
    GetBalanceWith sqliteSum (CreateMovementWith sqliteSum (MovementEnv.ok "mov-9")
      sampleBank sampleWithdrawAll).1.movements "acc-1" = 0 := by
  have hbefore : GetBalanceWith sqliteSum sampleBank.movements "acc-1" = 500 := by
    have h : GetBalanceWith sqliteSum sampleBank.movements "acc-1" = sqliteSum [500] := rfl
    rw [h, sqliteSum_500]
  obtain ⟨h1, h2, _, h4, _⟩ := CreateMovement_valid_request sqliteSum
    (MovementEnv.ok "mov-9") sampleBank sampleWithdrawAll sampleOrigin (by decide)
    (Or.inr rfl) (by norm_num [sampleWithdrawAll]) (by decide) (by decide) rfl
    (fun _ => by
      show (500 : ℚ) ≤ GetBalanceWith sqliteSum sampleBank.movements "acc-1"
      rw [hbefore])
  refine ⟨h1, h2, ?_⟩
  have h4' : GetBalanceWith sqliteSum (CreateMovementWith sqliteSum (MovementEnv.ok "mov-9")
      sampleBank sampleWithdrawAll).1.movements "acc-1" = sqliteSum [500, -500] := h4
  rw [h4', sqliteSum_500_debit_500]

/-! ## Claims on transfers, with the balance as the engine answers it -/

end BankMore
